import Mathlib

/-!
# ParkourSystem: the parkour movement state machine

A shallow embedding of `AParkourSystemCharacter`
(`Source/ParkourSystem/ParkourSystemCharacter.cpp`, `.h`, `ParkourMode.h`).

* The character, its movement component, capsule, camera, actor transform and
  the world timer manager are one record, `AParkourSystemCharacter`; every
  member function is a function on that record (explicit state passing).
  A C++ function that returns a value and mutates the object returns a pair.
* `float` is modelled by `ℚ` (exact arithmetic).
* Engine functions the repository calls but does not define are either
  parameters (`Engine`: the world line trace, `GetSafeNormal`, `Length`) or
  small models placed under a doc comment that says so.
* The movement component is always present (`ACharacter` constructs it), so
  the `!GetCharacterMovement()` guards are never taken.
* The movement component notifies the character that owns it from inside
  `SetMovementMode`, before that call returns. The member functions are
  therefore written over the handler the component calls (`Owner`), and the
  program is the member functions with the character's own
  `OnMovementModeChanged` as that handler (`CharacterOwner`).
* A change of mode made by the simulation, the expiry of a timer and a physics
  update are operations of their own (`Operation`).
-/

namespace ParkourSystem

/-! ## Data model -/

/-- The enum `EParkourMode` of `ParkourMode.h`. -/
inductive EParkourMode where
  | EPM_None
  | EPM_Sprint
  | EPM_Crouch
  | EPM_Slide
  deriving DecidableEq, Repr

/-- Modelled from the spec: the engine enum `EMovementMode` (the grounded or
airborne state reported by the movement simulation). -/
inductive EMovementMode where
  | MOVE_None
  | MOVE_Walking
  | MOVE_NavWalking
  | MOVE_Falling
  | MOVE_Swimming
  | MOVE_Flying
  | MOVE_Custom
  deriving DecidableEq, Repr

/-- Modelled from the spec: the engine type `FVector`, three coordinates. -/
structure FVector where
  X : ℚ
  Y : ℚ
  Z : ℚ
  deriving DecidableEq, Repr

namespace FVector

/-- The engine constant `FVector::ZeroVector`. -/
def ZeroVector : FVector := ⟨0, 0, 0⟩

/-- The engine constant `FVector::UpVector`. -/
def UpVector : FVector := ⟨0, 0, 1⟩

/-- The engine constant `FVector::ZAxisVector`. -/
def ZAxisVector : FVector := ⟨0, 0, 1⟩

/-- Vector sum, `A + B`. -/
def add (A B : FVector) : FVector := ⟨A.X + B.X, A.Y + B.Y, A.Z + B.Z⟩

/-- Vector difference, `A - B`. -/
def sub (A B : FVector) : FVector := ⟨A.X - B.X, A.Y - B.Y, A.Z - B.Z⟩

/-- Scaling by a float, `Scale * V` and `V * Scale`. -/
def scale (Scale : ℚ) (V : FVector) : FVector := ⟨Scale * V.X, Scale * V.Y, Scale * V.Z⟩

/-- The engine function `FVector::DotProduct`. -/
def DotProduct (A B : FVector) : ℚ := A.X * B.X + A.Y * B.Y + A.Z * B.Z

/-- The engine function `FVector::CrossProduct`. -/
def CrossProduct (A B : FVector) : FVector :=
  ⟨A.Y * B.Z - A.Z * B.Y, A.Z * B.X - A.X * B.Z, A.X * B.Y - A.Y * B.X⟩

/-- The engine function `FVector::Equals(V, Tolerance)`: coordinatewise
closeness. -/
def Equals (A B : FVector) (Tolerance : ℚ) : Bool :=
  decide (|A.X - B.X| ≤ Tolerance) && decide (|A.Y - B.Y| ≤ Tolerance)
    && decide (|A.Z - B.Z| ≤ Tolerance)

end FVector

/-- The engine constant `KINDA_SMALL_NUMBER`, the default tolerance of
`FVector::Equals`. -/
def KINDA_SMALL_NUMBER : ℚ := 1 / 10000

/-- The engine function `FMath::Clamp`. -/
def Clamp (X Min Max : ℚ) : ℚ := if X < Min then Min else if X < Max then X else Max

/-- Modelled from the spec: the engine function `FMath::FInterpTo`, one step
of the interpolation `Current + (Target - Current) * Clamp(DeltaTime * InterpSpeed, 0, 1)`. -/
def FInterpTo (Current Target DeltaTime InterpSpeed : ℚ) : ℚ :=
  Current + (Target - Current) * Clamp (DeltaTime * InterpSpeed) 0 1

/-- One pending timer of the world timer manager. The only delegate this
program ever registers is `EnableSprint`, so a timer is its handle and the
time left. -/
structure FTimerData where
  Handle : Nat
  Remaining : ℚ
  deriving DecidableEq, Repr

/-- Engine services that the repository calls and that have no exact model
over `ℚ` or depend on the level geometry: the visibility line trace of the
world (`true` when the trace hits something), `FVector::GetSafeNormal` and
`FVector::Length`. -/
structure Engine where
  LineTraceSingleByChannel : FVector → FVector → Bool
  GetSafeNormal : FVector → FVector
  Length : FVector → ℚ

/-- The state of one character: the members of `AParkourSystemCharacter`
followed by the state of the engine objects its member functions read and
write (actor transform, capsule, camera, movement component, world). -/
structure AParkourSystemCharacter where
  CurrentMovementMode : EMovementMode
  PreviousMovementMode : EMovementMode
  CurrentParkourMode : EParkourMode
  PrevParkourMode : EParkourMode
  bCanSprint : Bool
  /-- Handle of the sprint re-enable timer; `0` is the invalid handle. -/
  SprintTimerHandle : Nat
  bCanSlide : Bool
  bCanDoubleJump : Bool
  VerticalJumpForce : ℚ
  HorizontalJumpForce : ℚ
  SprintSpeed : ℚ
  SprintJumpForce : ℚ
  DefaultWalkSpeed : ℚ
  bIsSprintQueued : Bool
  CrouchCapsuleHalfHeight : ℚ
  CrouchCameraZOffset : ℚ
  StandingCapsuleHalfHeight : ℚ
  StandingCameraZOffset : ℚ
  SlideSpeed : ℚ
  SlideForceMultiplier : ℚ
  DefaultGroundFriction : ℚ
  DefaultBrakingDeceleration : ℚ
  bIsSlideQueued : Bool
  bHasRifle : Bool
  /-- Actor transform: `GetActorLocation()`. -/
  ActorLocation : FVector
  /-- Actor transform: `GetActorForwardVector()`. -/
  ActorForwardVector : FVector
  /-- Actor transform: `GetActorRightVector()`. -/
  ActorRightVector : FVector
  /-- Capsule component: `GetScaledCapsuleHalfHeight()` (unit scale). -/
  CapsuleHalfHeight : ℚ
  /-- Camera component: `GetRelativeLocation()`. -/
  CameraRelativeLocation : FVector
  /-- Movement component: `MaxWalkSpeed`. -/
  MaxWalkSpeed : ℚ
  /-- Movement component: `MaxWalkSpeedCrouched`. -/
  MaxWalkSpeedCrouched : ℚ
  /-- Movement component: `GroundFriction`. -/
  GroundFriction : ℚ
  /-- Movement component: `BrakingDecelerationWalking`. -/
  BrakingDecelerationWalking : ℚ
  /-- Movement component: whether the plane constraint is enabled. -/
  bConstrainToPlane : Bool
  /-- Movement component: `MovementMode`. -/
  MovementMode : EMovementMode
  /-- Movement component: `Velocity`. -/
  Velocity : FVector
  /-- Movement component: `CurrentFloor.HitResult.Normal`. -/
  CurrentFloorNormal : FVector
  /-- Movement component: `GetLastInputVector()`. -/
  LastInputVector : FVector
  /-- Movement component: the arguments of every `AddImpulse` call so far,
  oldest first. -/
  Impulses : List FVector
  /-- Movement component: the arguments of every `AddForce` call so far,
  oldest first. -/
  Forces : List FVector
  /-- The launch velocities of every `LaunchCharacter` call so far, oldest
  first. -/
  Launches : List FVector
  /-- World: `UGameplayStatics::GetWorldDeltaSeconds`. -/
  DeltaSeconds : ℚ
  /-- World timer manager: the pending timers. -/
  Timers : List FTimerData
  /-- World timer manager: the last handle it handed out. -/
  LastAssignedHandle : Nat

/-! ## Engine calls made by the member functions -/

/-- Modelled from the spec: `UCharacterMovementComponent::IsWalking`, the
simulation reports grounded-walking (movement mode walking or nav-walking). -/
def IsWalking (s : AParkourSystemCharacter) : Bool :=
  decide (s.MovementMode = EMovementMode.MOVE_Walking)
    || decide (s.MovementMode = EMovementMode.MOVE_NavWalking)

/-- Modelled from the spec: `UCharacterMovementComponent::IsFalling`, the
simulation reports the character airborne. -/
def IsFalling (s : AParkourSystemCharacter) : Bool :=
  decide (s.MovementMode = EMovementMode.MOVE_Falling)

/-- What the movement component knows of the character that owns it
(`CharacterOwner`): the handler it calls when its movement mode has changed,
the virtual `OnMovementModeChanged`, as a function of the state and of the
mode the component has left. -/
@[reducible] def FCharacterOwner : Type :=
  AParkourSystemCharacter → EMovementMode → AParkourSystemCharacter

/-- Modelled from the spec: `UCharacterMovementComponent::SetMovementMode`,
which forces the simulation into the given locomotion mode. Nothing happens
when the component is in that mode already; otherwise the component switches
to it and notifies its owner before the call returns
(`CharacterOwner->OnMovementModeChanged`), passing the mode it has left. -/
def SetMovementMode (Owner : FCharacterOwner) (s : AParkourSystemCharacter)
    (NewMovementMode : EMovementMode) : AParkourSystemCharacter :=
  if s.MovementMode = NewMovementMode then s
  else Owner { s with MovementMode := NewMovementMode } s.MovementMode

/-- Modelled from the spec: `UCharacterMovementComponent::AddImpulse`
(`ApplyImpulse(vector, ignoreMass)` of the movement simulation); the call is
recorded. -/
def AddImpulse (s : AParkourSystemCharacter) (Impulse : FVector) : AParkourSystemCharacter :=
  { s with Impulses := s.Impulses ++ [Impulse] }

/-- Modelled from the spec: `UCharacterMovementComponent::AddForce`
(`ApplyForce(vector)` of the movement simulation); the call is recorded. -/
def AddForce (s : AParkourSystemCharacter) (Force : FVector) : AParkourSystemCharacter :=
  { s with Forces := s.Forces ++ [Force] }

/-- Modelled from the spec: `ACharacter::LaunchCharacter`, the extra impulse
of the double jump; the call is recorded. -/
def LaunchCharacter (s : AParkourSystemCharacter) (LaunchVelocity : FVector) :
    AParkourSystemCharacter :=
  { s with Launches := s.Launches ++ [LaunchVelocity] }

/-- Modelled from the spec: `FTimerManager::SetTimer` called on
`SprintTimerHandle` with the delegate `EnableSprint` (`ScheduleOnce` of the
scheduler, one outstanding handle per timer purpose): a timer still pending
under the handle is cleared, then a timer with a fresh handle is added when
the rate is positive, and the handle is made invalid otherwise. -/
def SetTimer (s : AParkourSystemCharacter) (InRate : ℚ) : AParkourSystemCharacter :=
  let Cleared := s.Timers.filter (fun t => decide (t.Handle ≠ s.SprintTimerHandle))
  if 0 < InRate then
    let NewHandle := s.LastAssignedHandle + 1
    { s with
      Timers := Cleared ++ [{ Handle := NewHandle, Remaining := InRate }]
      LastAssignedHandle := NewHandle
      SprintTimerHandle := NewHandle }
  else
    { s with Timers := Cleared, SprintTimerHandle := 0 }

/-! ## Member functions of `AParkourSystemCharacter` -/

/-- `AParkourSystemCharacter::EnableSprint`. -/
def EnableSprint (s : AParkourSystemCharacter) : AParkourSystemCharacter :=
  { s with bCanSprint := true }

/-- `AParkourSystemCharacter::DisableSprint`. -/
def DisableSprint (s : AParkourSystemCharacter) : AParkourSystemCharacter :=
  { s with bCanSprint := false }

/-- `AParkourSystemCharacter::EnableSlide`. -/
def EnableSlide (s : AParkourSystemCharacter) : AParkourSystemCharacter :=
  { s with bCanSlide := true }

/-- `AParkourSystemCharacter::DisableSlide`. -/
def DisableSlide (s : AParkourSystemCharacter) : AParkourSystemCharacter :=
  { s with bCanSlide := false }

/-- `AParkourSystemCharacter::ForwardInput`: the last input vector points
forward. -/
def ForwardInput (s : AParkourSystemCharacter) : Bool :=
  let Cosine := FVector.DotProduct s.ActorForwardVector s.LastInputVector
  decide (Cosine > 0)

/-- `AParkourSystemCharacter::ResetMovement`. -/
def ResetMovement (Owner : FCharacterOwner) (s : AParkourSystemCharacter)
    : AParkourSystemCharacter :=
  if s.CurrentParkourMode = EParkourMode.EPM_None
      ∨ s.CurrentParkourMode = EParkourMode.EPM_Crouch then
    let s1 :=
      if s.CurrentParkourMode = EParkourMode.EPM_Crouch then
        { s with MaxWalkSpeed := s.MaxWalkSpeedCrouched }
      else
        { s with MaxWalkSpeed := s.DefaultWalkSpeed }
    let s2 := { s1 with GroundFriction := s1.DefaultGroundFriction }
    let s3 := { s2 with BrakingDecelerationWalking := s2.DefaultBrakingDeceleration }
    let s4 := { s3 with bConstrainToPlane := false }
    let bToWalking : Bool :=
      decide (s4.PrevParkourMode = EParkourMode.EPM_None)
        || decide (s4.PrevParkourMode = EParkourMode.EPM_Sprint)
        || decide (s4.PrevParkourMode = EParkourMode.EPM_Crouch)
        || decide (s4.PrevParkourMode = EParkourMode.EPM_Slide)
    if bToWalking then SetMovementMode Owner s4 EMovementMode.MOVE_Walking else s4
  else
    s

/-- `AParkourSystemCharacter::SetParkourMode`: the returned flag says whether
the parkour mode was changed. -/
def SetParkourMode (Owner : FCharacterOwner) (s : AParkourSystemCharacter)
    (InNewParkourMode : EParkourMode) :
    Bool × AParkourSystemCharacter :=
  if InNewParkourMode = s.CurrentParkourMode then
    (false, s)
  else
    let s1 := { s with PrevParkourMode := s.CurrentParkourMode }
    let s2 := { s1 with CurrentParkourMode := InNewParkourMode }
    (true, ResetMovement Owner s2)

/-- `AParkourSystemCharacter::CanStand`: nothing is hit by the trace from the
bottom of the capsule to two standing half-heights above it. -/
def CanStand (e : Engine) (s : AParkourSystemCharacter) : Bool :=
  let TraceStart := FVector.sub s.ActorLocation ⟨0, 0, s.CapsuleHalfHeight⟩
  let TraceEnd := FVector.add TraceStart ⟨0, 0, 2 * s.StandingCapsuleHalfHeight⟩
  !e.LineTraceSingleByChannel TraceStart TraceEnd

/-- `AParkourSystemCharacter::CanSprint`. -/
def CanSprint (s : AParkourSystemCharacter) : Bool :=
  decide (s.CurrentParkourMode = EParkourMode.EPM_None) && IsWalking s

/-- `AParkourSystemCharacter::CanSlide`. -/
def CanSlide (s : AParkourSystemCharacter) : Bool :=
  let bSprintFactors : Bool :=
    decide (s.CurrentParkourMode = EParkourMode.EPM_Sprint) || s.bIsSprintQueued
  ForwardInput s && bSprintFactors

/-- `AParkourSystemCharacter::CrouchStart`. -/
def CrouchStart (Owner : FCharacterOwner) (s : AParkourSystemCharacter) : AParkourSystemCharacter :=
  if s.CurrentParkourMode = EParkourMode.EPM_None then
    let s1 := (SetParkourMode Owner s EParkourMode.EPM_Crouch).2
    let s2 := { s1 with MaxWalkSpeed := s1.MaxWalkSpeedCrouched }
    let s3 := { s2 with bIsSprintQueued := false }
    { s3 with bIsSlideQueued := false }
  else
    s

/-- `AParkourSystemCharacter::CrouchEnd`. -/
def CrouchEnd (Owner : FCharacterOwner) (e : Engine) (s : AParkourSystemCharacter)
    : AParkourSystemCharacter :=
  if s.CurrentParkourMode = EParkourMode.EPM_Crouch ∧ CanStand e s = true then
    let s1 := (SetParkourMode Owner s EParkourMode.EPM_None).2
    let s2 := { s1 with MaxWalkSpeed := s1.DefaultWalkSpeed }
    let s3 := { s2 with bIsSprintQueued := false }
    { s3 with bIsSlideQueued := false }
  else
    s

/-- `AParkourSystemCharacter::SlideEnd`. -/
def SlideEnd (Owner : FCharacterOwner) (s : AParkourSystemCharacter) : AParkourSystemCharacter :=
  if s.CurrentParkourMode = EParkourMode.EPM_Slide then
    let r := SetParkourMode Owner s EParkourMode.EPM_Crouch
    if r.1 = true then DisableSlide r.2 else r.2
  else
    s

/-- `AParkourSystemCharacter::SprintEnd`. -/
def SprintEnd (Owner : FCharacterOwner) (s : AParkourSystemCharacter) : AParkourSystemCharacter :=
  if s.CurrentParkourMode = EParkourMode.EPM_Sprint then
    let r := SetParkourMode Owner s EParkourMode.EPM_None
    if r.1 = true then
      let s1 := DisableSprint r.2
      SetTimer s1 (1 / 10)
    else
      r.2
  else
    s

/-- `AParkourSystemCharacter::SprintStart`. -/
def SprintStart (Owner : FCharacterOwner) (e : Engine) (s : AParkourSystemCharacter)
    : AParkourSystemCharacter :=
  let s1 := CrouchEnd Owner e s
  let s2 := SlideEnd Owner s1
  if CanSprint s2 = true then
    let r := SetParkourMode Owner s2 EParkourMode.EPM_Sprint
    let s3 := r.2
    if r.1 = true then
      let s4 := { s3 with MaxWalkSpeed := s3.SprintSpeed }
      let s5 := EnableSprint s4
      let s6 := { s5 with bIsSprintQueued := false }
      { s6 with bIsSlideQueued := false }
    else
      s3
  else
    s2

/-- `AParkourSystemCharacter::SprintUpdate`. -/
def SprintUpdate (Owner : FCharacterOwner) (s : AParkourSystemCharacter)
    : AParkourSystemCharacter :=
  if s.CurrentParkourMode = EParkourMode.EPM_Sprint ∧ ForwardInput s = false then
    SprintEnd Owner s
  else
    s

/-- `AParkourSystemCharacter::Sprint`, fired when the sprint key is pressed. -/
def Sprint (Owner : FCharacterOwner) (e : Engine) (s : AParkourSystemCharacter)
    : AParkourSystemCharacter :=
  if s.CurrentParkourMode = EParkourMode.EPM_Sprint then
    SprintEnd Owner s
  else if s.CurrentParkourMode = EParkourMode.EPM_None
      ∨ s.CurrentParkourMode = EParkourMode.EPM_Crouch then
    SprintStart Owner e s
  else
    s

/-- `AParkourSystemCharacter::SprintJump`. -/
def SprintJump (Owner : FCharacterOwner) (s : AParkourSystemCharacter) : AParkourSystemCharacter :=
  if s.CurrentParkourMode = EParkourMode.EPM_Sprint then
    let s1 := SprintEnd Owner s
    { s1 with bIsSprintQueued := true }
  else
    s

/-- `AParkourSystemCharacter::CrouchJump`. -/
def CrouchJump (Owner : FCharacterOwner) (e : Engine) (s : AParkourSystemCharacter)
    : AParkourSystemCharacter :=
  if s.CurrentParkourMode = EParkourMode.EPM_Crouch then CrouchEnd Owner e s else s

/-- `AParkourSystemCharacter::CrouchToggle`. -/
def CrouchToggle (Owner : FCharacterOwner) (e : Engine) (s : AParkourSystemCharacter)
    : AParkourSystemCharacter :=
  if s.CurrentParkourMode = EParkourMode.EPM_None then
    CrouchStart Owner s
  else if s.CurrentParkourMode = EParkourMode.EPM_Crouch then
    CrouchEnd Owner e s
  else
    s

/-- `AParkourSystemCharacter::SlideStart`. -/
def SlideStart (Owner : FCharacterOwner) (e : Engine) (s : AParkourSystemCharacter)
    : AParkourSystemCharacter :=
  if CanSlide s = true ∧ IsWalking s = true then
    let s1 := SprintEnd Owner s
    let s2 := (SetParkourMode Owner s1 EParkourMode.EPM_Slide).2
    let s3 := { s2 with GroundFriction := 0 }
    let s4 := { s3 with MaxWalkSpeed := 0 }
    let s5 := { s4 with BrakingDecelerationWalking := 1000 }
    let FloorNormal := s5.CurrentFloorNormal
    let SlideDirection :=
      e.GetSafeNormal (FVector.CrossProduct s5.ActorRightVector FloorNormal)
    let s6 := AddImpulse s5 (FVector.scale s5.SlideSpeed SlideDirection)
    let s7 := EnableSlide s6
    let s8 := { s7 with bIsSprintQueued := false }
    { s8 with bIsSlideQueued := false }
  else
    s

/-- `AParkourSystemCharacter::SlideJump`. -/
def SlideJump (Owner : FCharacterOwner) (s : AParkourSystemCharacter) : AParkourSystemCharacter :=
  if s.CurrentParkourMode = EParkourMode.EPM_Slide then SlideEnd Owner s else s

/-- `AParkourSystemCharacter::CrouchSlideKeyPressed`, fired when the
crouch/slide key is pressed. -/
def CrouchSlideKeyPressed (Owner : FCharacterOwner) (e : Engine) (s : AParkourSystemCharacter) :
    AParkourSystemCharacter :=
  if CanSlide s = true then
    if IsWalking s = true then
      SlideStart Owner e s
    else
      { s with bIsSlideQueued := true }
  else
    CrouchToggle Owner e s

/-- `AParkourSystemCharacter::SlideUpdate`. The slope force is added after the
speed check whether or not that check has just ended the slide. -/
def SlideUpdate (Owner : FCharacterOwner) (e : Engine) (s : AParkourSystemCharacter)
    : AParkourSystemCharacter :=
  if s.CurrentParkourMode = EParkourMode.EPM_Slide then
    let s1 := if e.Length s.Velocity < 35 then SlideEnd Owner s else s
    let FloorNormal := s1.CurrentFloorNormal
    let ForceDirection :=
      e.GetSafeNormal
        (FVector.CrossProduct FloorNormal (FVector.CrossProduct FloorNormal FVector.UpVector))
    let s2 :=
      AddForce s1 (FVector.scale s1.SlideForceMultiplier (FVector.scale s1.SlideSpeed ForceDirection))
    if e.Length s2.Velocity > s2.SlideSpeed then
      { s2 with Velocity := FVector.scale s2.SlideSpeed (e.GetSafeNormal s2.Velocity) }
    else
      s2
  else
    s

/-- `AParkourSystemCharacter::CrouchUpdate`. The capsule and the camera store
the values they are given. -/
def CrouchUpdate (s : AParkourSystemCharacter) : AParkourSystemCharacter :=
  let CurrentHalfHeight := s.CapsuleHalfHeight
  let CurrentOffset := s.CameraRelativeLocation
  if s.CurrentParkourMode = EParkourMode.EPM_Crouch
      ∨ s.CurrentParkourMode = EParkourMode.EPM_Slide then
    let NewHalfHeight := FInterpTo CurrentHalfHeight s.CrouchCapsuleHalfHeight s.DeltaSeconds 10
    let NewOffset : FVector :=
      { CurrentOffset with Z := FInterpTo CurrentOffset.Z s.CrouchCameraZOffset s.DeltaSeconds 10 }
    { s with CapsuleHalfHeight := NewHalfHeight, CameraRelativeLocation := NewOffset }
  else
    let NewHalfHeight := FInterpTo CurrentHalfHeight s.StandingCapsuleHalfHeight s.DeltaSeconds 10
    let NewOffset : FVector :=
      { CurrentOffset with Z := FInterpTo CurrentOffset.Z s.StandingCameraZOffset s.DeltaSeconds 10 }
    { s with CapsuleHalfHeight := NewHalfHeight, CameraRelativeLocation := NewOffset }

/-- `AParkourSystemCharacter::CalculateFloorInfluenceVector`. -/
def CalculateFloorInfluenceVector (FloorNormal : FVector) : FVector :=
  if FVector.Equals FloorNormal FVector.ZAxisVector KINDA_SMALL_NUMBER = true then
    FVector.ZeroVector
  else
    let FloorInfluenceStrength :=
      Clamp (1 - FVector.DotProduct FloorNormal FVector.ZeroVector) 0 1
    let FloorInfluenceVector :=
      FVector.scale FloorInfluenceStrength
        (FVector.CrossProduct FloorNormal (FVector.CrossProduct FloorNormal FVector.ZAxisVector))
    FloorInfluenceVector

/-- `AParkourSystemCharacter::CheckQueues`. -/
def CheckQueues (Owner : FCharacterOwner) (e : Engine) (s : AParkourSystemCharacter)
    : AParkourSystemCharacter :=
  if s.bIsSlideQueued = true then
    SlideStart Owner e s
  else if s.bIsSprintQueued = true then
    SprintStart Owner e s
  else
    s

/-- `AParkourSystemCharacter::Jump`. The base call `ACharacter::Jump` only
records the request for the simulation to perform on its next update; it
touches none of the state kept here. -/
def Jump (Owner : FCharacterOwner) (e : Engine) (s : AParkourSystemCharacter)
    : AParkourSystemCharacter :=
  if CanStand e s = false then
    s
  else
    let s1 := CrouchJump Owner e s
    let s2 := SprintJump Owner s1
    if s2.bCanDoubleJump = true ∧ IsFalling s2 = true then
      let JumpVelocity : FVector :=
        ⟨s2.ActorForwardVector.X * s2.HorizontalJumpForce,
          s2.ActorForwardVector.Y * s2.HorizontalJumpForce, s2.VerticalJumpForce⟩
      let s3 := LaunchCharacter s2 JumpVelocity
      { s3 with bCanDoubleJump := false }
    else
      s2

/-- `AParkourSystemCharacter::Tick`. -/
def Tick (Owner : FCharacterOwner) (e : Engine) (s : AParkourSystemCharacter) (_DeltaTime : ℚ)
    : AParkourSystemCharacter :=
  let s1 := if s.bCanSprint = true then SprintUpdate Owner s else s
  let s2 := if s1.bCanSlide = true then SlideUpdate Owner e s1 else s1
  CrouchUpdate s2

/-- `AParkourSystemCharacter::OnMovementModeChanged`, called by the movement
component after it has changed `MovementMode`, with the mode it has left. The
base call touches none of the state kept here. -/
def OnMovementModeChanged (Owner : FCharacterOwner) (e : Engine) (s : AParkourSystemCharacter)
    (InPrevMovementMode : EMovementMode) : AParkourSystemCharacter :=
  let s1 := { s with PreviousMovementMode := InPrevMovementMode }
  let s2 := { s1 with CurrentMovementMode := s1.MovementMode }
  if s2.PreviousMovementMode = EMovementMode.MOVE_Walking
      ∧ s2.CurrentMovementMode = EMovementMode.MOVE_Falling then
    let s3 := SprintJump Owner s2
    let s4 := SprintEnd Owner s3
    SlideEnd Owner s4
  else if s2.PreviousMovementMode = EMovementMode.MOVE_Falling
      ∧ s2.CurrentMovementMode = EMovementMode.MOVE_Walking then
    let s3 := { s2 with bCanDoubleJump := true }
    CheckQueues Owner e s3
  else
    s2

/-- `AParkourSystemCharacter::SetHasRifle`. -/
def SetHasRifle (s : AParkourSystemCharacter) (bNewHasRifle : Bool) : AParkourSystemCharacter :=
  { s with bHasRifle := bNewHasRifle }

/-- `AParkourSystemCharacter::GetHasRifle`. -/
def GetHasRifle (s : AParkourSystemCharacter) : Bool := s.bHasRifle

/-- The constructor `AParkourSystemCharacter::AParkourSystemCharacter`, run on
the object the base constructors have set up: the member initialisers, the
capsule size and the camera position. -/
def Constructor (s : AParkourSystemCharacter) : AParkourSystemCharacter :=
  { s with
    CurrentMovementMode := EMovementMode.MOVE_None
    PreviousMovementMode := EMovementMode.MOVE_None
    CurrentParkourMode := EParkourMode.EPM_None
    PrevParkourMode := EParkourMode.EPM_None
    bCanSprint := false
    bCanSlide := false
    bCanDoubleJump := true
    VerticalJumpForce := 450
    HorizontalJumpForce := 100
    SprintSpeed := 1000
    SprintJumpForce := 200
    bIsSprintQueued := false
    bIsSlideQueued := false
    CrouchCapsuleHalfHeight := 35
    CrouchCameraZOffset := 60
    SlideSpeed := 1000
    SlideForceMultiplier := 100
    bHasRifle := false
    CapsuleHalfHeight := 96
    CameraRelativeLocation := ⟨-10, 0, 60⟩ }

/-- `AParkourSystemCharacter::BeginPlay`: the defaults are read off the
movement component, the capsule and the camera. -/
def BeginPlay (s : AParkourSystemCharacter) : AParkourSystemCharacter :=
  { s with
    DefaultWalkSpeed := s.MaxWalkSpeed
    DefaultGroundFriction := s.GroundFriction
    DefaultBrakingDeceleration := s.BrakingDecelerationWalking
    StandingCapsuleHalfHeight := s.CapsuleHalfHeight
    StandingCameraZOffset := s.CameraRelativeLocation.Z
    CurrentMovementMode := s.MovementMode }

/-! ## The character as the owner of its movement component -/

/-- The handler that the movement component calls, `OnMovementModeChanged` of
this character, by the number of notifications that may still nest inside the
one delivered: the member functions the handler runs call `SetMovementMode`
themselves, which notifies the same handler again. With no nesting left the
inner notification is dropped. -/
def Dispatch (e : Engine) : Nat → FCharacterOwner
  | 0 => fun s _ => s
  | n + 1 => fun s InPrevMovementMode =>
      OnMovementModeChanged (Dispatch e n) e s InPrevMovementMode

/-- The character as the owner of its movement component: the handler that
`SetMovementMode` calls from inside a member function. The only mode a member
function switches the component to is walking (`ResetMovement`), so the
handler starts with the component walking, and every `SetMovementMode` it
runs into returns at once, without a further notification: one level of
nesting is all there is (`Dispatch_stable`, `ResetMovement_Dispatch`). -/
def CharacterOwner (e : Engine) : FCharacterOwner := Dispatch e 1

/-! ## Operations of the character and traces -/

/-- Modelled from the spec: the expiry of the timer with the given handle, as
the scheduler performs it for a one-shot callback: a pending timer with that
handle is removed and its delegate, `EnableSprint`, runs; nothing happens
when no such timer is pending. -/
def TimerExpired (s : AParkourSystemCharacter) (Handle : Nat) : AParkourSystemCharacter :=
  if s.Timers.any (fun t => decide (t.Handle = Handle)) = true then
    EnableSprint { s with Timers := s.Timers.filter (fun t => decide (t.Handle ≠ Handle)) }
  else
    s

/-- What the movement simulation and the player change between two calls into
the character: the actor transform, the velocity, the sampled floor, the last
input vector and the frame time. -/
structure FSimulationUpdate where
  ActorLocation : FVector
  ActorForwardVector : FVector
  ActorRightVector : FVector
  Velocity : FVector
  CurrentFloorNormal : FVector
  LastInputVector : FVector
  DeltaSeconds : ℚ

/-- The physics update: the simulation overwrites what it owns. -/
def Simulate (s : AParkourSystemCharacter) (u : FSimulationUpdate) : AParkourSystemCharacter :=
  { s with
    ActorLocation := u.ActorLocation
    ActorForwardVector := u.ActorForwardVector
    ActorRightVector := u.ActorRightVector
    Velocity := u.Velocity
    CurrentFloorNormal := u.CurrentFloorNormal
    LastInputVector := u.LastInputVector
    DeltaSeconds := u.DeltaSeconds }

/-- One call into the character: the bound input actions (`Sprint`,
`CrouchSlideKeyPressed`, `Jump`), `SprintStart`, the frame tick, the
movement-mode-changed notification raised by the simulation (the component
has switched to `NewMovementMode` and reports the mode it has left), the
expiry of a timer, and the physics update. -/
inductive Operation where
  | Sprint
  | SprintStart
  | CrouchSlideKeyPressed
  | Jump
  | Tick (DeltaTime : ℚ)
  | MovementModeChanged (InPrevMovementMode NewMovementMode : EMovementMode)
  | TimerExpired (Handle : Nat)
  | Simulate (u : FSimulationUpdate)

/-- The notification that the simulation has gone from falling to walking. -/
def Operation.isFallingToWalking : Operation → Bool
  | Operation.MovementModeChanged EMovementMode.MOVE_Falling EMovementMode.MOVE_Walking => true
  | _ => false

/-- The effect of one operation. -/
def step (e : Engine) (s : AParkourSystemCharacter) : Operation → AParkourSystemCharacter
  | Operation.Sprint => Sprint (CharacterOwner e) e s
  | Operation.SprintStart => SprintStart (CharacterOwner e) e s
  | Operation.CrouchSlideKeyPressed => CrouchSlideKeyPressed (CharacterOwner e) e s
  | Operation.Jump => Jump (CharacterOwner e) e s
  | Operation.Tick DeltaTime => Tick (CharacterOwner e) e s DeltaTime
  | Operation.MovementModeChanged InPrevMovementMode NewMovementMode =>
      OnMovementModeChanged (CharacterOwner e) e
        { s with MovementMode := NewMovementMode } InPrevMovementMode
  | Operation.TimerExpired Handle => TimerExpired s Handle
  | Operation.Simulate u => Simulate s u

/-- The effect of a sequence of operations, first to last. -/
def run (e : Engine) (s : AParkourSystemCharacter) (ops : List Operation) :
    AParkourSystemCharacter :=
  ops.foldl (step e) s

/-- The launch velocity of the double jump: the horizontal force along the
actor's forward vector and the vertical force. -/
def DoubleJumpVelocity (s : AParkourSystemCharacter) : FVector :=
  ⟨s.ActorForwardVector.X * s.HorizontalJumpForce,
    s.ActorForwardVector.Y * s.HorizontalJumpForce, s.VerticalJumpForce⟩

/-! ## The notification inside `ResetMovement` -/

/-- The state in which `SetMovementMode(MOVE_Walking)` leaves a character
whose handler finds nothing to flush: a component that was walking is left
alone; otherwise it is walking now, the handler has recorded the mode it left
and the walking mode, and it has given the double jump back when the mode it
left was falling. -/
def ToWalking (s : AParkourSystemCharacter) : AParkourSystemCharacter :=
  { s with
    MovementMode := EMovementMode.MOVE_Walking
    PreviousMovementMode :=
      if s.MovementMode = EMovementMode.MOVE_Walking then s.PreviousMovementMode
      else s.MovementMode
    CurrentMovementMode :=
      if s.MovementMode = EMovementMode.MOVE_Walking then s.CurrentMovementMode
      else EMovementMode.MOVE_Walking
    bCanDoubleJump :=
      if s.MovementMode = EMovementMode.MOVE_Falling then true else s.bCanDoubleJump }

/-- The handler called from inside `ResetMovement` has a queued action to
flush: the component is falling, so that being forced to walk looks like a
landing, a sprint is queued, and a slide that is queued too has the forward
input it needs. -/
def Flushes (s : AParkourSystemCharacter) : Prop :=
  s.MovementMode = EMovementMode.MOVE_Falling
  ∧ s.bIsSprintQueued = true
  ∧ (s.bIsSlideQueued = true → ForwardInput s = true)

/-! ## Reachable states and what stays true in them -/

/-- The initial states: a character as its constructor and `BeginPlay` leave
it, with no timer pending. -/
def IsInitial (s : AParkourSystemCharacter) : Prop :=
  ∃ u : AParkourSystemCharacter, u.Timers = [] ∧ s = BeginPlay (Constructor u)

/-- The states reachable from an initial state by operations. -/
inductive Reachable (e : Engine) : AParkourSystemCharacter → Prop where
  | start (s : AParkourSystemCharacter) : IsInitial s → Reachable e s
  | next (s : AParkourSystemCharacter) (op : Operation) :
      Reachable e s → Reachable e (step e s op)

/-- The pairs (current mode, previous mode) that the transitions produce. -/
def allowedModePair : EParkourMode → EParkourMode → Bool
  | EParkourMode.EPM_None, EParkourMode.EPM_None => true
  | EParkourMode.EPM_None, EParkourMode.EPM_Sprint => true
  | EParkourMode.EPM_None, EParkourMode.EPM_Crouch => true
  | EParkourMode.EPM_Sprint, EParkourMode.EPM_None => true
  | EParkourMode.EPM_Crouch, EParkourMode.EPM_None => true
  | EParkourMode.EPM_Crouch, EParkourMode.EPM_Slide => true
  | EParkourMode.EPM_Slide, EParkourMode.EPM_None => true
  | _, _ => false

/-- What the mode transitions read and write: the two modes, the capability
and queue flags, the locomotion parameters, and the values the parameters
are set from. -/
structure FModeState where
  CurrentParkourMode : EParkourMode
  PrevParkourMode : EParkourMode
  bCanSprint : Bool
  bCanSlide : Bool
  bIsSprintQueued : Bool
  bIsSlideQueued : Bool
  MaxWalkSpeed : ℚ
  GroundFriction : ℚ
  BrakingDecelerationWalking : ℚ
  SprintSpeed : ℚ
  DefaultWalkSpeed : ℚ
  DefaultGroundFriction : ℚ
  DefaultBrakingDeceleration : ℚ
  MaxWalkSpeedCrouched : ℚ

/-- The mode state of a character. -/
def ModeState (s : AParkourSystemCharacter) : FModeState where
  CurrentParkourMode := s.CurrentParkourMode
  PrevParkourMode := s.PrevParkourMode
  bCanSprint := s.bCanSprint
  bCanSlide := s.bCanSlide
  bIsSprintQueued := s.bIsSprintQueued
  bIsSlideQueued := s.bIsSlideQueued
  MaxWalkSpeed := s.MaxWalkSpeed
  GroundFriction := s.GroundFriction
  BrakingDecelerationWalking := s.BrakingDecelerationWalking
  SprintSpeed := s.SprintSpeed
  DefaultWalkSpeed := s.DefaultWalkSpeed
  DefaultGroundFriction := s.DefaultGroundFriction
  DefaultBrakingDeceleration := s.DefaultBrakingDeceleration
  MaxWalkSpeedCrouched := s.MaxWalkSpeedCrouched

/-- The consistency of a mode state: a queued sprint only in mode None, a
queued slide only in mode None or Sprint, the sprint capability flag set
while sprinting, the slide capability flag set exactly while sliding, and an
allowed pair of current and previous mode. -/
def FModeState.Consistent (m : FModeState) : Prop :=
  (m.bIsSprintQueued = true → m.CurrentParkourMode = EParkourMode.EPM_None)
  ∧ (m.bIsSlideQueued = true →
      m.CurrentParkourMode = EParkourMode.EPM_None
      ∨ m.CurrentParkourMode = EParkourMode.EPM_Sprint)
  ∧ (m.CurrentParkourMode = EParkourMode.EPM_Sprint → m.bCanSprint = true)
  ∧ (m.bCanSlide = true ↔ m.CurrentParkourMode = EParkourMode.EPM_Slide)
  ∧ allowedModePair m.CurrentParkourMode m.PrevParkourMode = true

/-- The consistency of the mode state of a character. -/
def ModeInv (s : AParkourSystemCharacter) : Prop := (ModeState s).Consistent

/-- The timer state of a character: the pending timers, the handle of the
sprint re-enable timer, and the last handle handed out. -/
def TimerState (s : AParkourSystemCharacter) : List FTimerData × Nat × Nat :=
  (s.Timers, s.SprintTimerHandle, s.LastAssignedHandle)

/-- The consistency of the timer state: at most one timer is pending, and a
pending timer is the one `SprintTimerHandle` refers to, with a handle that
has been handed out. -/
def TimerInv (s : AParkourSystemCharacter) : Prop :=
  s.Timers.length ≤ 1
  ∧ ∀ t ∈ s.Timers, t.Handle = s.SprintTimerHandle ∧ t.Handle ≤ s.LastAssignedHandle

/-- The capsule and camera profile of a character with the values it is
interpolated between. -/
structure FProfile where
  CrouchCapsuleHalfHeight : ℚ
  StandingCapsuleHalfHeight : ℚ
  CrouchCameraZOffset : ℚ
  StandingCameraZOffset : ℚ
  CapsuleHalfHeight : ℚ
  CameraRelativeLocation : FVector

/-- The profile of a character. -/
def Profile (s : AParkourSystemCharacter) : FProfile where
  CrouchCapsuleHalfHeight := s.CrouchCapsuleHalfHeight
  StandingCapsuleHalfHeight := s.StandingCapsuleHalfHeight
  CrouchCameraZOffset := s.CrouchCameraZOffset
  StandingCameraZOffset := s.StandingCameraZOffset
  CapsuleHalfHeight := s.CapsuleHalfHeight
  CameraRelativeLocation := s.CameraRelativeLocation

/-- The capsule half-height lies between the crouched and the standing
half-height. -/
def FProfile.InRange (p : FProfile) : Prop :=
  p.CrouchCapsuleHalfHeight ≤ p.CapsuleHalfHeight
  ∧ p.CapsuleHalfHeight ≤ p.StandingCapsuleHalfHeight

/-- The locomotion parameters a mode state holds, by its current mode: the
default walk speed in None, the crouched cap in Crouch, and in Sprint
`SprintSpeed` or the crouched cap (the sprint that the handler starts from
inside `CrouchStart` is left with the walk speed `CrouchStart` writes last),
each with the default ground friction and braking deceleration, and walk
speed 0, friction 0, braking 1000 in Slide. -/
def FModeState.Tuned (m : FModeState) : Prop :=
  (m.CurrentParkourMode = EParkourMode.EPM_None →
      m.MaxWalkSpeed = m.DefaultWalkSpeed
      ∧ m.GroundFriction = m.DefaultGroundFriction
      ∧ m.BrakingDecelerationWalking = m.DefaultBrakingDeceleration)
  ∧ (m.CurrentParkourMode = EParkourMode.EPM_Sprint →
      (m.MaxWalkSpeed = m.SprintSpeed ∨ m.MaxWalkSpeed = m.MaxWalkSpeedCrouched)
      ∧ m.GroundFriction = m.DefaultGroundFriction
      ∧ m.BrakingDecelerationWalking = m.DefaultBrakingDeceleration)
  ∧ (m.CurrentParkourMode = EParkourMode.EPM_Crouch →
      m.MaxWalkSpeed = m.MaxWalkSpeedCrouched
      ∧ m.GroundFriction = m.DefaultGroundFriction
      ∧ m.BrakingDecelerationWalking = m.DefaultBrakingDeceleration)
  ∧ (m.CurrentParkourMode = EParkourMode.EPM_Slide →
      m.MaxWalkSpeed = 0 ∧ m.GroundFriction = 0 ∧ m.BrakingDecelerationWalking = 1000)

/-- The locomotion parameters of a character are among those of its mode. -/
def ParamInv (s : AParkourSystemCharacter) : Prop := (ModeState s).Tuned

/-- What no member function but `SlideUpdate` writes of the values a slide and
a stand-up are computed from: the default walk speed, the slide speed and
force multiplier, the sampled floor normal, and the forces recorded. -/
def Carried (s : AParkourSystemCharacter) : ℚ × ℚ × ℚ × FVector × List FVector :=
  (s.DefaultWalkSpeed, s.SlideSpeed, s.SlideForceMultiplier, s.CurrentFloorNormal, s.Forces)

/-! ## Concrete inputs -/

/-- An engine for evaluating the functions on concrete inputs: a world in
which no trace hits anything, with `GetSafeNormal` and `Length` exact on the
axis-aligned unit vectors the examples use. -/
def openWorld : Engine where
  LineTraceSingleByChannel := fun _ _ => false
  GetSafeNormal := fun V => V
  Length := fun V => |V.X| + |V.Y| + |V.Z|

/-- The same engine under a low ceiling: every trace hits. -/
def lowCeiling : Engine where
  LineTraceSingleByChannel := fun _ _ => true
  GetSafeNormal := fun V => V
  Length := fun V => |V.X| + |V.Y| + |V.Z|

/-- A character as the base constructors leave it, with the stock values of
the movement component, standing on flat ground, facing and moving along X. -/
def baseObject : AParkourSystemCharacter where
  CurrentMovementMode := EMovementMode.MOVE_None
  PreviousMovementMode := EMovementMode.MOVE_None
  CurrentParkourMode := EParkourMode.EPM_None
  PrevParkourMode := EParkourMode.EPM_None
  bCanSprint := false
  SprintTimerHandle := 0
  bCanSlide := false
  bCanDoubleJump := false
  VerticalJumpForce := 0
  HorizontalJumpForce := 0
  SprintSpeed := 0
  SprintJumpForce := 0
  DefaultWalkSpeed := 0
  bIsSprintQueued := false
  CrouchCapsuleHalfHeight := 0
  CrouchCameraZOffset := 0
  StandingCapsuleHalfHeight := 0
  StandingCameraZOffset := 0
  SlideSpeed := 0
  SlideForceMultiplier := 0
  DefaultGroundFriction := 0
  DefaultBrakingDeceleration := 0
  bIsSlideQueued := false
  bHasRifle := false
  ActorLocation := ⟨0, 0, 96⟩
  ActorForwardVector := ⟨1, 0, 0⟩
  ActorRightVector := ⟨0, 1, 0⟩
  CapsuleHalfHeight := 88
  CameraRelativeLocation := ⟨0, 0, 0⟩
  MaxWalkSpeed := 600
  MaxWalkSpeedCrouched := 300
  GroundFriction := 8
  BrakingDecelerationWalking := 2048
  bConstrainToPlane := false
  MovementMode := EMovementMode.MOVE_Walking
  Velocity := ⟨600, 0, 0⟩
  CurrentFloorNormal := ⟨0, 0, 1⟩
  LastInputVector := ⟨1, 0, 0⟩
  Impulses := []
  Forces := []
  Launches := []
  DeltaSeconds := 1 / 60
  Timers := []
  LastAssignedHandle := 0

/-- The character after construction and `BeginPlay`: mode None, walking. -/
def standing : AParkourSystemCharacter := BeginPlay (Constructor baseObject)

/-- The standing character after `SprintStart`: mode Sprint. -/
def sprinting : AParkourSystemCharacter :=
  SprintStart (CharacterOwner openWorld) openWorld standing

/-- The sprinting character after the crouch/slide key: mode Slide. -/
def sliding : AParkourSystemCharacter :=
  CrouchSlideKeyPressed (CharacterOwner openWorld) openWorld sprinting

/-- The standing character after `CrouchStart`: mode Crouch. -/
def crouching : AParkourSystemCharacter := CrouchStart (CharacterOwner openWorld) standing

/-- The standing character at the moment of landing with both a sprint and a
slide queued. -/
def bothQueued : AParkourSystemCharacter :=
  { standing with bIsSprintQueued := true, bIsSlideQueued := true }

/-- The engine constant `SMALL_NUMBER`, the default tolerance of
`FVector::GetSafeNormal`. -/
def SMALL_NUMBER : ℚ := 1 / 100000000

/-- The squared length of a vector, `FVector::SizeSquared`. -/
def FVector.SizeSquared (V : FVector) : ℚ := V.X * V.X + V.Y * V.Y + V.Z * V.Z

/-- An open world whose `GetSafeNormal` and `Length` are the engine's on every
vector of rational length. -/
def exactWorld : Engine where
  LineTraceSingleByChannel := fun _ _ => false
  GetSafeNormal := fun V =>
    if V.SizeSquared = 1 then V
    else if V.SizeSquared < SMALL_NUMBER then FVector.ZeroVector
    else FVector.scale (1 / Rat.sqrt V.SizeSquared) V
  Length := fun V => Rat.sqrt V.SizeSquared

/-- The sliding character on a slope of normal (3/5, 0, 4/5), slowed down to
speed 10. -/
def downhill : AParkourSystemCharacter :=
  { sliding with Velocity := ⟨10, 0, 0⟩, CurrentFloorNormal := ⟨3 / 5, 0, 4 / 5⟩ }

/-- The physics update of a character whose player has let go of the stick. -/
def released : FSimulationUpdate where
  ActorLocation := ⟨0, 0, 96⟩
  ActorForwardVector := ⟨1, 0, 0⟩
  ActorRightVector := ⟨0, 1, 0⟩
  Velocity := ⟨1000, 0, 0⟩
  CurrentFloorNormal := ⟨0, 0, 1⟩
  LastInputVector := ⟨0, 0, 0⟩
  DeltaSeconds := 1 / 60

/-- The sprinting character once the player has let go of the stick. -/
def coasting : AParkourSystemCharacter :=
  run openWorld standing [Operation.Sprint, Operation.Simulate released]

/-- The character that has sprinted, jumped, gone into falling and let go of
the stick: mode None in the air with the sprint queued. -/
def midair : AParkourSystemCharacter :=
  run openWorld standing
    [Operation.Sprint, Operation.Jump,
      Operation.MovementModeChanged EMovementMode.MOVE_Walking EMovementMode.MOVE_Falling,
      Operation.Simulate released]

/-- The character `midair` after the crouch/slide key: the sprint that was
queued has been started from inside `CrouchStart`. -/
def flushed : AParkourSystemCharacter :=
  run openWorld standing
    [Operation.Sprint, Operation.Jump,
      Operation.MovementModeChanged EMovementMode.MOVE_Walking EMovementMode.MOVE_Falling,
      Operation.Simulate released, Operation.CrouchSlideKeyPressed]

/-- The character that has walked off a ledge and used its double jump. -/
def doubleJumped : AParkourSystemCharacter :=
  run openWorld standing
    [Operation.MovementModeChanged EMovementMode.MOVE_Walking EMovementMode.MOVE_Falling,
      Operation.Jump]

/-- A walk off a ledge, a double jump, two presses of the crouch key in the
air, the simulation finding the character in the air again, and one more
jump: a sequence without a falling-to-walking notification. -/
def crouchedInTheAir : List Operation :=
  [Operation.MovementModeChanged EMovementMode.MOVE_Walking EMovementMode.MOVE_Falling,
    Operation.Jump, Operation.CrouchSlideKeyPressed, Operation.CrouchSlideKeyPressed,
    Operation.MovementModeChanged EMovementMode.MOVE_Walking EMovementMode.MOVE_Falling,
    Operation.Jump]

/-- The sprinting character after a jump from the ground. -/
def leaping : AParkourSystemCharacter :=
  run openWorld standing [Operation.Sprint, Operation.Jump]

/-- The character that has started, ended and started a sprint again. -/
def resprinting : AParkourSystemCharacter :=
  run openWorld standing [Operation.Sprint, Operation.Sprint, Operation.Sprint]

/-! ## What `ToWalking` keeps -/

/-- `ToWalking` keeps `CurrentParkourMode`. -/
@[simp] theorem ToWalking_CurrentParkourMode (s : AParkourSystemCharacter) :
    (ToWalking s).CurrentParkourMode = s.CurrentParkourMode := rfl

/-- `ToWalking` keeps `PrevParkourMode`. -/
@[simp] theorem ToWalking_PrevParkourMode (s : AParkourSystemCharacter) :
    (ToWalking s).PrevParkourMode = s.PrevParkourMode := rfl

/-- `ToWalking` keeps `bCanSprint`. -/
@[simp] theorem ToWalking_bCanSprint (s : AParkourSystemCharacter) :
    (ToWalking s).bCanSprint = s.bCanSprint := rfl

/-- `ToWalking` keeps `SprintTimerHandle`. -/
@[simp] theorem ToWalking_SprintTimerHandle (s : AParkourSystemCharacter) :
    (ToWalking s).SprintTimerHandle = s.SprintTimerHandle := rfl

/-- `ToWalking` keeps `bCanSlide`. -/
@[simp] theorem ToWalking_bCanSlide (s : AParkourSystemCharacter) :
    (ToWalking s).bCanSlide = s.bCanSlide := rfl

/-- `ToWalking` keeps `VerticalJumpForce`. -/
@[simp] theorem ToWalking_VerticalJumpForce (s : AParkourSystemCharacter) :
    (ToWalking s).VerticalJumpForce = s.VerticalJumpForce := rfl

/-- `ToWalking` keeps `HorizontalJumpForce`. -/
@[simp] theorem ToWalking_HorizontalJumpForce (s : AParkourSystemCharacter) :
    (ToWalking s).HorizontalJumpForce = s.HorizontalJumpForce := rfl

/-- `ToWalking` keeps `SprintSpeed`. -/
@[simp] theorem ToWalking_SprintSpeed (s : AParkourSystemCharacter) :
    (ToWalking s).SprintSpeed = s.SprintSpeed := rfl

/-- `ToWalking` keeps `SprintJumpForce`. -/
@[simp] theorem ToWalking_SprintJumpForce (s : AParkourSystemCharacter) :
    (ToWalking s).SprintJumpForce = s.SprintJumpForce := rfl

/-- `ToWalking` keeps `DefaultWalkSpeed`. -/
@[simp] theorem ToWalking_DefaultWalkSpeed (s : AParkourSystemCharacter) :
    (ToWalking s).DefaultWalkSpeed = s.DefaultWalkSpeed := rfl

/-- `ToWalking` keeps `bIsSprintQueued`. -/
@[simp] theorem ToWalking_bIsSprintQueued (s : AParkourSystemCharacter) :
    (ToWalking s).bIsSprintQueued = s.bIsSprintQueued := rfl

/-- `ToWalking` keeps `CrouchCapsuleHalfHeight`. -/
@[simp] theorem ToWalking_CrouchCapsuleHalfHeight (s : AParkourSystemCharacter) :
    (ToWalking s).CrouchCapsuleHalfHeight = s.CrouchCapsuleHalfHeight := rfl

/-- `ToWalking` keeps `CrouchCameraZOffset`. -/
@[simp] theorem ToWalking_CrouchCameraZOffset (s : AParkourSystemCharacter) :
    (ToWalking s).CrouchCameraZOffset = s.CrouchCameraZOffset := rfl

/-- `ToWalking` keeps `StandingCapsuleHalfHeight`. -/
@[simp] theorem ToWalking_StandingCapsuleHalfHeight (s : AParkourSystemCharacter) :
    (ToWalking s).StandingCapsuleHalfHeight = s.StandingCapsuleHalfHeight := rfl

/-- `ToWalking` keeps `StandingCameraZOffset`. -/
@[simp] theorem ToWalking_StandingCameraZOffset (s : AParkourSystemCharacter) :
    (ToWalking s).StandingCameraZOffset = s.StandingCameraZOffset := rfl

/-- `ToWalking` keeps `SlideSpeed`. -/
@[simp] theorem ToWalking_SlideSpeed (s : AParkourSystemCharacter) :
    (ToWalking s).SlideSpeed = s.SlideSpeed := rfl

/-- `ToWalking` keeps `SlideForceMultiplier`. -/
@[simp] theorem ToWalking_SlideForceMultiplier (s : AParkourSystemCharacter) :
    (ToWalking s).SlideForceMultiplier = s.SlideForceMultiplier := rfl

/-- `ToWalking` keeps `DefaultGroundFriction`. -/
@[simp] theorem ToWalking_DefaultGroundFriction (s : AParkourSystemCharacter) :
    (ToWalking s).DefaultGroundFriction = s.DefaultGroundFriction := rfl

/-- `ToWalking` keeps `DefaultBrakingDeceleration`. -/
@[simp] theorem ToWalking_DefaultBrakingDeceleration (s : AParkourSystemCharacter) :
    (ToWalking s).DefaultBrakingDeceleration = s.DefaultBrakingDeceleration := rfl

/-- `ToWalking` keeps `bIsSlideQueued`. -/
@[simp] theorem ToWalking_bIsSlideQueued (s : AParkourSystemCharacter) :
    (ToWalking s).bIsSlideQueued = s.bIsSlideQueued := rfl

/-- `ToWalking` keeps `bHasRifle`. -/
@[simp] theorem ToWalking_bHasRifle (s : AParkourSystemCharacter) :
    (ToWalking s).bHasRifle = s.bHasRifle := rfl

/-- `ToWalking` keeps `ActorLocation`. -/
@[simp] theorem ToWalking_ActorLocation (s : AParkourSystemCharacter) :
    (ToWalking s).ActorLocation = s.ActorLocation := rfl

/-- `ToWalking` keeps `ActorForwardVector`. -/
@[simp] theorem ToWalking_ActorForwardVector (s : AParkourSystemCharacter) :
    (ToWalking s).ActorForwardVector = s.ActorForwardVector := rfl

/-- `ToWalking` keeps `ActorRightVector`. -/
@[simp] theorem ToWalking_ActorRightVector (s : AParkourSystemCharacter) :
    (ToWalking s).ActorRightVector = s.ActorRightVector := rfl

/-- `ToWalking` keeps `CapsuleHalfHeight`. -/
@[simp] theorem ToWalking_CapsuleHalfHeight (s : AParkourSystemCharacter) :
    (ToWalking s).CapsuleHalfHeight = s.CapsuleHalfHeight := rfl

/-- `ToWalking` keeps `CameraRelativeLocation`. -/
@[simp] theorem ToWalking_CameraRelativeLocation (s : AParkourSystemCharacter) :
    (ToWalking s).CameraRelativeLocation = s.CameraRelativeLocation := rfl

/-- `ToWalking` keeps `MaxWalkSpeed`. -/
@[simp] theorem ToWalking_MaxWalkSpeed (s : AParkourSystemCharacter) :
    (ToWalking s).MaxWalkSpeed = s.MaxWalkSpeed := rfl

/-- `ToWalking` keeps `MaxWalkSpeedCrouched`. -/
@[simp] theorem ToWalking_MaxWalkSpeedCrouched (s : AParkourSystemCharacter) :
    (ToWalking s).MaxWalkSpeedCrouched = s.MaxWalkSpeedCrouched := rfl

/-- `ToWalking` keeps `GroundFriction`. -/
@[simp] theorem ToWalking_GroundFriction (s : AParkourSystemCharacter) :
    (ToWalking s).GroundFriction = s.GroundFriction := rfl

/-- `ToWalking` keeps `BrakingDecelerationWalking`. -/
@[simp] theorem ToWalking_BrakingDecelerationWalking (s : AParkourSystemCharacter) :
    (ToWalking s).BrakingDecelerationWalking = s.BrakingDecelerationWalking := rfl

/-- `ToWalking` keeps `bConstrainToPlane`. -/
@[simp] theorem ToWalking_bConstrainToPlane (s : AParkourSystemCharacter) :
    (ToWalking s).bConstrainToPlane = s.bConstrainToPlane := rfl

/-- `ToWalking` keeps `Velocity`. -/
@[simp] theorem ToWalking_Velocity (s : AParkourSystemCharacter) :
    (ToWalking s).Velocity = s.Velocity := rfl

/-- `ToWalking` keeps `CurrentFloorNormal`. -/
@[simp] theorem ToWalking_CurrentFloorNormal (s : AParkourSystemCharacter) :
    (ToWalking s).CurrentFloorNormal = s.CurrentFloorNormal := rfl

/-- `ToWalking` keeps `LastInputVector`. -/
@[simp] theorem ToWalking_LastInputVector (s : AParkourSystemCharacter) :
    (ToWalking s).LastInputVector = s.LastInputVector := rfl

/-- `ToWalking` keeps `Impulses`. -/
@[simp] theorem ToWalking_Impulses (s : AParkourSystemCharacter) :
    (ToWalking s).Impulses = s.Impulses := rfl

/-- `ToWalking` keeps `Forces`. -/
@[simp] theorem ToWalking_Forces (s : AParkourSystemCharacter) :
    (ToWalking s).Forces = s.Forces := rfl

/-- `ToWalking` keeps `Launches`. -/
@[simp] theorem ToWalking_Launches (s : AParkourSystemCharacter) :
    (ToWalking s).Launches = s.Launches := rfl

/-- `ToWalking` keeps `DeltaSeconds`. -/
@[simp] theorem ToWalking_DeltaSeconds (s : AParkourSystemCharacter) :
    (ToWalking s).DeltaSeconds = s.DeltaSeconds := rfl

/-- `ToWalking` keeps `Timers`. -/
@[simp] theorem ToWalking_Timers (s : AParkourSystemCharacter) :
    (ToWalking s).Timers = s.Timers := rfl

/-- `ToWalking` keeps `LastAssignedHandle`. -/
@[simp] theorem ToWalking_LastAssignedHandle (s : AParkourSystemCharacter) :
    (ToWalking s).LastAssignedHandle = s.LastAssignedHandle := rfl

/-- `ToWalking` leaves the component walking. -/
@[simp] theorem ToWalking_MovementMode (s : AParkourSystemCharacter) :
    (ToWalking s).MovementMode = EMovementMode.MOVE_Walking := rfl

/-- `ToWalking` keeps the mode state. -/
@[simp] theorem ToWalking_ModeState (s : AParkourSystemCharacter) :
    ModeState (ToWalking s) = ModeState s := rfl

/-- `ToWalking` keeps the timer state. -/
@[simp] theorem ToWalking_TimerState (s : AParkourSystemCharacter) :
    TimerState (ToWalking s) = TimerState s := rfl

/-- `ToWalking` keeps the capsule and camera profile. -/
@[simp] theorem ToWalking_Profile (s : AParkourSystemCharacter) :
    Profile (ToWalking s) = Profile s := rfl

/-- `ToWalking` keeps what `CanStand` reads. -/
@[simp] theorem ToWalking_CanStand (e : Engine) (s : AParkourSystemCharacter) :
    CanStand e (ToWalking s) = CanStand e s := rfl

/-- `ToWalking` keeps what `ForwardInput` reads. -/
@[simp] theorem ToWalking_ForwardInput (s : AParkourSystemCharacter) :
    ForwardInput (ToWalking s) = ForwardInput s := rfl

/-- After `ToWalking` the simulation reports walking ground. -/
@[simp] theorem ToWalking_IsWalking (s : AParkourSystemCharacter) :
    IsWalking (ToWalking s) = true := rfl

/-! ## Closed forms of the member functions -/

/-- Every parkour mode is one of the four for which `ResetMovement` forces
walking locomotion. -/
theorem bToWalking_eq_true (m : EParkourMode) :
    (decide (m = EParkourMode.EPM_None) || decide (m = EParkourMode.EPM_Sprint)
      || decide (m = EParkourMode.EPM_Crouch) || decide (m = EParkourMode.EPM_Slide)) = true := by
  cases m <;> rfl

/-- `SetMovementMode` does nothing on a component that is in the mode
already, whoever the owner. -/
theorem SetMovementMode_of_eq (Owner : FCharacterOwner) (s : AParkourSystemCharacter)
    (M : EMovementMode) (h : s.MovementMode = M) : SetMovementMode Owner s M = s := by
  simp [SetMovementMode, h]

/-- A walking character is left alone by `ToWalking`. -/
theorem ToWalking_of_walking (s : AParkourSystemCharacter)
    (h : s.MovementMode = EMovementMode.MOVE_Walking) : ToWalking s = s := by
  cases s
  simp only [ToWalking] at h ⊢
  subst h
  simp

/-- `CheckQueues` outside Sprint does nothing unless a sprint is queued and a
slide that is queued too has forward input. -/
theorem CheckQueues_of_nothing (Owner : FCharacterOwner) (e : Engine)
    (s : AParkourSystemCharacter) (hm : s.CurrentParkourMode ≠ EParkourMode.EPM_Sprint)
    (h : ¬ (s.bIsSprintQueued = true ∧ (s.bIsSlideQueued = true → ForwardInput s = true))) :
    CheckQueues Owner e s = s := by
  unfold CheckQueues
  split_ifs with h1 h2
  · have hc : CanSlide s = false := by
      cases hf : ForwardInput s
      · simp [CanSlide, hf]
      · cases hq : s.bIsSprintQueued
        · simp [CanSlide, hm, hq]
        · exact absurd ⟨hq, fun _ => hf⟩ h
    simp [SlideStart, hc]
  · exact absurd ⟨h2, fun hs => absurd hs h1⟩ h
  · rfl

/-- The handler called by a component that is walking: it records the two
movement modes and, when the component has left falling, gives the double
jump back and flushes the queues, with every nested `SetMovementMode`
returning at once. -/
theorem CharacterOwner_of_walking (e : Engine) (s : AParkourSystemCharacter)
    (InPrevMovementMode : EMovementMode)
    (hw : s.MovementMode = EMovementMode.MOVE_Walking) :
    CharacterOwner e s InPrevMovementMode
      = if InPrevMovementMode = EMovementMode.MOVE_Falling then
          CheckQueues (Dispatch e 0) e
            { s with
              PreviousMovementMode := EMovementMode.MOVE_Falling
              CurrentMovementMode := EMovementMode.MOVE_Walking
              bCanDoubleJump := true }
        else
          { s with
            PreviousMovementMode := InPrevMovementMode
            CurrentMovementMode := EMovementMode.MOVE_Walking } := by
  simp only [CharacterOwner, Dispatch, OnMovementModeChanged, hw]
  by_cases hp : InPrevMovementMode = EMovementMode.MOVE_Falling
  · subst hp
    simp
  · simp [hp]

/-- `SetMovementMode(MOVE_Walking)` called with nothing to flush, outside
Sprint, leaves the state described by `ToWalking`. -/
theorem SetMovementMode_calm (e : Engine) (s : AParkourSystemCharacter)
    (hm : s.CurrentParkourMode ≠ EParkourMode.EPM_Sprint) (hcalm : ¬ Flushes s) :
    SetMovementMode (CharacterOwner e) s EMovementMode.MOVE_Walking = ToWalking s := by
  by_cases hw : s.MovementMode = EMovementMode.MOVE_Walking
  · rw [SetMovementMode_of_eq _ s _ hw, ToWalking_of_walking s hw]
  · simp only [SetMovementMode, hw, if_false]
    rw [CharacterOwner_of_walking e _ _ rfl]
    by_cases hf : s.MovementMode = EMovementMode.MOVE_Falling
    · have hn : ¬ (s.bIsSprintQueued = true
          ∧ (s.bIsSlideQueued = true → ForwardInput s = true)) :=
        fun hx => hcalm ⟨hf, hx⟩
      rw [if_pos hf, CheckQueues_of_nothing]
      · simp [ToWalking, hw, hf]
      · exact hm
      · exact hn
    · rw [if_neg hf]
      simp [ToWalking, hw, hf]

/-- With no sprint queued there is nothing to flush. -/
theorem not_Flushes_of_not_queued (s : AParkourSystemCharacter)
    (h : s.bIsSprintQueued = false) : ¬ Flushes s := by
  rintro ⟨_, hq, _⟩
  rw [h] at hq
  exact absurd hq (by decide)

/-- With the component not falling there is nothing to flush. -/
theorem not_Flushes_of_not_falling (s : AParkourSystemCharacter)
    (h : s.MovementMode ≠ EMovementMode.MOVE_Falling) : ¬ Flushes s :=
  fun hf => h hf.1

/-- On walking ground there is nothing to flush. -/
theorem not_Flushes_of_IsWalking (s : AParkourSystemCharacter)
    (h : IsWalking s = true) : ¬ Flushes s := by
  rintro ⟨hf, _, _⟩
  simp [IsWalking, hf] at h

/-- Where a sprint is queued only in mode None, there is nothing to flush
outside mode None. -/
theorem not_Flushes_of_mode (s : AParkourSystemCharacter)
    (hq : s.bIsSprintQueued = true → s.CurrentParkourMode = EParkourMode.EPM_None)
    (hm : s.CurrentParkourMode ≠ EParkourMode.EPM_None) : ¬ Flushes s :=
  fun hf => hm (hq hf.2.1)

/-- The effect of `ResetMovement` with nothing to flush. -/
theorem ResetMovement_eq (e : Engine) (s : AParkourSystemCharacter) (hcalm : ¬ Flushes s) :
    ResetMovement (CharacterOwner e) s =
      if s.CurrentParkourMode = EParkourMode.EPM_None
          ∨ s.CurrentParkourMode = EParkourMode.EPM_Crouch then
        ToWalking
          { s with
            MaxWalkSpeed :=
              if s.CurrentParkourMode = EParkourMode.EPM_Crouch then s.MaxWalkSpeedCrouched
              else s.DefaultWalkSpeed
            GroundFriction := s.DefaultGroundFriction
            BrakingDecelerationWalking := s.DefaultBrakingDeceleration
            bConstrainToPlane := false }
      else s := by
  have key : ∀ t : AParkourSystemCharacter,
      t.CurrentParkourMode ≠ EParkourMode.EPM_Sprint → ¬ Flushes t →
        SetMovementMode (CharacterOwner e) t EMovementMode.MOVE_Walking = ToWalking t :=
    fun t => SetMovementMode_calm e t
  unfold ResetMovement
  by_cases h1 : s.CurrentParkourMode = EParkourMode.EPM_Crouch
  · simp only [h1, bToWalking_eq_true, or_true, if_true]
    refine key _ ?_ ?_
    · simp [h1]
    · exact hcalm
  · by_cases h2 : s.CurrentParkourMode = EParkourMode.EPM_None
    · simp only [h2, bToWalking_eq_true, true_or, if_true, reduceCtorEq, if_false]
      refine key _ ?_ ?_
      · simp [h2]
      · exact hcalm
    · simp [h1, h2]

/-- `ResetMovement` in mode Sprint or Slide does nothing, whoever the owner. -/
theorem ResetMovement_of_not (Owner : FCharacterOwner) (s : AParkourSystemCharacter)
    (h : s.CurrentParkourMode = EParkourMode.EPM_Sprint
      ∨ s.CurrentParkourMode = EParkourMode.EPM_Slide) : ResetMovement Owner s = s := by
  rcases h with h | h <;> simp [ResetMovement, h]

/-- `ResetMovement` with the component walking, whoever the owner. -/
theorem ResetMovement_of_walking (Owner : FCharacterOwner) (s : AParkourSystemCharacter)
    (hw : s.MovementMode = EMovementMode.MOVE_Walking) :
    ResetMovement Owner s =
      if s.CurrentParkourMode = EParkourMode.EPM_None
          ∨ s.CurrentParkourMode = EParkourMode.EPM_Crouch then
        { s with
          MaxWalkSpeed :=
            if s.CurrentParkourMode = EParkourMode.EPM_Crouch then s.MaxWalkSpeedCrouched
            else s.DefaultWalkSpeed
          GroundFriction := s.DefaultGroundFriction
          BrakingDecelerationWalking := s.DefaultBrakingDeceleration
          bConstrainToPlane := false }
      else s := by
  unfold ResetMovement
  by_cases h1 : s.CurrentParkourMode = EParkourMode.EPM_Crouch
  · simp only [h1, bToWalking_eq_true, or_true, if_true]
    rw [SetMovementMode_of_eq _ _ _ (by exact hw)]
  · by_cases h2 : s.CurrentParkourMode = EParkourMode.EPM_None
    · simp only [h2, bToWalking_eq_true, true_or, if_true]
      rw [SetMovementMode_of_eq _ _ _ (by exact hw)]
      simp
    · simp [h1, h2]

/-- `SetParkourMode` to the current mode is refused, whoever the owner. -/
theorem SetParkourMode_of_eq (Owner : FCharacterOwner) (s : AParkourSystemCharacter)
    (M : EParkourMode) (h : M = s.CurrentParkourMode) : SetParkourMode Owner s M = (false, s) := by
  simp [SetParkourMode, h]

/-- `SetParkourMode` to another mode is committed, whoever the owner. -/
theorem SetParkourMode_of_ne (Owner : FCharacterOwner) (s : AParkourSystemCharacter)
    (M : EParkourMode) (h : M ≠ s.CurrentParkourMode) :
    SetParkourMode Owner s M
      = (true, ResetMovement Owner
          { s with PrevParkourMode := s.CurrentParkourMode, CurrentParkourMode := M }) := by
  simp [SetParkourMode, h]

/-- The mode after `SetParkourMode(M)` is `M` when `M` is Sprint or Slide,
whoever the owner. -/
theorem SetParkourMode_mode (Owner : FCharacterOwner) (s : AParkourSystemCharacter)
    (M : EParkourMode) (hM : M = EParkourMode.EPM_Sprint ∨ M = EParkourMode.EPM_Slide) :
    (SetParkourMode Owner s M).2.CurrentParkourMode = M := by
  by_cases h : M = s.CurrentParkourMode
  · simp [SetParkourMode, h]
  · rw [SetParkourMode_of_ne Owner s M h, ResetMovement_of_not]
    rcases hM with hM | hM
    · exact Or.inl hM
    · exact Or.inr hM

/-- The mode after `SetParkourMode(M)` is `M` when there is nothing to
flush. -/
theorem SetParkourMode_mode_calm (e : Engine) (s : AParkourSystemCharacter) (M : EParkourMode)
    (hcalm : ¬ Flushes s) : (SetParkourMode (CharacterOwner e) s M).2.CurrentParkourMode = M := by
  by_cases h : M = s.CurrentParkourMode
  · simp [SetParkourMode, h]
  · rw [SetParkourMode_of_ne _ s M h, ResetMovement_eq e _ (by exact hcalm)]
    split_ifs <;> rfl

/-- `SlideEnd` outside a slide does nothing. -/
theorem SlideEnd_of_ne (Owner : FCharacterOwner) (s : AParkourSystemCharacter)
    (h : s.CurrentParkourMode ≠ EParkourMode.EPM_Slide) : SlideEnd Owner s = s := by
  simp [SlideEnd, h]

/-- `SlideEnd` from a slide with nothing to flush. -/
theorem SlideEnd_of_Slide (e : Engine) (s : AParkourSystemCharacter)
    (h : s.CurrentParkourMode = EParkourMode.EPM_Slide) (hcalm : ¬ Flushes s) :
    SlideEnd (CharacterOwner e) s =
      { ToWalking
          { s with
            PrevParkourMode := EParkourMode.EPM_Slide
            CurrentParkourMode := EParkourMode.EPM_Crouch
            MaxWalkSpeed := s.MaxWalkSpeedCrouched
            GroundFriction := s.DefaultGroundFriction
            BrakingDecelerationWalking := s.DefaultBrakingDeceleration
            bConstrainToPlane := false } with
        bCanSlide := false } := by
  have hne : EParkourMode.EPM_Crouch ≠ s.CurrentParkourMode := by simp [h]
  simp only [SlideEnd, h, if_true, SetParkourMode_of_ne _ s _ hne, DisableSlide]
  rw [ResetMovement_eq e _ (by exact hcalm)]
  simp

/-- `SprintEnd` outside a sprint does nothing. -/
theorem SprintEnd_of_ne (Owner : FCharacterOwner) (s : AParkourSystemCharacter)
    (h : s.CurrentParkourMode ≠ EParkourMode.EPM_Sprint) : SprintEnd Owner s = s := by
  simp [SprintEnd, h]

/-- `SprintEnd` from a sprint with nothing to flush: the committed change to
None, the capability flag disabled, the re-enable timer set. -/
theorem SprintEnd_of_Sprint (e : Engine) (s : AParkourSystemCharacter)
    (h : s.CurrentParkourMode = EParkourMode.EPM_Sprint) (hcalm : ¬ Flushes s) :
    SprintEnd (CharacterOwner e) s =
      SetTimer
        { ToWalking
            { s with
              PrevParkourMode := EParkourMode.EPM_Sprint
              CurrentParkourMode := EParkourMode.EPM_None
              MaxWalkSpeed := s.DefaultWalkSpeed
              GroundFriction := s.DefaultGroundFriction
              BrakingDecelerationWalking := s.DefaultBrakingDeceleration
              bConstrainToPlane := false } with
          bCanSprint := false } (1 / 10) := by
  have hne : EParkourMode.EPM_None ≠ s.CurrentParkourMode := by simp [h]
  simp only [SprintEnd, h, if_true, SetParkourMode_of_ne _ s _ hne, DisableSprint]
  rw [ResetMovement_eq e _ (by exact hcalm)]
  simp

/-- `SetTimer` with a positive rate, as one record update. -/
theorem SetTimer_of_pos (s : AParkourSystemCharacter) (InRate : ℚ) (h : 0 < InRate) :
    SetTimer s InRate =
      { s with
        Timers :=
          s.Timers.filter (fun t => decide (t.Handle ≠ s.SprintTimerHandle))
            ++ [{ Handle := s.LastAssignedHandle + 1, Remaining := InRate }]
        LastAssignedHandle := s.LastAssignedHandle + 1
        SprintTimerHandle := s.LastAssignedHandle + 1 } := by
  simp [SetTimer, h]

/-- `CrouchEnd` outside a crouch does nothing. -/
theorem CrouchEnd_of_ne (Owner : FCharacterOwner) (e : Engine) (s : AParkourSystemCharacter)
    (h : s.CurrentParkourMode ≠ EParkourMode.EPM_Crouch) : CrouchEnd Owner e s = s := by
  simp [CrouchEnd, h]

/-- `CrouchEnd` under an obstructed ceiling does nothing. -/
theorem CrouchEnd_of_blocked (Owner : FCharacterOwner) (e : Engine)
    (s : AParkourSystemCharacter) (h : CanStand e s = false) : CrouchEnd Owner e s = s := by
  simp [CrouchEnd, h]

/-- `CrouchEnd` from a crouch with room to stand and nothing to flush. -/
theorem CrouchEnd_of_Crouch (e : Engine) (s : AParkourSystemCharacter)
    (h : s.CurrentParkourMode = EParkourMode.EPM_Crouch) (hs : CanStand e s = true)
    (hcalm : ¬ Flushes s) :
    CrouchEnd (CharacterOwner e) e s =
      { ToWalking
          { s with
            PrevParkourMode := EParkourMode.EPM_Crouch
            CurrentParkourMode := EParkourMode.EPM_None
            MaxWalkSpeed := s.DefaultWalkSpeed
            GroundFriction := s.DefaultGroundFriction
            BrakingDecelerationWalking := s.DefaultBrakingDeceleration
            bConstrainToPlane := false } with
        bIsSprintQueued := false
        bIsSlideQueued := false } := by
  have hne : EParkourMode.EPM_None ≠ s.CurrentParkourMode := by simp [h]
  simp only [CrouchEnd, h, hs, and_self, if_true, SetParkourMode_of_ne _ s _ hne]
  rw [ResetMovement_eq e _ (by exact hcalm)]
  simp [ToWalking]

/-- `CrouchEnd` from a crouch with room to stand and the component walking,
whoever the owner. -/
theorem CrouchEnd_of_Crouch_walking (Owner : FCharacterOwner) (e : Engine)
    (s : AParkourSystemCharacter)
    (h : s.CurrentParkourMode = EParkourMode.EPM_Crouch) (hs : CanStand e s = true)
    (hw : s.MovementMode = EMovementMode.MOVE_Walking) :
    CrouchEnd Owner e s =
      { s with
        PrevParkourMode := EParkourMode.EPM_Crouch
        CurrentParkourMode := EParkourMode.EPM_None
        MaxWalkSpeed := s.DefaultWalkSpeed
        GroundFriction := s.DefaultGroundFriction
        BrakingDecelerationWalking := s.DefaultBrakingDeceleration
        bConstrainToPlane := false
        bIsSprintQueued := false
        bIsSlideQueued := false } := by
  have hne : EParkourMode.EPM_None ≠ s.CurrentParkourMode := by simp [h]
  simp only [CrouchEnd, h, hs, and_self, if_true, SetParkourMode_of_ne _ s _ hne]
  rw [ResetMovement_of_walking _ _ (by exact hw)]
  simp

/-- `CrouchStart` outside None does nothing. -/
theorem CrouchStart_of_ne (Owner : FCharacterOwner) (s : AParkourSystemCharacter)
    (h : s.CurrentParkourMode ≠ EParkourMode.EPM_None) : CrouchStart Owner s = s := by
  simp [CrouchStart, h]

/-- `CrouchStart` from None with nothing to flush. -/
theorem CrouchStart_of_None (e : Engine) (s : AParkourSystemCharacter)
    (h : s.CurrentParkourMode = EParkourMode.EPM_None) (hcalm : ¬ Flushes s) :
    CrouchStart (CharacterOwner e) s =
      { ToWalking
          { s with
            PrevParkourMode := EParkourMode.EPM_None
            CurrentParkourMode := EParkourMode.EPM_Crouch
            MaxWalkSpeed := s.MaxWalkSpeedCrouched
            GroundFriction := s.DefaultGroundFriction
            BrakingDecelerationWalking := s.DefaultBrakingDeceleration
            bConstrainToPlane := false } with
        bIsSprintQueued := false
        bIsSlideQueued := false } := by
  have hne : EParkourMode.EPM_Crouch ≠ s.CurrentParkourMode := by simp [h]
  simp only [CrouchStart, h, if_true, SetParkourMode_of_ne _ s _ hne]
  rw [ResetMovement_eq e _ (by exact hcalm)]
  simp [ToWalking]

/-- `SprintStart` from None on walking ground, as one record update. -/
theorem SprintStart_of_None_walking (Owner : FCharacterOwner) (e : Engine)
    (s : AParkourSystemCharacter)
    (h : s.CurrentParkourMode = EParkourMode.EPM_None) (hw : IsWalking s = true) :
    SprintStart Owner e s =
      { s with
        PrevParkourMode := EParkourMode.EPM_None
        CurrentParkourMode := EParkourMode.EPM_Sprint
        MaxWalkSpeed := s.SprintSpeed
        bCanSprint := true
        bIsSprintQueued := false
        bIsSlideQueued := false } := by
  have h1 : CrouchEnd Owner e s = s := CrouchEnd_of_ne Owner e s (by simp [h])
  have h2 : SlideEnd Owner s = s := SlideEnd_of_ne Owner s (by simp [h])
  have hne : EParkourMode.EPM_Sprint ≠ s.CurrentParkourMode := by simp [h]
  simp only [SprintStart, h1, h2, CanSprint, hw, h, decide_True, Bool.and_self, if_true,
    SetParkourMode_of_ne Owner s _ hne, EnableSprint]
  rw [ResetMovement_of_not Owner _ (Or.inl rfl)]

/-- `SprintStart` from None off walking ground does nothing. -/
theorem SprintStart_of_None_not_walking (Owner : FCharacterOwner) (e : Engine)
    (s : AParkourSystemCharacter)
    (h : s.CurrentParkourMode = EParkourMode.EPM_None) (hw : IsWalking s = false) :
    SprintStart Owner e s = s := by
  have h1 : CrouchEnd Owner e s = s := CrouchEnd_of_ne Owner e s (by simp [h])
  have h2 : SlideEnd Owner s = s := SlideEnd_of_ne Owner s (by simp [h])
  simp [SprintStart, h1, h2, CanSprint, hw]

/-- `SprintStart` from Sprint does nothing. -/
theorem SprintStart_of_Sprint (Owner : FCharacterOwner) (e : Engine)
    (s : AParkourSystemCharacter)
    (h : s.CurrentParkourMode = EParkourMode.EPM_Sprint) : SprintStart Owner e s = s := by
  have h1 : CrouchEnd Owner e s = s := CrouchEnd_of_ne Owner e s (by simp [h])
  have h2 : SlideEnd Owner s = s := SlideEnd_of_ne Owner s (by simp [h])
  simp [SprintStart, h1, h2, CanSprint, h]

/-- `SprintStart` from Slide with nothing to flush only ends the slide. -/
theorem SprintStart_of_Slide (e : Engine) (s : AParkourSystemCharacter)
    (h : s.CurrentParkourMode = EParkourMode.EPM_Slide) (hcalm : ¬ Flushes s) :
    SprintStart (CharacterOwner e) e s = SlideEnd (CharacterOwner e) s := by
  have h1 : CrouchEnd (CharacterOwner e) e s = s := CrouchEnd_of_ne _ e s (by simp [h])
  have h2 : (SlideEnd (CharacterOwner e) s).CurrentParkourMode = EParkourMode.EPM_Crouch := by
    rw [SlideEnd_of_Slide e s h hcalm]
    rfl
  simp [SprintStart, h1, CanSprint, h2]

/-- `SprintStart` from Crouch under an obstructed ceiling does nothing. -/
theorem SprintStart_of_Crouch_blocked (Owner : FCharacterOwner) (e : Engine)
    (s : AParkourSystemCharacter)
    (h : s.CurrentParkourMode = EParkourMode.EPM_Crouch) (hs : CanStand e s = false) :
    SprintStart Owner e s = s := by
  have h1 : CrouchEnd Owner e s = s := CrouchEnd_of_blocked Owner e s hs
  have h2 : SlideEnd Owner s = s := SlideEnd_of_ne Owner s (by simp [h])
  simp [SprintStart, h1, h2, CanSprint, h]

/-- `SprintStart` after `CrouchEnd` has left mode None on walking ground is
`SprintStart` from the state `CrouchEnd` has left. -/
theorem SprintStart_after_CrouchEnd (Owner : FCharacterOwner) (e : Engine)
    (s : AParkourSystemCharacter)
    (h : (CrouchEnd Owner e s).CurrentParkourMode = EParkourMode.EPM_None) :
    SprintStart Owner e s = SprintStart Owner e (CrouchEnd Owner e s) := by
  have h6 : CrouchEnd Owner e (CrouchEnd Owner e s) = CrouchEnd Owner e s :=
    CrouchEnd_of_ne Owner e _ (by simp [h])
  simp [SprintStart, h6]

/-- `SprintStart` from Crouch with room to stand and nothing to flush: the
character stands up, which forces walking locomotion, and then sprints. -/
theorem SprintStart_of_Crouch (e : Engine) (s : AParkourSystemCharacter)
    (h : s.CurrentParkourMode = EParkourMode.EPM_Crouch) (hs : CanStand e s = true)
    (hcalm : ¬ Flushes s) :
    SprintStart (CharacterOwner e) e s =
      { ToWalking
          { s with
            PrevParkourMode := EParkourMode.EPM_Crouch
            CurrentParkourMode := EParkourMode.EPM_None
            MaxWalkSpeed := s.DefaultWalkSpeed
            GroundFriction := s.DefaultGroundFriction
            BrakingDecelerationWalking := s.DefaultBrakingDeceleration
            bConstrainToPlane := false } with
        PrevParkourMode := EParkourMode.EPM_None
        CurrentParkourMode := EParkourMode.EPM_Sprint
        MaxWalkSpeed := s.SprintSpeed
        bCanSprint := true
        bIsSprintQueued := false
        bIsSlideQueued := false } := by
  have h1 := CrouchEnd_of_Crouch e s h hs hcalm
  have h3 : (CrouchEnd (CharacterOwner e) e s).CurrentParkourMode = EParkourMode.EPM_None := by
    rw [h1]
    rfl
  have h4 : IsWalking (CrouchEnd (CharacterOwner e) e s) = true := by
    rw [h1]
    rfl
  rw [SprintStart_after_CrouchEnd _ e s h3, SprintStart_of_None_walking _ e _ h3 h4, h1]
  rfl

/-- `SprintStart` from Crouch with room to stand and the component walking,
whoever the owner. -/
theorem SprintStart_of_Crouch_walking (Owner : FCharacterOwner) (e : Engine)
    (s : AParkourSystemCharacter)
    (h : s.CurrentParkourMode = EParkourMode.EPM_Crouch) (hs : CanStand e s = true)
    (hw : s.MovementMode = EMovementMode.MOVE_Walking) :
    SprintStart Owner e s =
      { s with
        PrevParkourMode := EParkourMode.EPM_None
        CurrentParkourMode := EParkourMode.EPM_Sprint
        MaxWalkSpeed := s.SprintSpeed
        GroundFriction := s.DefaultGroundFriction
        BrakingDecelerationWalking := s.DefaultBrakingDeceleration
        bConstrainToPlane := false
        bCanSprint := true
        bIsSprintQueued := false
        bIsSlideQueued := false } := by
  have h1 := CrouchEnd_of_Crouch_walking Owner e s h hs hw
  have h3 : (CrouchEnd Owner e s).CurrentParkourMode = EParkourMode.EPM_None := by
    rw [h1]
  have h4 : IsWalking (CrouchEnd Owner e s) = true := by
    rw [h1]
    simp [IsWalking, hw]
  rw [SprintStart_after_CrouchEnd _ e s h3, SprintStart_of_None_walking _ e _ h3 h4, h1]

/-- `SlideStart` without its precondition does nothing. -/
theorem SlideStart_of_not (Owner : FCharacterOwner) (e : Engine) (s : AParkourSystemCharacter)
    (h : ¬ (CanSlide s = true ∧ IsWalking s = true)) : SlideStart Owner e s = s := by
  simp only [SlideStart, h, if_false]

/-- `SlideStart` under its precondition ends in mode Slide with the slide
capability flag set and both queue flags cleared, whoever the owner. -/
theorem SlideStart_of_ok (Owner : FCharacterOwner) (e : Engine) (s : AParkourSystemCharacter)
    (hc : CanSlide s = true) (hw : IsWalking s = true) :
    (SlideStart Owner e s).CurrentParkourMode = EParkourMode.EPM_Slide
    ∧ (SlideStart Owner e s).bCanSlide = true
    ∧ (SlideStart Owner e s).bIsSprintQueued = false
    ∧ (SlideStart Owner e s).bIsSlideQueued = false := by
  simp [SlideStart, hc, hw, AddImpulse, EnableSlide, SetParkourMode_mode]

/-- `SetMovementMode(MOVE_Walking)` leaves the state described by `ToWalking`
whenever the handler, should the component have been falling, finds its
`CheckQueues` doing nothing. -/
theorem SetMovementMode_of_idle (e : Engine) (s : AParkourSystemCharacter)
    (h : s.MovementMode = EMovementMode.MOVE_Falling →
      CheckQueues (Dispatch e 0) e
          { s with
            MovementMode := EMovementMode.MOVE_Walking
            PreviousMovementMode := EMovementMode.MOVE_Falling
            CurrentMovementMode := EMovementMode.MOVE_Walking
            bCanDoubleJump := true }
        = { s with
            MovementMode := EMovementMode.MOVE_Walking
            PreviousMovementMode := EMovementMode.MOVE_Falling
            CurrentMovementMode := EMovementMode.MOVE_Walking
            bCanDoubleJump := true }) :
    SetMovementMode (CharacterOwner e) s EMovementMode.MOVE_Walking = ToWalking s := by
  by_cases hw : s.MovementMode = EMovementMode.MOVE_Walking
  · rw [SetMovementMode_of_eq _ s _ hw, ToWalking_of_walking s hw]
  · simp only [SetMovementMode, hw, if_false]
    rw [CharacterOwner_of_walking e _ _ rfl]
    by_cases hf : s.MovementMode = EMovementMode.MOVE_Falling
    · rw [if_pos hf]
      refine (h hf).trans ?_
      simp [ToWalking, hw, hf]
    · rw [if_neg hf]
      simp [ToWalking, hw, hf]

/-- `SetMovementMode(MOVE_Walking)` in mode Crouch with the component falling,
a sprint queued, no slide queued and room to stand: the handler called by the
component flushes the queued sprint, which stands the character up and
enters Sprint, before `SetMovementMode` returns. -/
theorem SetMovementMode_of_flush (e : Engine) (s : AParkourSystemCharacter)
    (hm : s.CurrentParkourMode = EParkourMode.EPM_Crouch)
    (hf : s.MovementMode = EMovementMode.MOVE_Falling)
    (hq : s.bIsSprintQueued = true) (hs : s.bIsSlideQueued = false)
    (hstand : CanStand e s = true) :
    SetMovementMode (CharacterOwner e) s EMovementMode.MOVE_Walking =
      { s with
        MovementMode := EMovementMode.MOVE_Walking
        PreviousMovementMode := EMovementMode.MOVE_Falling
        CurrentMovementMode := EMovementMode.MOVE_Walking
        bCanDoubleJump := true
        PrevParkourMode := EParkourMode.EPM_None
        CurrentParkourMode := EParkourMode.EPM_Sprint
        MaxWalkSpeed := s.SprintSpeed
        GroundFriction := s.DefaultGroundFriction
        BrakingDecelerationWalking := s.DefaultBrakingDeceleration
        bConstrainToPlane := false
        bCanSprint := true
        bIsSprintQueued := false
        bIsSlideQueued := false } := by
  have hw : ¬ s.MovementMode = EMovementMode.MOVE_Walking := by simp [hf]
  simp only [SetMovementMode, hw, if_false]
  rw [CharacterOwner_of_walking e _ _ rfl, if_pos hf]
  have hc : ∀ t : AParkourSystemCharacter, t.bIsSlideQueued = false → t.bIsSprintQueued = true →
      CheckQueues (Dispatch e 0) e t = SprintStart (Dispatch e 0) e t := by
    intro t h1 h2
    simp [CheckQueues, h1, h2]
  rw [hc _ (by exact hs) (by exact hq),
    SprintStart_of_Crouch_walking _ e _ (by exact hm) (by exact hstand) rfl]

/-- `CrouchStart` from None with the component falling, a sprint queued, no
slide queued and room to stand: the queued sprint is flushed inside
`SetParkourMode`, so the character is left in mode Sprint, and `CrouchStart`
then writes the crouched walk speed. -/
theorem CrouchStart_of_flush (e : Engine) (s : AParkourSystemCharacter)
    (hm : s.CurrentParkourMode = EParkourMode.EPM_None)
    (hf : s.MovementMode = EMovementMode.MOVE_Falling)
    (hq : s.bIsSprintQueued = true) (hs : s.bIsSlideQueued = false)
    (hstand : CanStand e s = true) :
    SetParkourMode (CharacterOwner e) s EParkourMode.EPM_Crouch =
      (true,
        { s with
          MovementMode := EMovementMode.MOVE_Walking
          PreviousMovementMode := EMovementMode.MOVE_Falling
          CurrentMovementMode := EMovementMode.MOVE_Walking
          bCanDoubleJump := true
          PrevParkourMode := EParkourMode.EPM_None
          CurrentParkourMode := EParkourMode.EPM_Sprint
          MaxWalkSpeed := s.SprintSpeed
          GroundFriction := s.DefaultGroundFriction
          BrakingDecelerationWalking := s.DefaultBrakingDeceleration
          bConstrainToPlane := false
          bCanSprint := true
          bIsSprintQueued := false
          bIsSlideQueued := false })
    ∧ CrouchStart (CharacterOwner e) s =
        { s with
          MovementMode := EMovementMode.MOVE_Walking
          PreviousMovementMode := EMovementMode.MOVE_Falling
          CurrentMovementMode := EMovementMode.MOVE_Walking
          bCanDoubleJump := true
          PrevParkourMode := EParkourMode.EPM_None
          CurrentParkourMode := EParkourMode.EPM_Sprint
          MaxWalkSpeed := s.MaxWalkSpeedCrouched
          GroundFriction := s.DefaultGroundFriction
          BrakingDecelerationWalking := s.DefaultBrakingDeceleration
          bConstrainToPlane := false
          bCanSprint := true
          bIsSprintQueued := false
          bIsSlideQueued := false } := by
  have hne : EParkourMode.EPM_Crouch ≠ s.CurrentParkourMode := by simp [hm]
  have hset : SetParkourMode (CharacterOwner e) s EParkourMode.EPM_Crouch =
      (true,
        { s with
          MovementMode := EMovementMode.MOVE_Walking
          PreviousMovementMode := EMovementMode.MOVE_Falling
          CurrentMovementMode := EMovementMode.MOVE_Walking
          bCanDoubleJump := true
          PrevParkourMode := EParkourMode.EPM_None
          CurrentParkourMode := EParkourMode.EPM_Sprint
          MaxWalkSpeed := s.SprintSpeed
          GroundFriction := s.DefaultGroundFriction
          BrakingDecelerationWalking := s.DefaultBrakingDeceleration
          bConstrainToPlane := false
          bCanSprint := true
          bIsSprintQueued := false
          bIsSlideQueued := false }) := by
    rw [SetParkourMode_of_ne _ s _ hne]
    simp only [ResetMovement, bToWalking_eq_true, or_true, if_true]
    rw [SetMovementMode_of_flush e _ rfl (by exact hf) (by exact hq) (by exact hs)
      (by exact hstand)]
  refine ⟨hset, ?_⟩
  simp only [CrouchStart, hm, if_true, hset]

/-- `CrouchStart` from None with no slide queued and no room to stand: a
queued sprint that the handler tries to flush is refused by `CrouchEnd`, so
the character is left in mode Crouch. -/
theorem CrouchStart_of_blocked (e : Engine) (s : AParkourSystemCharacter)
    (hm : s.CurrentParkourMode = EParkourMode.EPM_None)
    (hs : s.bIsSlideQueued = false) (hstand : CanStand e s = false) :
    CrouchStart (CharacterOwner e) s =
      { ToWalking
          { s with
            PrevParkourMode := EParkourMode.EPM_None
            CurrentParkourMode := EParkourMode.EPM_Crouch
            MaxWalkSpeed := s.MaxWalkSpeedCrouched
            GroundFriction := s.DefaultGroundFriction
            BrakingDecelerationWalking := s.DefaultBrakingDeceleration
            bConstrainToPlane := false } with
        bIsSprintQueued := false
        bIsSlideQueued := false } := by
  have hne : EParkourMode.EPM_Crouch ≠ s.CurrentParkourMode := by simp [hm]
  have hc : ∀ t : AParkourSystemCharacter, t.bIsSlideQueued = false →
      t.CurrentParkourMode = EParkourMode.EPM_Crouch → CanStand e t = false →
      CheckQueues (Dispatch e 0) e t = t := by
    intro t h1 h2 h3
    unfold CheckQueues
    rw [if_neg (by simp [h1])]
    split_ifs
    · exact SprintStart_of_Crouch_blocked _ e t h2 h3
    · rfl
  simp only [CrouchStart, hm, if_true, SetParkourMode_of_ne _ s _ hne]
  simp only [ResetMovement, bToWalking_eq_true, or_true, if_true]
  rw [SetMovementMode_of_idle e _ (fun _ => hc _ (by exact hs) rfl (by exact hstand))]
  simp [ToWalking]

/-! ## Evaluation of the concrete inputs -/

/-- The standing character has forward input. -/
theorem ForwardInput_standing : ForwardInput standing = true := by
  simp [ForwardInput, FVector.DotProduct, standing, BeginPlay, Constructor, baseObject]

/-- The sprinting character may slide. -/
theorem CanSlide_sprinting : CanSlide sprinting = true := by
  have h : sprinting.ActorForwardVector = ⟨1, 0, 0⟩ ∧ sprinting.LastInputVector = ⟨1, 0, 0⟩ :=
    ⟨rfl, rfl⟩
  have hm : sprinting.CurrentParkourMode = EParkourMode.EPM_Sprint := rfl
  simp [CanSlide, ForwardInput, FVector.DotProduct, h.1, h.2, hm]

/-- The concrete input `sliding` is in mode Slide, with the slide capability
flag set. -/
theorem sliding_mode :
    sliding.CurrentParkourMode = EParkourMode.EPM_Slide ∧ sliding.bCanSlide = true := by
  have hw : IsWalking sprinting = true := rfl
  have h := SlideStart_of_ok (CharacterOwner openWorld) openWorld sprinting CanSlide_sprinting hw
  simp only [sliding, CrouchSlideKeyPressed, CanSlide_sprinting, hw, if_true]
  exact ⟨h.1, h.2.1⟩

/-- The concrete input `sliding` has nothing queued and its component is
walking. -/
theorem sliding_queue :
    sliding.bIsSprintQueued = false ∧ sliding.bIsSlideQueued = false
    ∧ sliding.MovementMode = EMovementMode.MOVE_Walking := by
  have hw : IsWalking sprinting = true := rfl
  have hm : sprinting.CurrentParkourMode = EParkourMode.EPM_Sprint := rfl
  have hq : sprinting.bIsSprintQueued = false := rfl
  have h := SlideStart_of_ok (CharacterOwner openWorld) openWorld sprinting CanSlide_sprinting hw
  have hk : sliding = SlideStart (CharacterOwner openWorld) openWorld sprinting := by
    simp only [sliding, CrouchSlideKeyPressed, CanSlide_sprinting, hw, if_true]
  refine ⟨?_, ?_, ?_⟩
  · rw [hk]
    exact h.2.2.1
  · rw [hk]
    exact h.2.2.2
  · rw [hk]
    simp only [SlideStart, CanSlide_sprinting, hw, and_self, if_true,
      SprintEnd_of_Sprint openWorld sprinting hm (not_Flushes_of_not_queued _ hq),
      SetTimer_of_pos _ _ (show (0 : ℚ) < 1 / 10 by norm_num), AddImpulse, EnableSlide]
    rw [SetParkourMode_of_ne _ _ _ (by simp), ResetMovement_of_not _ _ (Or.inr rfl)]
    rfl

/-- A walking-to-falling notification in mode None only records the two
movement modes, whoever the owner. -/
theorem OnMovementModeChanged_of_None (Owner : FCharacterOwner) (e : Engine)
    (s : AParkourSystemCharacter) (InPrevMovementMode : EMovementMode)
    (hm : s.CurrentParkourMode = EParkourMode.EPM_None)
    (hf : s.MovementMode = EMovementMode.MOVE_Falling) :
    OnMovementModeChanged Owner e s InPrevMovementMode
      = { s with
          PreviousMovementMode := InPrevMovementMode
          CurrentMovementMode := EMovementMode.MOVE_Falling } := by
  have h1 : ∀ t : AParkourSystemCharacter, t.CurrentParkourMode = EParkourMode.EPM_None →
      SlideEnd Owner (SprintEnd Owner (SprintJump Owner t)) = t := by
    intro t ht
    have a : SprintJump Owner t = t := by simp [SprintJump, ht]
    rw [a, SprintEnd_of_ne Owner t (by simp [ht]), SlideEnd_of_ne Owner t (by simp [ht])]
  unfold OnMovementModeChanged
  simp only [hf, and_true, reduceCtorEq, and_false, if_false]
  split_ifs
  · exact h1 _ hm
  · rfl

/-- The concrete input `leaping`, as a record. -/
theorem leaping_eq :
    leaping =
      { sprinting with
        PrevParkourMode := EParkourMode.EPM_Sprint
        CurrentParkourMode := EParkourMode.EPM_None
        MaxWalkSpeed := 600
        bCanSprint := false
        Timers := [{ Handle := 1, Remaining := 1 / 10 }]
        LastAssignedHandle := 1
        SprintTimerHandle := 1
        bIsSprintQueued := true } := by
  have hm : sprinting.CurrentParkourMode = EParkourMode.EPM_Sprint := rfl
  have hq : sprinting.bIsSprintQueued = false := rfl
  have hs : CanStand openWorld sprinting = true := rfl
  have hc : CrouchJump (CharacterOwner openWorld) openWorld sprinting = sprinting := rfl
  have hend := SprintEnd_of_Sprint openWorld sprinting hm (not_Flushes_of_not_queued _ hq)
  rw [SetTimer_of_pos _ _ (by norm_num)] at hend
  have hj : SprintJump (CharacterOwner openWorld) sprinting
      = { SprintEnd (CharacterOwner openWorld) sprinting with bIsSprintQueued := true } := by
    simp only [SprintJump, hm, if_true]
  have h : leaping = Jump (CharacterOwner openWorld) openWorld sprinting := rfl
  rw [h]
  simp only [Jump, hs, hc, hj, hend]
  rfl

/-- The concrete input `midair`: mode None with the sprint queued and no
slide queued, the component falling, no forward input, room to stand. -/
theorem midair_fields :
    midair.CurrentParkourMode = EParkourMode.EPM_None
    ∧ midair.bIsSprintQueued = true
    ∧ midair.bIsSlideQueued = false
    ∧ midair.MovementMode = EMovementMode.MOVE_Falling
    ∧ ForwardInput midair = false
    ∧ CanStand openWorld midair = true
    ∧ midair.SprintSpeed = 1000
    ∧ midair.MaxWalkSpeedCrouched = 300
    ∧ midair.bCanDoubleJump = true := by
  have h : midair
      = Simulate
          (OnMovementModeChanged (CharacterOwner openWorld) openWorld
            { leaping with MovementMode := EMovementMode.MOVE_Falling }
            EMovementMode.MOVE_Walking) released := rfl
  have hl : leaping.CurrentParkourMode = EParkourMode.EPM_None := by rw [leaping_eq]
  rw [OnMovementModeChanged_of_None _ _ _ _ (by exact hl) rfl, leaping_eq] at h
  have hf : ForwardInput midair = false := by
    have h1 : midair.ActorForwardVector = ⟨1, 0, 0⟩ ∧ midair.LastInputVector = ⟨0, 0, 0⟩ := by
      rw [h]
      exact ⟨rfl, rfl⟩
    simp [ForwardInput, FVector.DotProduct, h1.1, h1.2]
  refine ⟨?_, ?_, ?_, ?_, hf, rfl, ?_, ?_, ?_⟩ <;> rw [h] <;> rfl

/-! ## One level of nesting is all there is -/

/-- `SetMovementMode(MOVE_Walking)` on this character: a falling component is
put on the ground and the handler checks the queues; any other component is
left in the state described by `ToWalking`. -/
theorem SetMovementMode_CharacterOwner (e : Engine) (s : AParkourSystemCharacter) :
    SetMovementMode (CharacterOwner e) s EMovementMode.MOVE_Walking
      = if s.MovementMode = EMovementMode.MOVE_Falling then
          CheckQueues (Dispatch e 0) e (ToWalking s)
        else ToWalking s := by
  by_cases hw : s.MovementMode = EMovementMode.MOVE_Walking
  · rw [SetMovementMode_of_eq _ s _ hw, ToWalking_of_walking s hw, if_neg (by rw [hw]; decide)]
  · simp only [SetMovementMode, hw, if_false]
    rw [CharacterOwner_of_walking e _ _ rfl]
    by_cases hf : s.MovementMode = EMovementMode.MOVE_Falling
    · rw [if_pos hf, if_pos hf]
      congr 1
      simp [ToWalking, hf]
    · rw [if_neg hf, if_neg hf]
      simp [ToWalking, hw, hf]

/-- On a walking component `ResetMovement` notifies nobody and leaves the
component walking. -/
theorem ResetMovement_walking (Owner Owner2 : FCharacterOwner) (s : AParkourSystemCharacter)
    (hw : s.MovementMode = EMovementMode.MOVE_Walking) :
    ResetMovement Owner s = ResetMovement Owner2 s
    ∧ (ResetMovement Owner s).MovementMode = EMovementMode.MOVE_Walking := by
  rw [ResetMovement_of_walking Owner s hw, ResetMovement_of_walking Owner2 s hw]
  refine ⟨rfl, ?_⟩
  split_ifs <;> exact hw

/-- On a walking component `SetParkourMode` notifies nobody and leaves the
component walking. -/
theorem SetParkourMode_walking (Owner Owner2 : FCharacterOwner) (s : AParkourSystemCharacter)
    (M : EParkourMode) (hw : s.MovementMode = EMovementMode.MOVE_Walking) :
    SetParkourMode Owner s M = SetParkourMode Owner2 s M
    ∧ (SetParkourMode Owner s M).2.MovementMode = EMovementMode.MOVE_Walking := by
  by_cases h : M = s.CurrentParkourMode
  · rw [SetParkourMode_of_eq Owner s M h, SetParkourMode_of_eq Owner2 s M h]
    exact ⟨rfl, hw⟩
  · rw [SetParkourMode_of_ne Owner s M h, SetParkourMode_of_ne Owner2 s M h]
    have key := ResetMovement_walking Owner Owner2
      { s with PrevParkourMode := s.CurrentParkourMode, CurrentParkourMode := M } hw
    exact ⟨by rw [key.1], key.2⟩

/-- `SetTimer` leaves the movement mode alone. -/
theorem SetTimer_MovementMode (s : AParkourSystemCharacter) (InRate : ℚ) :
    (SetTimer s InRate).MovementMode = s.MovementMode := by
  unfold SetTimer
  simp only []
  split_ifs <;> rfl

/-- On a walking component `SprintEnd` notifies nobody and leaves the
component walking. -/
theorem SprintEnd_walking (Owner Owner2 : FCharacterOwner) (s : AParkourSystemCharacter)
    (hw : s.MovementMode = EMovementMode.MOVE_Walking) :
    SprintEnd Owner s = SprintEnd Owner2 s
    ∧ (SprintEnd Owner s).MovementMode = EMovementMode.MOVE_Walking := by
  have key := SetParkourMode_walking Owner Owner2 s EParkourMode.EPM_None hw
  constructor
  · unfold SprintEnd
    simp only [key.1]
  unfold SprintEnd
  simp only []
  split_ifs
  · rw [SetTimer_MovementMode]
    exact key.2
  · exact key.2
  · exact hw

/-- On a walking component `SlideEnd` notifies nobody and leaves the
component walking. -/
theorem SlideEnd_walking (Owner Owner2 : FCharacterOwner) (s : AParkourSystemCharacter)
    (hw : s.MovementMode = EMovementMode.MOVE_Walking) :
    SlideEnd Owner s = SlideEnd Owner2 s
    ∧ (SlideEnd Owner s).MovementMode = EMovementMode.MOVE_Walking := by
  have key := SetParkourMode_walking Owner Owner2 s EParkourMode.EPM_Crouch hw
  constructor
  · unfold SlideEnd
    simp only [key.1]
  unfold SlideEnd
  simp only []
  split_ifs
  · exact key.2
  · exact key.2
  · exact hw

/-- On a walking component `CrouchEnd` notifies nobody and leaves the
component walking. -/
theorem CrouchEnd_walking (Owner Owner2 : FCharacterOwner) (e : Engine)
    (s : AParkourSystemCharacter) (hw : s.MovementMode = EMovementMode.MOVE_Walking) :
    CrouchEnd Owner e s = CrouchEnd Owner2 e s
    ∧ (CrouchEnd Owner e s).MovementMode = EMovementMode.MOVE_Walking := by
  have key := SetParkourMode_walking Owner Owner2 s EParkourMode.EPM_None hw
  constructor
  · unfold CrouchEnd
    simp only [key.1]
  unfold CrouchEnd
  simp only []
  split_ifs
  · exact key.2
  · exact hw

/-- On a walking component `CrouchStart` notifies nobody and leaves the
component walking. -/
theorem CrouchStart_walking (Owner Owner2 : FCharacterOwner) (s : AParkourSystemCharacter)
    (hw : s.MovementMode = EMovementMode.MOVE_Walking) :
    CrouchStart Owner s = CrouchStart Owner2 s
    ∧ (CrouchStart Owner s).MovementMode = EMovementMode.MOVE_Walking := by
  have key := SetParkourMode_walking Owner Owner2 s EParkourMode.EPM_Crouch hw
  constructor
  · unfold CrouchStart
    simp only [key.1]
  unfold CrouchStart
  simp only []
  split_ifs
  · exact key.2
  · exact hw

/-- On a walking component `SprintStart` notifies nobody and leaves the
component walking. -/
theorem SprintStart_walking (Owner Owner2 : FCharacterOwner) (e : Engine)
    (s : AParkourSystemCharacter) (hw : s.MovementMode = EMovementMode.MOVE_Walking) :
    SprintStart Owner e s = SprintStart Owner2 e s
    ∧ (SprintStart Owner e s).MovementMode = EMovementMode.MOVE_Walking := by
  have h1 := CrouchEnd_walking Owner Owner2 e s hw
  have h2 := SlideEnd_walking Owner Owner2 (CrouchEnd Owner e s) h1.2
  have h3 := SetParkourMode_walking Owner Owner2 (SlideEnd Owner (CrouchEnd Owner e s))
    EParkourMode.EPM_Sprint h2.2
  constructor
  · unfold SprintStart
    simp only []
    rw [← h1.1, ← h2.1, ← h3.1]
  · unfold SprintStart
    simp only []
    split_ifs
    · exact h3.2
    · exact h3.2
    · exact h2.2

/-- On a walking component `SlideStart` notifies nobody and leaves the
component walking. -/
theorem SlideStart_walking (Owner Owner2 : FCharacterOwner) (e : Engine)
    (s : AParkourSystemCharacter) (hw : s.MovementMode = EMovementMode.MOVE_Walking) :
    SlideStart Owner e s = SlideStart Owner2 e s
    ∧ (SlideStart Owner e s).MovementMode = EMovementMode.MOVE_Walking := by
  have h1 := SprintEnd_walking Owner Owner2 s hw
  have h2 := SetParkourMode_walking Owner Owner2 (SprintEnd Owner s) EParkourMode.EPM_Slide h1.2
  constructor
  · unfold SlideStart
    simp only []
    rw [← h1.1, ← h2.1]
  · unfold SlideStart
    simp only []
    split_ifs
    · exact h2.2
    · exact hw

/-- On a walking component `SprintJump` notifies nobody and leaves the
component walking. -/
theorem SprintJump_walking (Owner Owner2 : FCharacterOwner) (s : AParkourSystemCharacter)
    (hw : s.MovementMode = EMovementMode.MOVE_Walking) :
    SprintJump Owner s = SprintJump Owner2 s
    ∧ (SprintJump Owner s).MovementMode = EMovementMode.MOVE_Walking := by
  have h1 := SprintEnd_walking Owner Owner2 s hw
  constructor
  · unfold SprintJump
    rw [← h1.1]
  · unfold SprintJump
    simp only []
    split_ifs
    · exact h1.2
    · exact hw

/-- On a walking component `CheckQueues` notifies nobody and leaves the
component walking. -/
theorem CheckQueues_walking (Owner Owner2 : FCharacterOwner) (e : Engine)
    (s : AParkourSystemCharacter) (hw : s.MovementMode = EMovementMode.MOVE_Walking) :
    CheckQueues Owner e s = CheckQueues Owner2 e s
    ∧ (CheckQueues Owner e s).MovementMode = EMovementMode.MOVE_Walking := by
  have h1 := SlideStart_walking Owner Owner2 e s hw
  have h2 := SprintStart_walking Owner Owner2 e s hw
  constructor
  · unfold CheckQueues
    rw [← h1.1, ← h2.1]
  · unfold CheckQueues
    split_ifs
    · exact h1.2
    · exact h2.2
    · exact hw

/-- The handler, called with the component walking, notifies nobody and
leaves the component walking. -/
theorem OnMovementModeChanged_walking (Owner Owner2 : FCharacterOwner) (e : Engine)
    (s : AParkourSystemCharacter) (InPrevMovementMode : EMovementMode)
    (hw : s.MovementMode = EMovementMode.MOVE_Walking) :
    OnMovementModeChanged Owner e s InPrevMovementMode
      = OnMovementModeChanged Owner2 e s InPrevMovementMode
    ∧ (OnMovementModeChanged Owner e s InPrevMovementMode).MovementMode
        = EMovementMode.MOVE_Walking := by
  have h1 := CheckQueues_walking Owner Owner2 e
    { s with
      PreviousMovementMode := InPrevMovementMode
      CurrentMovementMode := s.MovementMode
      bCanDoubleJump := true } hw
  simp only [hw] at h1
  constructor
  · unfold OnMovementModeChanged
    simp only [hw, reduceCtorEq, and_false, if_false, and_true]
    rw [← h1.1]
  · unfold OnMovementModeChanged
    simp only [hw, reduceCtorEq, and_false, if_false, and_true]
    split_ifs
    · exact h1.2
    · rfl

/-- More nesting changes nothing: with the component walking, the handler of
every depth from one on is the handler of depth one. -/
theorem Dispatch_stable (e : Engine) (n : Nat) (s : AParkourSystemCharacter)
    (InPrevMovementMode : EMovementMode)
    (hw : s.MovementMode = EMovementMode.MOVE_Walking) :
    Dispatch e (n + 1) s InPrevMovementMode = CharacterOwner e s InPrevMovementMode :=
  (OnMovementModeChanged_walking (Dispatch e n) (Dispatch e 0) e s InPrevMovementMode hw).1

/-- `ResetMovement` with the handler of any depth from one on is
`ResetMovement` of the character: the one notification it can cause is
delivered with the component walking. -/
theorem ResetMovement_Dispatch (e : Engine) (n : Nat) (s : AParkourSystemCharacter) :
    ResetMovement (Dispatch e (n + 1)) s = ResetMovement (CharacterOwner e) s := by
  unfold ResetMovement SetMovementMode
  simp only [bToWalking_eq_true, if_true]
  split_ifs
  · rfl
  · exact Dispatch_stable e n _ _ rfl
  · rfl
  · exact Dispatch_stable e n _ _ rfl
  · rfl

/-- The handler of the character is its own `OnMovementModeChanged`: the
notification delivered from inside a member function runs the member
functions of the character itself. -/
theorem CharacterOwner_eq (e : Engine) (s : AParkourSystemCharacter)
    (InPrevMovementMode : EMovementMode)
    (hw : s.MovementMode = EMovementMode.MOVE_Walking) :
    CharacterOwner e s InPrevMovementMode
      = OnMovementModeChanged (CharacterOwner e) e s InPrevMovementMode :=
  (OnMovementModeChanged_walking (Dispatch e 0) (CharacterOwner e) e s InPrevMovementMode hw).1

/-- The queues checked by the handler from inside `ResetMovement` are checked
by the character's own `CheckQueues`. -/
theorem CheckQueues_Dispatch (e : Engine) (s : AParkourSystemCharacter)
    (hw : s.MovementMode = EMovementMode.MOVE_Walking) :
    CheckQueues (Dispatch e 0) e s = CheckQueues (CharacterOwner e) e s :=
  (CheckQueues_walking (Dispatch e 0) (CharacterOwner e) e s hw).1

/-! ## What `ResetMovement` does on this character -/

/-- `ResetMovement` on this character: in None and Crouch the parameters are
restored and the component is put on the ground; when it was falling, the
handler then checks the queues. -/
theorem ResetMovement_CharacterOwner (e : Engine) (s : AParkourSystemCharacter) :
    ResetMovement (CharacterOwner e) s =
      if s.CurrentParkourMode = EParkourMode.EPM_None
          ∨ s.CurrentParkourMode = EParkourMode.EPM_Crouch then
        if s.MovementMode = EMovementMode.MOVE_Falling then
          CheckQueues (CharacterOwner e) e
            (ToWalking
              { s with
                MaxWalkSpeed :=
                  if s.CurrentParkourMode = EParkourMode.EPM_Crouch then s.MaxWalkSpeedCrouched
                  else s.DefaultWalkSpeed
                GroundFriction := s.DefaultGroundFriction
                BrakingDecelerationWalking := s.DefaultBrakingDeceleration
                bConstrainToPlane := false })
        else
          ToWalking
            { s with
              MaxWalkSpeed :=
                if s.CurrentParkourMode = EParkourMode.EPM_Crouch then s.MaxWalkSpeedCrouched
                else s.DefaultWalkSpeed
              GroundFriction := s.DefaultGroundFriction
              BrakingDecelerationWalking := s.DefaultBrakingDeceleration
              bConstrainToPlane := false }
      else s := by
  have key : ∀ t : AParkourSystemCharacter,
      SetMovementMode (CharacterOwner e) t EMovementMode.MOVE_Walking
        = if t.MovementMode = EMovementMode.MOVE_Falling then
            CheckQueues (CharacterOwner e) e (ToWalking t)
          else ToWalking t := by
    intro t
    rw [SetMovementMode_CharacterOwner, CheckQueues_Dispatch e _ (ToWalking_MovementMode t)]
  unfold ResetMovement
  by_cases h1 : s.CurrentParkourMode = EParkourMode.EPM_Crouch
  · simp only [h1, bToWalking_eq_true, or_true, if_true]
    rw [key]
  · by_cases h2 : s.CurrentParkourMode = EParkourMode.EPM_None
    · simp only [h2, bToWalking_eq_true, true_or, if_true, reduceCtorEq, if_false]
      rw [key]
    · simp [h1, h2]

/-- `ResetMovement` entered in mode None does not leave the character in mode
Crouch, whatever the handler flushes. -/
theorem ResetMovement_mode_of_None (e : Engine) (s : AParkourSystemCharacter)
    (hm : s.CurrentParkourMode = EParkourMode.EPM_None) :
    (ResetMovement (CharacterOwner e) s).CurrentParkourMode ≠ EParkourMode.EPM_Crouch := by
  have hcq : ∀ t : AParkourSystemCharacter, t.CurrentParkourMode = EParkourMode.EPM_None →
      t.MovementMode = EMovementMode.MOVE_Walking →
      (CheckQueues (Dispatch e 0) e t).CurrentParkourMode ≠ EParkourMode.EPM_Crouch := by
    intro t ht hw
    have hwalk : IsWalking t = true := by simp [IsWalking, hw]
    unfold CheckQueues
    split_ifs
    · by_cases hp : CanSlide t = true ∧ IsWalking t = true
      · rw [(SlideStart_of_ok _ e t hp.1 hp.2).1]
        decide
      · rw [SlideStart_of_not _ e t hp, ht]
        decide
    · rw [SprintStart_of_None_walking _ e t ht hwalk]
      simp
    · rw [ht]
      decide
  simp only [ResetMovement, hm, true_or, if_true, bToWalking_eq_true, reduceCtorEq, if_false]
  by_cases hw : s.MovementMode = EMovementMode.MOVE_Walking
  · rw [SetMovementMode_of_eq _ _ _ (by exact hw)]
    simp
  · simp only [SetMovementMode, hw, if_false]
    rw [CharacterOwner_of_walking e _ _ rfl]
    split_ifs
    · exact hcq _ rfl rfl
    · simp

/-- `ResetMovement` in None or Crouch leaves the component walking. -/
theorem ResetMovement_MovementMode (e : Engine) (s : AParkourSystemCharacter)
    (h : s.CurrentParkourMode = EParkourMode.EPM_None
      ∨ s.CurrentParkourMode = EParkourMode.EPM_Crouch) :
    (ResetMovement (CharacterOwner e) s).MovementMode = EMovementMode.MOVE_Walking := by
  rw [ResetMovement_CharacterOwner, if_pos h]
  by_cases hf : s.MovementMode = EMovementMode.MOVE_Falling
  · rw [if_pos hf]
    exact (CheckQueues_walking _ (CharacterOwner e) e _ (ToWalking_MovementMode _)).2
  · rw [if_neg hf]
    exact ToWalking_MovementMode _

/-- On a walking component `SlideEnd` keeps both queue flags. -/
theorem SlideEnd_flags_walking (Owner : FCharacterOwner) (s : AParkourSystemCharacter)
    (hw : s.MovementMode = EMovementMode.MOVE_Walking) :
    (SlideEnd Owner s).bIsSprintQueued = s.bIsSprintQueued
    ∧ (SlideEnd Owner s).bIsSlideQueued = s.bIsSlideQueued := by
  by_cases h : s.CurrentParkourMode = EParkourMode.EPM_Slide
  · have hne : EParkourMode.EPM_Crouch ≠ s.CurrentParkourMode := by simp [h]
    simp only [SlideEnd, h, if_true, SetParkourMode_of_ne _ s _ hne, DisableSlide]
    rw [ResetMovement_of_walking _ _ (by exact hw)]
    simp
  · rw [SlideEnd_of_ne _ s h]
    exact ⟨rfl, rfl⟩

/-- `CheckQueues` on a crouching character never results in mode None. -/
theorem CheckQueues_mode_of_Crouch (Owner : FCharacterOwner) (e : Engine)
    (s : AParkourSystemCharacter) (hm : s.CurrentParkourMode = EParkourMode.EPM_Crouch)
    (hw : s.MovementMode = EMovementMode.MOVE_Walking) :
    (CheckQueues Owner e s).CurrentParkourMode ≠ EParkourMode.EPM_None := by
  unfold CheckQueues
  split_ifs
  · by_cases hp : CanSlide s = true ∧ IsWalking s = true
    · rw [(SlideStart_of_ok _ e s hp.1 hp.2).1]
      decide
    · rw [SlideStart_of_not _ e s hp, hm]
      decide
  · cases hs : CanStand e s
    · rw [SprintStart_of_Crouch_blocked _ e s hm hs, hm]
      decide
    · rw [SprintStart_of_Crouch_walking _ e s hm hs hw]
      simp
  · rw [hm]
    decide

/-- `ResetMovement` entered in mode Crouch does not leave the character in
mode None, whatever the handler flushes. -/
theorem ResetMovement_mode_of_Crouch (e : Engine) (s : AParkourSystemCharacter)
    (hm : s.CurrentParkourMode = EParkourMode.EPM_Crouch) :
    (ResetMovement (CharacterOwner e) s).CurrentParkourMode ≠ EParkourMode.EPM_None := by
  rw [ResetMovement_CharacterOwner, if_pos (Or.inr hm)]
  by_cases hf : s.MovementMode = EMovementMode.MOVE_Falling
  · rw [if_pos hf]
    exact CheckQueues_mode_of_Crouch _ e _ (by simpa using hm) (ToWalking_MovementMode _)
  · rw [if_neg hf]
    simp [hm]

/-- `SprintStart` from Slide is `SlideEnd`: what ends a slide is never mode
None, in which alone the sprint could start. -/
theorem SprintStart_eq_SlideEnd (e : Engine) (s : AParkourSystemCharacter)
    (h : s.CurrentParkourMode = EParkourMode.EPM_Slide) :
    SprintStart (CharacterOwner e) e s = SlideEnd (CharacterOwner e) s := by
  have hne : EParkourMode.EPM_Crouch ≠ s.CurrentParkourMode := by simp [h]
  have hmode : (SlideEnd (CharacterOwner e) s).CurrentParkourMode ≠ EParkourMode.EPM_None := by
    simp only [SlideEnd, h, if_true, SetParkourMode_of_ne _ s _ hne, DisableSlide]
    exact ResetMovement_mode_of_Crouch e _ rfl
  have hc : CrouchEnd (CharacterOwner e) e s = s := CrouchEnd_of_ne _ e s (by simp [h])
  unfold SprintStart
  simp only [hc]
  rw [if_neg]
  simp [CanSprint, hmode]

/-- What `CrouchEnd` returns when it takes effect is not in mode Crouch, has
both queue flags cleared and the component walking. -/
theorem CrouchEnd_effect (e : Engine) (s : AParkourSystemCharacter)
    (h : s.CurrentParkourMode = EParkourMode.EPM_Crouch) (hs : CanStand e s = true) :
    (CrouchEnd (CharacterOwner e) e s).CurrentParkourMode ≠ EParkourMode.EPM_Crouch
    ∧ (CrouchEnd (CharacterOwner e) e s).bIsSprintQueued = false
    ∧ (CrouchEnd (CharacterOwner e) e s).bIsSlideQueued = false
    ∧ (CrouchEnd (CharacterOwner e) e s).MovementMode = EMovementMode.MOVE_Walking
    ∧ (CrouchEnd (CharacterOwner e) e s).MaxWalkSpeed
        = (CrouchEnd (CharacterOwner e) e s).DefaultWalkSpeed := by
  have hne : EParkourMode.EPM_None ≠ s.CurrentParkourMode := by simp [h]
  have hE : CrouchEnd (CharacterOwner e) e s
      = { ResetMovement (CharacterOwner e)
            { s with
              PrevParkourMode := s.CurrentParkourMode
              CurrentParkourMode := EParkourMode.EPM_None } with
          MaxWalkSpeed :=
            (ResetMovement (CharacterOwner e)
              { s with
                PrevParkourMode := s.CurrentParkourMode
                CurrentParkourMode := EParkourMode.EPM_None }).DefaultWalkSpeed
          bIsSprintQueued := false
          bIsSlideQueued := false } := by
    simp only [CrouchEnd, h, hs, and_self, if_true, SetParkourMode_of_ne _ s _ hne]
  rw [hE]
  exact ⟨ResetMovement_mode_of_None e _ rfl, rfl, rfl,
    ResetMovement_MovementMode e _ (Or.inl rfl), rfl⟩

/-- `SprintStart` continues from what `CrouchEnd` has left. -/
theorem SprintStart_CrouchEnd (e : Engine) (s : AParkourSystemCharacter) :
    SprintStart (CharacterOwner e) e s
      = SprintStart (CharacterOwner e) e (CrouchEnd (CharacterOwner e) e s) := by
  have hidem : CrouchEnd (CharacterOwner e) e (CrouchEnd (CharacterOwner e) e s)
      = CrouchEnd (CharacterOwner e) e s := by
    by_cases h : s.CurrentParkourMode = EParkourMode.EPM_Crouch ∧ CanStand e s = true
    · exact CrouchEnd_of_ne _ e _ (CrouchEnd_effect e s h.1 h.2).1
    · have hsame : CrouchEnd (CharacterOwner e) e s = s := by simp [CrouchEnd, h]
      rw [hsame, hsame]
  unfold SprintStart
  simp only [hidem]

/-! ## The claims -/

/-- C1, what the code does: `SetParkourMode(M)` returns false exactly when
`M` is the current mode, and then the whole state is unchanged; when `M`
differs it returns true, and the previous mode is the old current mode and
the current mode is `M` when `M` is Sprint or Slide, when no sprint is queued
or when the component is not falling. In the remaining case, reached from
None with `M` Crouch, a sprint queued, no slide queued and room to stand, the
handler that `ResetMovement` has the component call starts the queued sprint
before `SetParkourMode` returns: it returns true with current mode Sprint. -/
theorem SetParkourMode_contract (e : Engine) (s : AParkourSystemCharacter) (M : EParkourMode) :
    ((SetParkourMode (CharacterOwner e) s M).1 = false ↔ M = s.CurrentParkourMode)
    ∧ (M = s.CurrentParkourMode → SetParkourMode (CharacterOwner e) s M = (false, s))
    ∧ (M ≠ s.CurrentParkourMode → (SetParkourMode (CharacterOwner e) s M).1 = true)
    ∧ (M ≠ s.CurrentParkourMode →
        (M = EParkourMode.EPM_Sprint ∨ M = EParkourMode.EPM_Slide
          ∨ s.bIsSprintQueued = false ∨ s.MovementMode ≠ EMovementMode.MOVE_Falling) →
        (SetParkourMode (CharacterOwner e) s M).2.PrevParkourMode = s.CurrentParkourMode
        ∧ (SetParkourMode (CharacterOwner e) s M).2.CurrentParkourMode = M)
    ∧ (s.CurrentParkourMode = EParkourMode.EPM_None → M = EParkourMode.EPM_Crouch →
        s.MovementMode = EMovementMode.MOVE_Falling → s.bIsSprintQueued = true →
        s.bIsSlideQueued = false → CanStand e s = true →
        (SetParkourMode (CharacterOwner e) s M).1 = true
        ∧ (SetParkourMode (CharacterOwner e) s M).2.CurrentParkourMode
            = EParkourMode.EPM_Sprint) := by
  refine ⟨?_, ?_, ?_, ?_, ?_⟩
  · by_cases h : M = s.CurrentParkourMode <;> simp [SetParkourMode, h]
  · intro h
    simp [SetParkourMode, h]
  · intro h
    simp [SetParkourMode, h]
  · intro h hc
    rw [SetParkourMode_of_ne _ s M h]
    rcases hc with hc | hc | hc | hc
    · rw [ResetMovement_of_not _ _ (Or.inl hc)]
      exact ⟨rfl, rfl⟩
    · rw [ResetMovement_of_not _ _ (Or.inr hc)]
      exact ⟨rfl, rfl⟩
    · rw [ResetMovement_eq e _ (by refine not_Flushes_of_not_queued _ ?_; exact hc)]
      split_ifs <;> exact ⟨rfl, rfl⟩
    · rw [ResetMovement_eq e _ (by refine not_Flushes_of_not_falling _ ?_; exact hc)]
      split_ifs <;> exact ⟨rfl, rfl⟩
  · intro hm hM hf hq hs hstand
    rw [hM, (CrouchStart_of_flush e s hm hf hq hs hstand).1]
    exact ⟨rfl, rfl⟩

/-- C1 at the failing input: for the character in the air with the sprint
queued, `SetParkourMode(Crouch)` returns true and leaves the mode Sprint, not
Crouch. -/
theorem SetParkourMode_contract_witness :
    midair.CurrentParkourMode = EParkourMode.EPM_None
    ∧ midair.bIsSprintQueued = true
    ∧ midair.MovementMode = EMovementMode.MOVE_Falling
    ∧ (SetParkourMode (CharacterOwner openWorld) midair EParkourMode.EPM_Crouch).1 = true
    ∧ (SetParkourMode (CharacterOwner openWorld) midair
        EParkourMode.EPM_Crouch).2.CurrentParkourMode = EParkourMode.EPM_Sprint := by
  obtain ⟨hm, hq, hs, hf, _, hstand, _, _, _⟩ := midair_fields
  exact ⟨hm, hq, hf,
    (SetParkourMode_contract openWorld midair EParkourMode.EPM_Crouch).2.2.2.2
      hm rfl hf hq hs hstand⟩

/-- C2, what the code does: after a successful `SetParkourMode(M)` the walk
speed, ground friction and braking deceleration are unchanged when `M` is
Sprint or Slide; when no sprint is queued or the component is not falling,
they are at their defaults when `M` is None and the walk speed is at the
crouched cap when `M` is Crouch. In the remaining case, reached from None
with `M` Crouch, a sprint queued, no slide queued and room to stand, the
handler that `ResetMovement` has the component call starts the queued
sprint, and `SetParkourMode` returns with the walk speed at `SprintSpeed`. -/
theorem SetParkourMode_resets_movement (e : Engine) (s : AParkourSystemCharacter)
    (M : EParkourMode) (h : (SetParkourMode (CharacterOwner e) s M).1 = true) :
    (s.bIsSprintQueued = false ∨ s.MovementMode ≠ EMovementMode.MOVE_Falling →
      (M = EParkourMode.EPM_None →
        (SetParkourMode (CharacterOwner e) s M).2.MaxWalkSpeed = s.DefaultWalkSpeed
        ∧ (SetParkourMode (CharacterOwner e) s M).2.GroundFriction = s.DefaultGroundFriction
        ∧ (SetParkourMode (CharacterOwner e) s M).2.BrakingDecelerationWalking
            = s.DefaultBrakingDeceleration)
      ∧ (M = EParkourMode.EPM_Crouch →
        (SetParkourMode (CharacterOwner e) s M).2.MaxWalkSpeed = s.MaxWalkSpeedCrouched))
    ∧ (M = EParkourMode.EPM_Sprint ∨ M = EParkourMode.EPM_Slide →
        (SetParkourMode (CharacterOwner e) s M).2.MaxWalkSpeed = s.MaxWalkSpeed
        ∧ (SetParkourMode (CharacterOwner e) s M).2.GroundFriction = s.GroundFriction
        ∧ (SetParkourMode (CharacterOwner e) s M).2.BrakingDecelerationWalking
            = s.BrakingDecelerationWalking)
    ∧ (s.CurrentParkourMode = EParkourMode.EPM_None → M = EParkourMode.EPM_Crouch →
        s.MovementMode = EMovementMode.MOVE_Falling → s.bIsSprintQueued = true →
        s.bIsSlideQueued = false → CanStand e s = true →
        (SetParkourMode (CharacterOwner e) s M).2.MaxWalkSpeed = s.SprintSpeed) := by
  have hne : M ≠ s.CurrentParkourMode := by
    intro heq
    simp [SetParkourMode, heq] at h
  refine ⟨?_, ?_, ?_⟩
  · intro hcalm
    have hflush : ¬ Flushes s := by
      rcases hcalm with hc | hc
      · exact not_Flushes_of_not_queued _ hc
      · exact not_Flushes_of_not_falling _ hc
    rw [SetParkourMode_of_ne _ s M hne]
    constructor
    · intro hM
      subst hM
      rw [ResetMovement_eq e _ (by exact hflush)]
      simp
    · intro hM
      subst hM
      rw [ResetMovement_eq e _ (by exact hflush)]
      simp
  · intro hM
    rw [SetParkourMode_of_ne _ s M hne, ResetMovement_of_not _ _ (by exact hM)]
    exact ⟨rfl, rfl, rfl⟩
  · intro hm hM hf hq hs hstand
    rw [hM, (CrouchStart_of_flush e s hm hf hq hs hstand).1]

/-- C2 at the failing input, after one input on which the reset holds: the
sprinting character set to None gets the default walk speed, 600, back; for
the character in the air with the sprint queued, `SetParkourMode(Crouch)`
succeeds and returns with the walk speed at the sprint speed, 1000, not at
the crouched cap, 300. -/
theorem SetParkourMode_resets_movement_witness :
    (SetParkourMode (CharacterOwner openWorld) sprinting EParkourMode.EPM_None).1 = true
    ∧ (SetParkourMode (CharacterOwner openWorld) sprinting
        EParkourMode.EPM_None).2.MaxWalkSpeed = 600
    ∧ (SetParkourMode (CharacterOwner openWorld) midair EParkourMode.EPM_Crouch).1 = true
    ∧ (SetParkourMode (CharacterOwner openWorld) midair
        EParkourMode.EPM_Crouch).2.MaxWalkSpeed = 1000
    ∧ midair.MaxWalkSpeedCrouched = 300 := by
  obtain ⟨hm, hq, hs, hf, _, hstand, hspeed, hcap, _⟩ := midair_fields
  have hflush := (CrouchStart_of_flush openWorld midair hm hf hq hs hstand).1
  have h1 : (SetParkourMode (CharacterOwner openWorld) midair EParkourMode.EPM_Crouch).1
      = true := by rw [hflush]
  exact ⟨rfl,
    (((SetParkourMode_resets_movement openWorld sprinting EParkourMode.EPM_None rfl).1
      (Or.inl rfl)).1 rfl).1.trans rfl, h1,
    ((SetParkourMode_resets_movement openWorld midair EParkourMode.EPM_Crouch h1).2.2
      hm rfl hf hq hs hstand).trans hspeed, hcap⟩

/-- C5: in mode None with both queue flags set, the falling-to-walking
notification starts the slide and not the sprint: with forward input the
mode becomes Slide and both flags are cleared, without it the mode stays
None; the resulting mode is never Sprint. -/
theorem landing_flushes_slide_first (e : Engine) (s : AParkourSystemCharacter)
    (hmode : s.CurrentParkourMode = EParkourMode.EPM_None)
    (hsprint : s.bIsSprintQueued = true) (hslide : s.bIsSlideQueued = true)
    (hnow : s.MovementMode = EMovementMode.MOVE_Walking) :
    (ForwardInput s = true →
        (OnMovementModeChanged (CharacterOwner e) e s
            EMovementMode.MOVE_Falling).CurrentParkourMode = EParkourMode.EPM_Slide
        ∧ (OnMovementModeChanged (CharacterOwner e) e s
            EMovementMode.MOVE_Falling).bIsSprintQueued = false
        ∧ (OnMovementModeChanged (CharacterOwner e) e s
            EMovementMode.MOVE_Falling).bIsSlideQueued = false)
    ∧ (ForwardInput s = false →
        (OnMovementModeChanged (CharacterOwner e) e s
            EMovementMode.MOVE_Falling).CurrentParkourMode = EParkourMode.EPM_None)
    ∧ (OnMovementModeChanged (CharacterOwner e) e s
        EMovementMode.MOVE_Falling).CurrentParkourMode ≠ EParkourMode.EPM_Sprint := by
  have key : ∀ t : AParkourSystemCharacter, t.CurrentParkourMode = EParkourMode.EPM_None →
      t.bIsSprintQueued = true → t.MovementMode = EMovementMode.MOVE_Walking →
      (ForwardInput t = true →
        (SlideStart (CharacterOwner e) e t).CurrentParkourMode = EParkourMode.EPM_Slide
        ∧ (SlideStart (CharacterOwner e) e t).bIsSprintQueued = false
        ∧ (SlideStart (CharacterOwner e) e t).bIsSlideQueued = false)
      ∧ (ForwardInput t = false → SlideStart (CharacterOwner e) e t = t) := by
    intro t hm hq hw
    constructor
    · intro hf
      have hc : CanSlide t = true := by simp [CanSlide, hf, hq]
      have hwk : IsWalking t = true := by simp [IsWalking, hw]
      have h := SlideStart_of_ok (CharacterOwner e) e t hc hwk
      exact ⟨h.1, h.2.2.1, h.2.2.2⟩
    · intro hf
      exact SlideStart_of_not _ e t (by simp [CanSlide, hf])
  have hrun : OnMovementModeChanged (CharacterOwner e) e s EMovementMode.MOVE_Falling
      = SlideStart (CharacterOwner e) e
          { s with
            PreviousMovementMode := EMovementMode.MOVE_Falling
            CurrentMovementMode := EMovementMode.MOVE_Walking
            bCanDoubleJump := true } := by
    simp [OnMovementModeChanged, hnow, CheckQueues, hslide]
  have hk := key
    { s with
      PreviousMovementMode := EMovementMode.MOVE_Falling
      CurrentMovementMode := EMovementMode.MOVE_Walking
      bCanDoubleJump := true } hmode hsprint hnow
  rw [hrun]
  refine ⟨hk.1, ?_, ?_⟩
  · intro hf
    rw [hk.2 hf]
    exact hmode
  · cases hf : ForwardInput s
    · rw [hk.2 hf]
      simp [hmode]
    · rw [(hk.1 hf).1]
      simp

/-- C5 at a concrete input: the character with both actions queued lands
with forward input and slides. -/
theorem landing_flushes_slide_first_witness :
    bothQueued.bIsSprintQueued = true ∧ bothQueued.bIsSlideQueued = true
    ∧ (OnMovementModeChanged (CharacterOwner openWorld) openWorld bothQueued
        EMovementMode.MOVE_Falling).CurrentParkourMode = EParkourMode.EPM_Slide :=
  ⟨rfl, rfl,
    ((landing_flushes_slide_first openWorld bothQueued rfl rfl rfl rfl).1 ForwardInput_standing).1⟩

/-- The standing character crouches: mode Crouch on walking ground with room
to stand in the open world and none under the low ceiling. -/
theorem crouching_fields :
    crouching.CurrentParkourMode = EParkourMode.EPM_Crouch
    ∧ crouching.MovementMode = EMovementMode.MOVE_Walking
    ∧ crouching.bIsSprintQueued = false
    ∧ CanStand openWorld crouching = true
    ∧ CanStand lowCeiling crouching = false := by
  have h : crouching = _ :=
    CrouchStart_of_None openWorld standing rfl (not_Flushes_of_not_queued _ rfl)
  rw [h]
  exact ⟨rfl, rfl, rfl, rfl, rfl⟩

/-- C7, as the claim states it, fails: `SprintStart` from Slide ends the slide
(mode Crouch, slide capability flag off), and from Crouch with room to stand
it stands up and sprints. -/
theorem SprintStart_not_noop_counterexample :
    sliding.CurrentParkourMode = EParkourMode.EPM_Slide
    ∧ sliding.bCanSlide = true
    ∧ (SprintStart (CharacterOwner openWorld) openWorld sliding).CurrentParkourMode
        = EParkourMode.EPM_Crouch
    ∧ (SprintStart (CharacterOwner openWorld) openWorld sliding).bCanSlide = false
    ∧ crouching.CurrentParkourMode = EParkourMode.EPM_Crouch
    ∧ (SprintStart (CharacterOwner openWorld) openWorld crouching).CurrentParkourMode
        = EParkourMode.EPM_Sprint := by
  have hcalm : ¬ Flushes sliding := not_Flushes_of_not_queued _ sliding_queue.1
  have hs : SprintStart (CharacterOwner openWorld) openWorld sliding = _ :=
    (SprintStart_eq_SlideEnd openWorld sliding sliding_mode.1).trans
      (SlideEnd_of_Slide openWorld sliding sliding_mode.1 hcalm)
  have hc : SprintStart (CharacterOwner openWorld) openWorld crouching = _ :=
    SprintStart_of_Crouch_walking _ openWorld crouching crouching_fields.1
      crouching_fields.2.2.2.1 crouching_fields.2.1
  refine ⟨sliding_mode.1, sliding_mode.2, ?_, ?_, crouching_fields.1, ?_⟩
  · rw [hs]
    rfl
  · rw [hs]
  · rw [hc]

/-- C7, amended: `SprintStart` is a no-op from Sprint, and from Crouch while
`CanStand()` is false; from Slide it does exactly what `SlideEnd` does (the
mode becomes Crouch, not Sprint); from Crouch with `CanStand()` true it
stands up and then enters Sprint from None. The modes named for Slide and for
Crouch with room to stand are those reached with no sprint queued, as in
every reachable state in mode Slide or Crouch. -/
theorem SprintStart_from_non_None (e : Engine) (s : AParkourSystemCharacter) :
    (s.CurrentParkourMode = EParkourMode.EPM_Sprint → SprintStart (CharacterOwner e) e s = s)
    ∧ (s.CurrentParkourMode = EParkourMode.EPM_Crouch → CanStand e s = false →
        SprintStart (CharacterOwner e) e s = s)
    ∧ (s.CurrentParkourMode = EParkourMode.EPM_Slide →
        SprintStart (CharacterOwner e) e s = SlideEnd (CharacterOwner e) s
        ∧ (s.bIsSprintQueued = false →
            (SprintStart (CharacterOwner e) e s).CurrentParkourMode = EParkourMode.EPM_Crouch))
    ∧ (s.CurrentParkourMode = EParkourMode.EPM_Crouch → CanStand e s = true →
        SprintStart (CharacterOwner e) e s
          = SprintStart (CharacterOwner e) e (CrouchEnd (CharacterOwner e) e s)
        ∧ (s.bIsSprintQueued = false →
            (CrouchEnd (CharacterOwner e) e s).CurrentParkourMode = EParkourMode.EPM_None
            ∧ (SprintStart (CharacterOwner e) e s).CurrentParkourMode = EParkourMode.EPM_Sprint
            ∧ (SprintStart (CharacterOwner e) e s).PrevParkourMode = EParkourMode.EPM_None)) := by
  refine ⟨SprintStart_of_Sprint _ e s, SprintStart_of_Crouch_blocked _ e s, ?_, ?_⟩
  · intro h
    refine ⟨SprintStart_eq_SlideEnd e s h, ?_⟩
    intro hq
    rw [SprintStart_eq_SlideEnd e s h, SlideEnd_of_Slide e s h (not_Flushes_of_not_queued _ hq)]
    rfl
  · intro h hs
    refine ⟨SprintStart_CrouchEnd e s, ?_⟩
    intro hq
    have hcalm : ¬ Flushes s := not_Flushes_of_not_queued _ hq
    refine ⟨?_, ?_, ?_⟩
    · rw [CrouchEnd_of_Crouch e s h hs hcalm]
      rfl
    · rw [SprintStart_of_Crouch e s h hs hcalm]
    · rw [SprintStart_of_Crouch e s h hs hcalm]

/-- C7, amended, at a concrete input: `SprintStart` leaves the sprinting
character as it is, and under a low ceiling the crouching one too. -/
theorem SprintStart_from_non_None_witness :
    SprintStart (CharacterOwner openWorld) openWorld sprinting = sprinting
    ∧ SprintStart (CharacterOwner lowCeiling) lowCeiling crouching = crouching :=
  ⟨(SprintStart_from_non_None openWorld sprinting).1 rfl,
    (SprintStart_from_non_None lowCeiling crouching).2.1 crouching_fields.1
      crouching_fields.2.2.2.2⟩

/-- On a walking component, `SprintStart` that enters Sprint returns with
both queue flags cleared. -/
theorem SprintStart_flags_walking (Owner : FCharacterOwner) (e : Engine)
    (s : AParkourSystemCharacter) (hw : s.MovementMode = EMovementMode.MOVE_Walking)
    (hne : s.CurrentParkourMode ≠ EParkourMode.EPM_Sprint)
    (hres : (SprintStart Owner e s).CurrentParkourMode = EParkourMode.EPM_Sprint) :
    (SprintStart Owner e s).bIsSprintQueued = false
    ∧ (SprintStart Owner e s).bIsSlideQueued = false := by
  have hwalk : IsWalking s = true := by simp [IsWalking, hw]
  cases hm : s.CurrentParkourMode
  · rw [SprintStart_of_None_walking _ e s hm hwalk]
    exact ⟨rfl, rfl⟩
  · exact absurd hm hne
  · cases hs : CanStand e s
    · rw [SprintStart_of_Crouch_blocked _ e s hm hs, hm] at hres
      exact absurd hres (by decide)
    · rw [SprintStart_of_Crouch_walking _ e s hm hs hw]
      exact ⟨rfl, rfl⟩
  · have hcalm : ¬ Flushes s := not_Flushes_of_IsWalking s hwalk
    rw [(SprintStart_walking Owner (CharacterOwner e) e s hw).1, SprintStart_eq_SlideEnd e s hm,
      SlideEnd_of_Slide e s hm hcalm] at hres
    exact absurd hres (by simp)

/-- `SprintStart` that finds the queue flags cleared and the component
walking once `CrouchEnd` has run returns with the queue flags cleared. -/
theorem SprintStart_flags_of_cleared (Owner : FCharacterOwner) (e : Engine)
    (s : AParkourSystemCharacter)
    (hw : (CrouchEnd Owner e s).MovementMode = EMovementMode.MOVE_Walking)
    (h1 : (CrouchEnd Owner e s).bIsSprintQueued = false)
    (h2 : (CrouchEnd Owner e s).bIsSlideQueued = false) :
    (SprintStart Owner e s).bIsSprintQueued = false
    ∧ (SprintStart Owner e s).bIsSlideQueued = false := by
  have hf := SlideEnd_flags_walking Owner (CrouchEnd Owner e s) hw
  unfold SprintStart
  simp only []
  split_ifs
  · exact ⟨rfl, rfl⟩
  · simp only [SetParkourMode] at *
    split_ifs at * <;> simp_all
  · exact ⟨hf.1.trans h1, hf.2.trans h2⟩

/-- `CheckQueues` on a crouching character with the component walking: when
it results in Sprint, both queue flags are cleared. -/
theorem CheckQueues_flags_of_Crouch (Owner : FCharacterOwner) (e : Engine)
    (t : AParkourSystemCharacter) (htm : t.CurrentParkourMode = EParkourMode.EPM_Crouch)
    (htw : t.MovementMode = EMovementMode.MOVE_Walking)
    (hres : (CheckQueues Owner e t).CurrentParkourMode = EParkourMode.EPM_Sprint) :
    (CheckQueues Owner e t).bIsSprintQueued = false
    ∧ (CheckQueues Owner e t).bIsSlideQueued = false := by
  unfold CheckQueues at hres ⊢
  split_ifs at hres ⊢
  · exfalso
    by_cases hp : CanSlide t = true ∧ IsWalking t = true
    · rw [(SlideStart_of_ok _ e t hp.1 hp.2).1] at hres
      exact absurd hres (by decide)
    · rw [SlideStart_of_not _ e t hp, htm] at hres
      exact absurd hres (by decide)
  · exact SprintStart_flags_walking _ e t htw (by rw [htm]; decide) hres
  · rw [htm] at hres
    exact absurd hres (by decide)

/-- `ResetMovement` entered in mode Crouch: when it results in Sprint, both
queue flags are cleared. -/
theorem ResetMovement_flags_of_Crouch (e : Engine) (s : AParkourSystemCharacter)
    (hm : s.CurrentParkourMode = EParkourMode.EPM_Crouch)
    (hres : (ResetMovement (CharacterOwner e) s).CurrentParkourMode = EParkourMode.EPM_Sprint) :
    (ResetMovement (CharacterOwner e) s).bIsSprintQueued = false
    ∧ (ResetMovement (CharacterOwner e) s).bIsSlideQueued = false := by
  rw [ResetMovement_CharacterOwner, if_pos (Or.inr hm)] at hres ⊢
  by_cases hf : s.MovementMode = EMovementMode.MOVE_Falling
  · rw [if_pos hf] at hres ⊢
    exact CheckQueues_flags_of_Crouch _ e _ (by simpa using hm) (ToWalking_MovementMode _) hres
  · rw [if_neg hf] at hres
    simp [hm] at hres

/-- `SprintStart` that enters Sprint returns with both queue flags cleared,
also when a notification is delivered on the way. -/
theorem SprintStart_flags (e : Engine) (s : AParkourSystemCharacter)
    (hne : s.CurrentParkourMode ≠ EParkourMode.EPM_Sprint)
    (hres : (SprintStart (CharacterOwner e) e s).CurrentParkourMode = EParkourMode.EPM_Sprint) :
    (SprintStart (CharacterOwner e) e s).bIsSprintQueued = false
    ∧ (SprintStart (CharacterOwner e) e s).bIsSlideQueued = false := by
  cases hm : s.CurrentParkourMode
  · cases hw : IsWalking s
    · rw [SprintStart_of_None_not_walking _ e s hm hw, hm] at hres
      exact absurd hres (by decide)
    · rw [SprintStart_of_None_walking _ e s hm hw]
      exact ⟨rfl, rfl⟩
  · exact absurd hm hne
  · cases hs : CanStand e s
    · rw [SprintStart_of_Crouch_blocked _ e s hm hs, hm] at hres
      exact absurd hres (by decide)
    · have hE := CrouchEnd_effect e s hm hs
      exact SprintStart_flags_of_cleared _ e s hE.2.2.2.1 hE.2.1 hE.2.2.1
  · rw [SprintStart_eq_SlideEnd e s hm] at hres ⊢
    have hne2 : EParkourMode.EPM_Crouch ≠ s.CurrentParkourMode := by simp [hm]
    have hS : SlideEnd (CharacterOwner e) s
        = DisableSlide (ResetMovement (CharacterOwner e)
            { s with
              PrevParkourMode := s.CurrentParkourMode
              CurrentParkourMode := EParkourMode.EPM_Crouch }) := by
      simp only [SlideEnd, hm, if_true, SetParkourMode_of_ne _ s _ hne2]
    rw [hS] at hres ⊢
    exact ResetMovement_flags_of_Crouch e _ rfl hres

/-- `SprintEnd` from a sprint with no sprint queued enters None and keeps both
queue flags. -/
theorem SprintEnd_fields (e : Engine) (s : AParkourSystemCharacter)
    (h : s.CurrentParkourMode = EParkourMode.EPM_Sprint) (hq : s.bIsSprintQueued = false) :
    (SprintEnd (CharacterOwner e) s).CurrentParkourMode = EParkourMode.EPM_None
    ∧ (SprintEnd (CharacterOwner e) s).bIsSprintQueued = s.bIsSprintQueued
    ∧ (SprintEnd (CharacterOwner e) s).bIsSlideQueued = s.bIsSlideQueued := by
  rw [SprintEnd_of_Sprint e s h (not_Flushes_of_not_queued _ hq), SetTimer_of_pos _ _ (by norm_num)]
  exact ⟨rfl, rfl, rfl⟩

/-- `SprintJump` from a sprint with no sprint queued enters None and queues
the sprint. -/
theorem SprintJump_fields (e : Engine) (s : AParkourSystemCharacter)
    (h : s.CurrentParkourMode = EParkourMode.EPM_Sprint) (hq : s.bIsSprintQueued = false) :
    (SprintJump (CharacterOwner e) s).CurrentParkourMode = EParkourMode.EPM_None
    ∧ (SprintJump (CharacterOwner e) s).bIsSprintQueued = true
    ∧ (SprintJump (CharacterOwner e) s).bIsSlideQueued = s.bIsSlideQueued := by
  have hj : SprintJump (CharacterOwner e) s
      = { SprintEnd (CharacterOwner e) s with bIsSprintQueued := true } := by
    simp only [SprintJump, h, if_true]
  rw [hj]
  exact ⟨(SprintEnd_fields e s h hq).1, rfl, (SprintEnd_fields e s h hq).2.2⟩

/-- The standing character sprints: mode Sprint on walking ground with no
sprint queued. -/
theorem sprinting_fields :
    sprinting.CurrentParkourMode = EParkourMode.EPM_Sprint
    ∧ sprinting.MovementMode = EMovementMode.MOVE_Walking
    ∧ sprinting.bIsSprintQueued = false
    ∧ sprinting.bIsSlideQueued = false
    ∧ sprinting.MaxWalkSpeed = 1000
    ∧ sprinting.DefaultWalkSpeed = 600 := by
  have h : sprinting = _ := SprintStart_of_None_walking _ openWorld standing rfl rfl
  rw [h]
  exact ⟨rfl, rfl, rfl, rfl, rfl, rfl⟩

/-- C8, as the claim states it, fails: `SprintJump` from Sprint commits the
change to None and returns with `sprintQueued` true, and `SprintEnd` commits
the change to None and returns with a `slideQueued` that was set still set. -/
theorem queue_flags_not_cleared_counterexample :
    sprinting.CurrentParkourMode = EParkourMode.EPM_Sprint
    ∧ (SprintJump (CharacterOwner openWorld) sprinting).CurrentParkourMode
        = EParkourMode.EPM_None
    ∧ (SprintJump (CharacterOwner openWorld) sprinting).bIsSprintQueued = true
    ∧ (SprintEnd (CharacterOwner openWorld)
        { sprinting with bIsSlideQueued := true }).CurrentParkourMode = EParkourMode.EPM_None
    ∧ (SprintEnd (CharacterOwner openWorld)
        { sprinting with bIsSlideQueued := true }).bIsSlideQueued = true :=
  ⟨sprinting_fields.1,
    (SprintJump_fields openWorld sprinting sprinting_fields.1 sprinting_fields.2.2.1).1,
    (SprintJump_fields openWorld sprinting sprinting_fields.1 sprinting_fields.2.2.1).2.1,
    (SprintEnd_fields openWorld { sprinting with bIsSlideQueued := true } sprinting_fields.1
      sprinting_fields.2.2.1).1,
    (SprintEnd_fields openWorld { sprinting with bIsSlideQueued := true } sprinting_fields.1
      sprinting_fields.2.2.1).2.2⟩

/-- C8, amended: `SprintStart` when it enters Sprint (it starts in another
mode and ends in Sprint), `CrouchStart` from None, `CrouchEnd` from Crouch
with room to stand and `SlideStart` under its precondition return with both
queue flags false. In a state in which a sprint is queued only in mode None,
as in every reachable state, `SprintEnd` and `SlideEnd` leave both queue
flags as they were, and `SprintJump` from Sprint enters None and returns with
`sprintQueued` true and `slideQueued` as it was. -/
theorem queue_flags_after_mode_entry (e : Engine) (s : AParkourSystemCharacter) :
    (s.CurrentParkourMode ≠ EParkourMode.EPM_Sprint →
      (SprintStart (CharacterOwner e) e s).CurrentParkourMode = EParkourMode.EPM_Sprint →
        (SprintStart (CharacterOwner e) e s).bIsSprintQueued = false
        ∧ (SprintStart (CharacterOwner e) e s).bIsSlideQueued = false)
    ∧ (s.CurrentParkourMode = EParkourMode.EPM_None →
        (CrouchStart (CharacterOwner e) s).bIsSprintQueued = false
        ∧ (CrouchStart (CharacterOwner e) s).bIsSlideQueued = false)
    ∧ (s.CurrentParkourMode = EParkourMode.EPM_Crouch → CanStand e s = true →
        (CrouchEnd (CharacterOwner e) e s).bIsSprintQueued = false
        ∧ (CrouchEnd (CharacterOwner e) e s).bIsSlideQueued = false)
    ∧ (CanSlide s = true → IsWalking s = true →
        (SlideStart (CharacterOwner e) e s).CurrentParkourMode = EParkourMode.EPM_Slide
        ∧ (SlideStart (CharacterOwner e) e s).bIsSprintQueued = false
        ∧ (SlideStart (CharacterOwner e) e s).bIsSlideQueued = false)
    ∧ ((s.bIsSprintQueued = true → s.CurrentParkourMode = EParkourMode.EPM_None) →
        ((SprintEnd (CharacterOwner e) s).bIsSprintQueued = s.bIsSprintQueued
          ∧ (SprintEnd (CharacterOwner e) s).bIsSlideQueued = s.bIsSlideQueued)
        ∧ ((SlideEnd (CharacterOwner e) s).bIsSprintQueued = s.bIsSprintQueued
          ∧ (SlideEnd (CharacterOwner e) s).bIsSlideQueued = s.bIsSlideQueued)
        ∧ (s.CurrentParkourMode = EParkourMode.EPM_Sprint →
            (SprintJump (CharacterOwner e) s).CurrentParkourMode = EParkourMode.EPM_None
            ∧ (SprintJump (CharacterOwner e) s).bIsSprintQueued = true
            ∧ (SprintJump (CharacterOwner e) s).bIsSlideQueued = s.bIsSlideQueued)) := by
  refine ⟨SprintStart_flags e s, ?_, ?_, ?_, ?_⟩
  · intro h
    simp [CrouchStart, h]
  · intro h hs
    exact ⟨(CrouchEnd_effect e s h hs).2.1, (CrouchEnd_effect e s h hs).2.2.1⟩
  · intro hc hw
    have h := SlideStart_of_ok (CharacterOwner e) e s hc hw
    exact ⟨h.1, h.2.2.1, h.2.2.2⟩
  · intro hq
    have hoff : s.CurrentParkourMode ≠ EParkourMode.EPM_None → s.bIsSprintQueued = false := by
      intro hn
      cases hb : s.bIsSprintQueued
      · rfl
      · exact absurd (hq hb) hn
    refine ⟨?_, ?_, ?_⟩
    · by_cases h : s.CurrentParkourMode = EParkourMode.EPM_Sprint
      · exact (SprintEnd_fields e s h (hoff (by rw [h]; decide))).2
      · rw [SprintEnd_of_ne _ s h]
        exact ⟨rfl, rfl⟩
    · by_cases h : s.CurrentParkourMode = EParkourMode.EPM_Slide
      · rw [SlideEnd_of_Slide e s h (not_Flushes_of_not_queued _ (hoff (by rw [h]; decide)))]
        exact ⟨rfl, rfl⟩
      · rw [SlideEnd_of_ne _ s h]
        exact ⟨rfl, rfl⟩
    · intro h
      exact SprintJump_fields e s h (hoff (by rw [h]; decide))

/-- C8, amended, at a concrete input: `CrouchStart` clears the two queue
flags of the character that had both set, and `SprintJump` takes the
sprinting character to None with the sprint queued. -/
theorem queue_flags_after_mode_entry_witness :
    bothQueued.bIsSprintQueued = true ∧ bothQueued.bIsSlideQueued = true
    ∧ (CrouchStart (CharacterOwner openWorld) bothQueued).bIsSprintQueued = false
    ∧ (CrouchStart (CharacterOwner openWorld) bothQueued).bIsSlideQueued = false
    ∧ (SprintJump (CharacterOwner openWorld) sprinting).CurrentParkourMode
        = EParkourMode.EPM_None
    ∧ (SprintJump (CharacterOwner openWorld) sprinting).bIsSprintQueued = true :=
  ⟨rfl, rfl, ((queue_flags_after_mode_entry openWorld bothQueued).2.1 rfl).1,
    ((queue_flags_after_mode_entry openWorld bothQueued).2.1 rfl).2,
    ((queue_flags_after_mode_entry openWorld sprinting).2.2.2.2
      (fun hq => absurd hq (by rw [sprinting_fields.2.2.1]; decide))).2.2 sprinting_fields.1 |>.1,
    ((queue_flags_after_mode_entry openWorld sprinting).2.2.2.2
      (fun hq => absurd hq (by rw [sprinting_fields.2.2.1]; decide))).2.2 sprinting_fields.1 |>.2.1⟩

/-- C10: from mode None on walking ground, `SprintStart` results in mode
Sprint with the walk speed equal to `SprintSpeed`, the sprint capability flag
set and both queue flags cleared. -/
theorem SprintStart_from_None (e : Engine) (s : AParkourSystemCharacter)
    (hmode : s.CurrentParkourMode = EParkourMode.EPM_None) (hwalk : IsWalking s = true) :
    (SprintStart (CharacterOwner e) e s).CurrentParkourMode = EParkourMode.EPM_Sprint
    ∧ (SprintStart (CharacterOwner e) e s).MaxWalkSpeed = s.SprintSpeed
    ∧ (SprintStart (CharacterOwner e) e s).SprintSpeed = s.SprintSpeed
    ∧ (SprintStart (CharacterOwner e) e s).bCanSprint = true
    ∧ (SprintStart (CharacterOwner e) e s).bIsSprintQueued = false
    ∧ (SprintStart (CharacterOwner e) e s).bIsSlideQueued = false := by
  rw [SprintStart_of_None_walking _ e s hmode hwalk]
  exact ⟨rfl, rfl, rfl, rfl, rfl, rfl⟩

/-- C10 at a concrete input: the standing character starts to sprint at
speed 1000. -/
theorem SprintStart_from_None_witness :
    standing.CurrentParkourMode = EParkourMode.EPM_None
    ∧ IsWalking standing = true
    ∧ (SprintStart (CharacterOwner openWorld) openWorld standing).CurrentParkourMode
        = EParkourMode.EPM_Sprint
    ∧ (SprintStart (CharacterOwner openWorld) openWorld standing).MaxWalkSpeed = 1000 :=
  ⟨rfl, rfl, (SprintStart_from_None openWorld standing rfl rfl).1,
    (SprintStart_from_None openWorld standing rfl rfl).2.1.trans rfl⟩

/-! ## Slide is left only for Crouch -/

/-- `SlideEnd` from a slide with no sprint queued ends in Crouch. -/
theorem SlideEnd_mode_of_Slide (e : Engine) (s : AParkourSystemCharacter)
    (h : s.CurrentParkourMode = EParkourMode.EPM_Slide) (hq : s.bIsSprintQueued = false) :
    (SlideEnd (CharacterOwner e) s).CurrentParkourMode = EParkourMode.EPM_Crouch := by
  rw [SlideEnd_of_Slide e s h (not_Flushes_of_not_queued _ hq)]
  rfl

/-- `SlideUpdate` from a slide ends in Slide or Crouch. -/
theorem SlideUpdate_mode_of_Slide (e : Engine) (s : AParkourSystemCharacter)
    (h : s.CurrentParkourMode = EParkourMode.EPM_Slide) (hq : s.bIsSprintQueued = false) :
    (SlideUpdate (CharacterOwner e) e s).CurrentParkourMode = EParkourMode.EPM_Slide
    ∨ (SlideUpdate (CharacterOwner e) e s).CurrentParkourMode = EParkourMode.EPM_Crouch := by
  have hv : (SlideUpdate (CharacterOwner e) e s).CurrentParkourMode
      = (if e.Length s.Velocity < 35 then SlideEnd (CharacterOwner e) s
          else s).CurrentParkourMode := by
    simp only [SlideUpdate, h, if_true, AddForce]
    split_ifs <;> rfl
  rw [hv]
  split_ifs
  · exact Or.inr (SlideEnd_mode_of_Slide e s h hq)
  · exact Or.inl h

/-- `CrouchUpdate` keeps the parkour mode. -/
theorem CrouchUpdate_mode (s : AParkourSystemCharacter) :
    (CrouchUpdate s).CurrentParkourMode = s.CurrentParkourMode := by
  unfold CrouchUpdate
  split_ifs <;> rfl

/-- `ResetMovement` keeps the launches recorded when the handler does. -/
theorem ResetMovement_Launches (Owner : FCharacterOwner)
    (hO : ∀ t m, (Owner t m).Launches = t.Launches)
    (s : AParkourSystemCharacter) :
    (ResetMovement Owner s).Launches = s.Launches := by
  unfold ResetMovement SetMovementMode
  simp only [bToWalking_eq_true, if_true]
  split_ifs
  · rfl
  · exact (hO _ _).trans rfl
  · rfl
  · exact (hO _ _).trans rfl
  · rfl

/-- `SetParkourMode` keeps the launches recorded when the handler does. -/
theorem SetParkourMode_Launches (Owner : FCharacterOwner)
    (hO : ∀ t m, (Owner t m).Launches = t.Launches)
    (s : AParkourSystemCharacter) (M : EParkourMode) :
    ((SetParkourMode Owner s M).2).Launches = s.Launches := by
  unfold SetParkourMode
  split_ifs
  · rfl
  · exact ResetMovement_Launches Owner hO _

/-- `SetTimer` keeps the launches recorded. -/
theorem SetTimer_Launches (s : AParkourSystemCharacter) (InRate : ℚ) :
    (SetTimer s InRate).Launches = s.Launches := by
  unfold SetTimer
  simp only []
  split_ifs <;> rfl

/-- `SprintEnd` keeps the launches recorded when the handler does. -/
theorem SprintEnd_Launches (Owner : FCharacterOwner)
    (hO : ∀ t m, (Owner t m).Launches = t.Launches)
    (s : AParkourSystemCharacter) :
    (SprintEnd Owner s).Launches = s.Launches := by
  unfold SprintEnd
  simp only []
  split_ifs
  · rw [SetTimer_Launches]
    exact SetParkourMode_Launches Owner hO s _
  · exact SetParkourMode_Launches Owner hO s _
  · rfl

/-- `SlideEnd` keeps the launches recorded when the handler does. -/
theorem SlideEnd_Launches (Owner : FCharacterOwner)
    (hO : ∀ t m, (Owner t m).Launches = t.Launches)
    (s : AParkourSystemCharacter) :
    (SlideEnd Owner s).Launches = s.Launches := by
  unfold SlideEnd
  simp only []
  split_ifs
  · exact SetParkourMode_Launches Owner hO s _
  · exact SetParkourMode_Launches Owner hO s _
  · rfl

/-- `CrouchEnd` keeps the launches recorded when the handler does. -/
theorem CrouchEnd_Launches (Owner : FCharacterOwner)
    (hO : ∀ t m, (Owner t m).Launches = t.Launches)
    (e : Engine) (s : AParkourSystemCharacter) :
    (CrouchEnd Owner e s).Launches = s.Launches := by
  unfold CrouchEnd
  simp only []
  split_ifs
  · exact SetParkourMode_Launches Owner hO s _
  · rfl

/-- `CrouchStart` keeps the launches recorded when the handler does. -/
theorem CrouchStart_Launches (Owner : FCharacterOwner)
    (hO : ∀ t m, (Owner t m).Launches = t.Launches)
    (s : AParkourSystemCharacter) :
    (CrouchStart Owner s).Launches = s.Launches := by
  unfold CrouchStart
  simp only []
  split_ifs
  · exact SetParkourMode_Launches Owner hO s _
  · rfl

/-- `SprintStart` keeps the launches recorded when the handler does. -/
theorem SprintStart_Launches (Owner : FCharacterOwner)
    (hO : ∀ t m, (Owner t m).Launches = t.Launches)
    (e : Engine) (s : AParkourSystemCharacter) :
    (SprintStart Owner e s).Launches = s.Launches := by
  have h : (SlideEnd Owner (CrouchEnd Owner e s)).Launches = s.Launches := by
    rw [SlideEnd_Launches Owner hO, CrouchEnd_Launches Owner hO]
  unfold SprintStart
  simp only []
  split_ifs
  · exact (SetParkourMode_Launches Owner hO _ _).trans h
  · exact (SetParkourMode_Launches Owner hO _ _).trans h
  · exact h

/-- `SlideStart` keeps the launches recorded when the handler does. -/
theorem SlideStart_Launches (Owner : FCharacterOwner)
    (hO : ∀ t m, (Owner t m).Launches = t.Launches)
    (e : Engine) (s : AParkourSystemCharacter) :
    (SlideStart Owner e s).Launches = s.Launches := by
  have h : (SlideStart Owner e s).Launches
      = if CanSlide s = true ∧ IsWalking s = true then
          ((SetParkourMode Owner (SprintEnd Owner s) EParkourMode.EPM_Slide).2).Launches
        else s.Launches := by
    unfold SlideStart
    split_ifs <;> rfl
  rw [h, SetParkourMode_Launches Owner hO, SprintEnd_Launches Owner hO, ite_self]

/-- `SprintJump` keeps the launches recorded when the handler does. -/
theorem SprintJump_Launches (Owner : FCharacterOwner)
    (hO : ∀ t m, (Owner t m).Launches = t.Launches)
    (s : AParkourSystemCharacter) :
    (SprintJump Owner s).Launches = s.Launches := by
  unfold SprintJump
  simp only []
  split_ifs
  · exact SprintEnd_Launches Owner hO s
  · rfl

/-- `CrouchJump` keeps the launches recorded when the handler does. -/
theorem CrouchJump_Launches (Owner : FCharacterOwner)
    (hO : ∀ t m, (Owner t m).Launches = t.Launches)
    (e : Engine) (s : AParkourSystemCharacter) :
    (CrouchJump Owner e s).Launches = s.Launches := by
  unfold CrouchJump
  split_ifs
  · exact CrouchEnd_Launches Owner hO e s
  · rfl

/-- The sprint key keeps the launches recorded when the handler does. -/
theorem Sprint_Launches (Owner : FCharacterOwner)
    (hO : ∀ t m, (Owner t m).Launches = t.Launches)
    (e : Engine) (s : AParkourSystemCharacter) :
    (Sprint Owner e s).Launches = s.Launches := by
  unfold Sprint
  split_ifs
  · exact SprintEnd_Launches Owner hO s
  · exact SprintStart_Launches Owner hO e s
  · rfl

/-- The crouch/slide key keeps the launches recorded when the handler does. -/
theorem CrouchSlideKeyPressed_Launches (Owner : FCharacterOwner)
    (hO : ∀ t m, (Owner t m).Launches = t.Launches)
    (e : Engine) (s : AParkourSystemCharacter) :
    (CrouchSlideKeyPressed Owner e s).Launches = s.Launches := by
  unfold CrouchSlideKeyPressed CrouchToggle
  split_ifs
  · exact SlideStart_Launches Owner hO e s
  · rfl
  · exact CrouchStart_Launches Owner hO s
  · exact CrouchEnd_Launches Owner hO e s
  · rfl

/-- `SprintUpdate` keeps the launches recorded when the handler does. -/
theorem SprintUpdate_Launches (Owner : FCharacterOwner)
    (hO : ∀ t m, (Owner t m).Launches = t.Launches)
    (s : AParkourSystemCharacter) :
    (SprintUpdate Owner s).Launches = s.Launches := by
  unfold SprintUpdate
  split_ifs
  · exact SprintEnd_Launches Owner hO s
  · rfl

/-- `SlideUpdate` keeps the launches recorded when the handler does. -/
theorem SlideUpdate_Launches (Owner : FCharacterOwner)
    (hO : ∀ t m, (Owner t m).Launches = t.Launches)
    (e : Engine) (s : AParkourSystemCharacter) :
    (SlideUpdate Owner e s).Launches = s.Launches := by
  unfold SlideUpdate
  simp only []
  split_ifs
  · exact SlideEnd_Launches Owner hO s
  · exact SlideEnd_Launches Owner hO s
  · rfl
  · rfl
  · rfl

/-- `CheckQueues` keeps the launches recorded when the handler does. -/
theorem CheckQueues_Launches (Owner : FCharacterOwner)
    (hO : ∀ t m, (Owner t m).Launches = t.Launches)
    (e : Engine) (s : AParkourSystemCharacter) :
    (CheckQueues Owner e s).Launches = s.Launches := by
  unfold CheckQueues
  split_ifs
  · exact SlideStart_Launches Owner hO e s
  · exact SprintStart_Launches Owner hO e s
  · rfl

/-- The expiry of a timer keeps the launches recorded. -/
theorem TimerExpired_Launches (s : AParkourSystemCharacter) (Handle : Nat) :
    (TimerExpired s Handle).Launches = s.Launches := by
  unfold TimerExpired
  split_ifs <;> rfl

/-- A movement-mode notification keeps the launches recorded when the handler does. -/
theorem OnMovementModeChanged_Launches (Owner : FCharacterOwner)
    (hO : ∀ t m, (Owner t m).Launches = t.Launches)
    (e : Engine) (s : AParkourSystemCharacter)
    (InPrevMovementMode : EMovementMode) :
    (OnMovementModeChanged Owner e s InPrevMovementMode).Launches = s.Launches := by
  unfold OnMovementModeChanged
  simp only []
  split_ifs
  · exact (SlideEnd_Launches Owner hO _).trans ((SprintEnd_Launches Owner hO _).trans
      ((SprintJump_Launches Owner hO _).trans rfl))
  · exact (CheckQueues_Launches Owner hO e _).trans rfl
  · rfl

/-- The handler of the character keeps the launches recorded. -/
theorem CharacterOwner_Launches (e : Engine) (t : AParkourSystemCharacter) (m : EMovementMode) :
    (CharacterOwner e t m).Launches = t.Launches :=
  OnMovementModeChanged_Launches (Dispatch e 0) (fun _ _ => rfl) e t m

/-- `ResetMovement` keeps the double-jump flag when the handler does. -/
theorem ResetMovement_bCanDoubleJump (Owner : FCharacterOwner)
    (hO : ∀ t m, (Owner t m).bCanDoubleJump = t.bCanDoubleJump)
    (s : AParkourSystemCharacter) :
    (ResetMovement Owner s).bCanDoubleJump = s.bCanDoubleJump := by
  unfold ResetMovement SetMovementMode
  simp only [bToWalking_eq_true, if_true]
  split_ifs
  · rfl
  · exact (hO _ _).trans rfl
  · rfl
  · exact (hO _ _).trans rfl
  · rfl

/-- `SetParkourMode` keeps the double-jump flag when the handler does. -/
theorem SetParkourMode_bCanDoubleJump (Owner : FCharacterOwner)
    (hO : ∀ t m, (Owner t m).bCanDoubleJump = t.bCanDoubleJump)
    (s : AParkourSystemCharacter) (M : EParkourMode) :
    ((SetParkourMode Owner s M).2).bCanDoubleJump = s.bCanDoubleJump := by
  unfold SetParkourMode
  split_ifs
  · rfl
  · exact ResetMovement_bCanDoubleJump Owner hO _

/-- `SetTimer` keeps the double-jump flag. -/
theorem SetTimer_bCanDoubleJump (s : AParkourSystemCharacter) (InRate : ℚ) :
    (SetTimer s InRate).bCanDoubleJump = s.bCanDoubleJump := by
  unfold SetTimer
  simp only []
  split_ifs <;> rfl

/-- `SprintEnd` keeps the double-jump flag when the handler does. -/
theorem SprintEnd_bCanDoubleJump (Owner : FCharacterOwner)
    (hO : ∀ t m, (Owner t m).bCanDoubleJump = t.bCanDoubleJump)
    (s : AParkourSystemCharacter) :
    (SprintEnd Owner s).bCanDoubleJump = s.bCanDoubleJump := by
  unfold SprintEnd
  simp only []
  split_ifs
  · rw [SetTimer_bCanDoubleJump]
    exact SetParkourMode_bCanDoubleJump Owner hO s _
  · exact SetParkourMode_bCanDoubleJump Owner hO s _
  · rfl

/-- `SlideEnd` keeps the double-jump flag when the handler does. -/
theorem SlideEnd_bCanDoubleJump (Owner : FCharacterOwner)
    (hO : ∀ t m, (Owner t m).bCanDoubleJump = t.bCanDoubleJump)
    (s : AParkourSystemCharacter) :
    (SlideEnd Owner s).bCanDoubleJump = s.bCanDoubleJump := by
  unfold SlideEnd
  simp only []
  split_ifs
  · exact SetParkourMode_bCanDoubleJump Owner hO s _
  · exact SetParkourMode_bCanDoubleJump Owner hO s _
  · rfl

/-- `CrouchEnd` keeps the double-jump flag when the handler does. -/
theorem CrouchEnd_bCanDoubleJump (Owner : FCharacterOwner)
    (hO : ∀ t m, (Owner t m).bCanDoubleJump = t.bCanDoubleJump)
    (e : Engine) (s : AParkourSystemCharacter) :
    (CrouchEnd Owner e s).bCanDoubleJump = s.bCanDoubleJump := by
  unfold CrouchEnd
  simp only []
  split_ifs
  · exact SetParkourMode_bCanDoubleJump Owner hO s _
  · rfl

/-- `SprintStart` keeps the double-jump flag when the handler does. -/
theorem SprintStart_bCanDoubleJump (Owner : FCharacterOwner)
    (hO : ∀ t m, (Owner t m).bCanDoubleJump = t.bCanDoubleJump)
    (e : Engine) (s : AParkourSystemCharacter) :
    (SprintStart Owner e s).bCanDoubleJump = s.bCanDoubleJump := by
  have h : (SlideEnd Owner (CrouchEnd Owner e s)).bCanDoubleJump = s.bCanDoubleJump := by
    rw [SlideEnd_bCanDoubleJump Owner hO, CrouchEnd_bCanDoubleJump Owner hO]
  unfold SprintStart
  simp only []
  split_ifs
  · exact (SetParkourMode_bCanDoubleJump Owner hO _ _).trans h
  · exact (SetParkourMode_bCanDoubleJump Owner hO _ _).trans h
  · exact h

/-- `SlideStart` keeps the double-jump flag when the handler does. -/
theorem SlideStart_bCanDoubleJump (Owner : FCharacterOwner)
    (hO : ∀ t m, (Owner t m).bCanDoubleJump = t.bCanDoubleJump)
    (e : Engine) (s : AParkourSystemCharacter) :
    (SlideStart Owner e s).bCanDoubleJump = s.bCanDoubleJump := by
  have h : (SlideStart Owner e s).bCanDoubleJump
      = if CanSlide s = true ∧ IsWalking s = true then
          ((SetParkourMode Owner (SprintEnd Owner s) EParkourMode.EPM_Slide).2).bCanDoubleJump
        else s.bCanDoubleJump := by
    unfold SlideStart
    split_ifs <;> rfl
  rw [h, SetParkourMode_bCanDoubleJump Owner hO, SprintEnd_bCanDoubleJump Owner hO, ite_self]

/-- `SprintJump` keeps the double-jump flag when the handler does. -/
theorem SprintJump_bCanDoubleJump (Owner : FCharacterOwner)
    (hO : ∀ t m, (Owner t m).bCanDoubleJump = t.bCanDoubleJump)
    (s : AParkourSystemCharacter) :
    (SprintJump Owner s).bCanDoubleJump = s.bCanDoubleJump := by
  unfold SprintJump
  simp only []
  split_ifs
  · exact SprintEnd_bCanDoubleJump Owner hO s
  · rfl

/-- `CheckQueues` keeps the double-jump flag when the handler does. -/
theorem CheckQueues_bCanDoubleJump (Owner : FCharacterOwner)
    (hO : ∀ t m, (Owner t m).bCanDoubleJump = t.bCanDoubleJump)
    (e : Engine) (s : AParkourSystemCharacter) :
    (CheckQueues Owner e s).bCanDoubleJump = s.bCanDoubleJump := by
  unfold CheckQueues
  split_ifs
  · exact SlideStart_bCanDoubleJump Owner hO e s
  · exact SprintStart_bCanDoubleJump Owner hO e s
  · rfl

/-- With the component walking, `CheckQueues` keeps the double-jump flag. -/
theorem CheckQueues_bCanDoubleJump_walking (Owner : FCharacterOwner) (e : Engine)
    (s : AParkourSystemCharacter) (hw : s.MovementMode = EMovementMode.MOVE_Walking) :
    (CheckQueues Owner e s).bCanDoubleJump = s.bCanDoubleJump := by
  rw [(CheckQueues_walking Owner (Dispatch e 0) e s hw).1]
  exact CheckQueues_bCanDoubleJump (Dispatch e 0) (fun _ _ => rfl) e s

/-- `ResetMovement` in None or Crouch with the component falling gives the
double jump back: the component is put on the ground, which the handler
takes for a landing. -/
theorem ResetMovement_rearms (e : Engine) (s : AParkourSystemCharacter)
    (h : s.CurrentParkourMode = EParkourMode.EPM_None
      ∨ s.CurrentParkourMode = EParkourMode.EPM_Crouch)
    (hf : s.MovementMode = EMovementMode.MOVE_Falling) :
    (ResetMovement (CharacterOwner e) s).bCanDoubleJump = true := by
  rw [ResetMovement_CharacterOwner, if_pos h, if_pos hf,
    CheckQueues_bCanDoubleJump_walking _ e _ (ToWalking_MovementMode _)]
  simp [ToWalking, hf]

/-- `SprintEnd` from a sprint leaves the component walking. -/
theorem SprintEnd_MovementMode (e : Engine) (s : AParkourSystemCharacter)
    (h : s.CurrentParkourMode = EParkourMode.EPM_Sprint) :
    (SprintEnd (CharacterOwner e) s).MovementMode = EMovementMode.MOVE_Walking := by
  have hne : EParkourMode.EPM_None ≠ s.CurrentParkourMode := by simp [h]
  simp only [SprintEnd, h, if_true, SetParkourMode_of_ne _ s _ hne, DisableSprint]
  rw [SetTimer_MovementMode]
  exact ResetMovement_MovementMode e _ (Or.inl rfl)

/-- When the character is still falling after the jump events of `Jump`,
those events have changed nothing. -/
theorem jump_events_of_falling (e : Engine) (s : AParkourSystemCharacter)
    (h : IsFalling (SprintJump (CharacterOwner e) (CrouchJump (CharacterOwner e) e s)) = true) :
    SprintJump (CharacterOwner e) (CrouchJump (CharacterOwner e) e s) = s := by
  have hwalk : ∀ t : AParkourSystemCharacter, t.MovementMode = EMovementMode.MOVE_Walking →
      IsFalling t = false := by
    intro t ht
    simp [IsFalling, ht]
  cases hm : s.CurrentParkourMode
  · simp [CrouchJump, SprintJump, hm]
  · have h1 : CrouchJump (CharacterOwner e) e s = s := by simp [CrouchJump, hm]
    have h2 : SprintJump (CharacterOwner e) s
        = { SprintEnd (CharacterOwner e) s with bIsSprintQueued := true } := by
      simp only [SprintJump, hm, if_true]
    rw [h1, h2] at h
    have hw := hwalk { SprintEnd (CharacterOwner e) s with bIsSprintQueued := true }
      (SprintEnd_MovementMode e s hm)
    rw [hw] at h
    exact absurd h (by decide)
  · cases hs : CanStand e s
    · have h1 : CrouchJump (CharacterOwner e) e s = s := by
        simp [CrouchJump, hm, CrouchEnd_of_blocked _ e s hs]
      rw [h1]
      simp [SprintJump, hm]
    · have h1 : CrouchJump (CharacterOwner e) e s = CrouchEnd (CharacterOwner e) e s := by
        simp [CrouchJump, hm]
      rw [h1] at h
      have hw := hwalk _
        (SprintJump_walking (CharacterOwner e) (CharacterOwner e)
          (CrouchEnd (CharacterOwner e) e s) (CrouchEnd_effect e s hm hs).2.2.2.1).2
      rw [hw] at h
      exact absurd h (by decide)
  · simp [CrouchJump, SprintJump, hm]

/-- `Jump` keeps the launches recorded, or it finds the capability available
and the character falling, records one launch and consumes the capability. -/
theorem Jump_Launches (e : Engine) (s : AParkourSystemCharacter) :
    (Jump (CharacterOwner e) e s).Launches = s.Launches
    ∨ (s.bCanDoubleJump = true ∧ IsFalling s = true
        ∧ (Jump (CharacterOwner e) e s).Launches = s.Launches ++ [DoubleJumpVelocity s]
        ∧ (Jump (CharacterOwner e) e s).bCanDoubleJump = false) := by
  by_cases hs : CanStand e s = false
  · left
    simp [Jump, hs]
  · by_cases hd :
        (SprintJump (CharacterOwner e) (CrouchJump (CharacterOwner e) e s)).bCanDoubleJump = true
          ∧ IsFalling (SprintJump (CharacterOwner e) (CrouchJump (CharacterOwner e) e s)) = true
    · right
      have hj := jump_events_of_falling e s hd.2
      rw [hj] at hd
      refine ⟨hd.1, hd.2, ?_, ?_⟩
      · simp only [Jump, hs, if_false, hj, hd.1, hd.2, and_self, if_true]
        rfl
      · simp only [Jump, hs, if_false, hj, hd.1, hd.2, and_self, if_true]
        rfl
    · left
      have h1 : (SprintJump (CharacterOwner e) (CrouchJump (CharacterOwner e) e s)).Launches
          = s.Launches := by
        rw [SprintJump_Launches _ (CharacterOwner_Launches e),
          CrouchJump_Launches _ (CharacterOwner_Launches e)]
      simp only [Jump, hs, if_false, hd]
      exact h1

/-- Launches are recorded by `Jump` alone. -/
theorem step_Launches (e : Engine) (s : AParkourSystemCharacter) (op : Operation)
    (hop : op ≠ Operation.Jump) : (step e s op).Launches = s.Launches := by
  cases op with
  | Sprint => exact Sprint_Launches _ (CharacterOwner_Launches e) e s
  | SprintStart => exact SprintStart_Launches _ (CharacterOwner_Launches e) e s
  | CrouchSlideKeyPressed =>
      exact CrouchSlideKeyPressed_Launches _ (CharacterOwner_Launches e) e s
  | Jump => exact absurd rfl hop
  | Tick DeltaTime =>
      have hc : ∀ t : AParkourSystemCharacter, (CrouchUpdate t).Launches = t.Launches := by
        intro t
        unfold CrouchUpdate
        simp only []
        split_ifs <;> rfl
      have h1 : (if s.bCanSprint = true then SprintUpdate (CharacterOwner e) s else s).Launches
          = s.Launches := by
        split_ifs
        · exact SprintUpdate_Launches _ (CharacterOwner_Launches e) s
        · rfl
      have h2 : ∀ t : AParkourSystemCharacter,
          (if t.bCanSlide = true then SlideUpdate (CharacterOwner e) e t else t).Launches
            = t.Launches := by
        intro t
        split_ifs
        · exact SlideUpdate_Launches _ (CharacterOwner_Launches e) e t
        · rfl
      exact (hc _).trans ((h2 _).trans h1)
  | MovementModeChanged InPrevMovementMode NewMovementMode =>
      exact (OnMovementModeChanged_Launches _ (CharacterOwner_Launches e) e _ _).trans rfl
  | TimerExpired Handle => exact TimerExpired_Launches s Handle
  | Simulate u => rfl

/-- The concrete input `doubleJumped`, as a record. -/
theorem doubleJumped_eq :
    doubleJumped =
      { standing with
        MovementMode := EMovementMode.MOVE_Falling
        PreviousMovementMode := EMovementMode.MOVE_Walking
        CurrentMovementMode := EMovementMode.MOVE_Falling
        Launches := [DoubleJumpVelocity standing]
        bCanDoubleJump := false } := by
  have h : doubleJumped
      = Jump (CharacterOwner openWorld) openWorld
          (OnMovementModeChanged (CharacterOwner openWorld) openWorld
            { standing with MovementMode := EMovementMode.MOVE_Falling }
            EMovementMode.MOVE_Walking) := rfl
  rw [h, OnMovementModeChanged_of_None _ _ _ _ rfl rfl]
  rfl

/-- The crouch key pressed in mode None without the conditions of a slide is
`CrouchStart`. -/
theorem CrouchSlideKeyPressed_of_None (Owner : FCharacterOwner) (e : Engine)
    (s : AParkourSystemCharacter) (hm : s.CurrentParkourMode = EParkourMode.EPM_None)
    (hc : CanSlide s = false) :
    CrouchSlideKeyPressed Owner e s = CrouchStart Owner s := by
  simp [CrouchSlideKeyPressed, CrouchToggle, hm, hc]

/-- The crouch key pressed in mode Crouch without the conditions of a slide
is `CrouchEnd`. -/
theorem CrouchSlideKeyPressed_of_Crouch (Owner : FCharacterOwner) (e : Engine)
    (s : AParkourSystemCharacter) (hm : s.CurrentParkourMode = EParkourMode.EPM_Crouch)
    (hc : CanSlide s = false) :
    CrouchSlideKeyPressed Owner e s = CrouchEnd Owner e s := by
  simp [CrouchSlideKeyPressed, CrouchToggle, hm, hc]

/-- With no sprint queued outside Sprint the conditions of a slide fail. -/
theorem CanSlide_of_not_queued (s : AParkourSystemCharacter)
    (hm : s.CurrentParkourMode ≠ EParkourMode.EPM_Sprint) (hq : s.bIsSprintQueued = false) :
    CanSlide s = false := by
  simp [CanSlide, hm, hq]

/-- The run `crouchedInTheAir` of the standing character, as a record: two
launches are recorded. -/
theorem crouchedInTheAir_eq :
    run openWorld standing crouchedInTheAir =
      { standing with
        MovementMode := EMovementMode.MOVE_Falling
        PreviousMovementMode := EMovementMode.MOVE_Walking
        CurrentMovementMode := EMovementMode.MOVE_Falling
        PrevParkourMode := EParkourMode.EPM_Crouch
        bConstrainToPlane := false
        Launches := [DoubleJumpVelocity standing, DoubleJumpVelocity standing]
        bCanDoubleJump := false } := by
  have h : run openWorld standing crouchedInTheAir
      = Jump (CharacterOwner openWorld) openWorld
          (OnMovementModeChanged (CharacterOwner openWorld) openWorld
            { CrouchSlideKeyPressed (CharacterOwner openWorld) openWorld
                (CrouchSlideKeyPressed (CharacterOwner openWorld) openWorld doubleJumped) with
              MovementMode := EMovementMode.MOVE_Falling }
            EMovementMode.MOVE_Walking) := rfl
  have h1 : CrouchSlideKeyPressed (CharacterOwner openWorld) openWorld doubleJumped = _ :=
    (CrouchSlideKeyPressed_of_None _ openWorld doubleJumped (by rw [doubleJumped_eq]; rfl)
      (CanSlide_of_not_queued _ (by rw [doubleJumped_eq]; decide)
        (by rw [doubleJumped_eq]; rfl))).trans
      (CrouchStart_of_None openWorld doubleJumped (by rw [doubleJumped_eq]; rfl)
        (not_Flushes_of_not_queued _ (by rw [doubleJumped_eq]; rfl)))
  rw [h1] at h
  have h2 : ∀ t : AParkourSystemCharacter, t.CurrentParkourMode = EParkourMode.EPM_Crouch →
      t.bIsSprintQueued = false → CanStand openWorld t = true →
      t.MovementMode = EMovementMode.MOVE_Walking →
      CrouchSlideKeyPressed (CharacterOwner openWorld) openWorld t
        = { t with
            PrevParkourMode := EParkourMode.EPM_Crouch
            CurrentParkourMode := EParkourMode.EPM_None
            MaxWalkSpeed := t.DefaultWalkSpeed
            GroundFriction := t.DefaultGroundFriction
            BrakingDecelerationWalking := t.DefaultBrakingDeceleration
            bConstrainToPlane := false
            bIsSprintQueued := false
            bIsSlideQueued := false } := by
    intro t hm hq hs hw
    rw [CrouchSlideKeyPressed_of_Crouch _ openWorld t hm
      (CanSlide_of_not_queued t (by rw [hm]; decide) hq)]
    exact CrouchEnd_of_Crouch_walking _ openWorld t hm hs hw
  rw [h2 _ rfl rfl rfl rfl, OnMovementModeChanged_of_None _ _ _ _ rfl rfl] at h
  rw [h, doubleJumped_eq]
  rfl

/-- C6, what the code does: `Jump` performs the double jump only when
`canDoubleJump` is true and the character is falling, and then sets
`canDoubleJump` to false; no operation other than `Jump` records a launch;
the falling-to-walking notification always sets `canDoubleJump` to true. But
so does the crouch key pressed in the air in mode None: `ResetMovement` puts
the falling component on the ground, and the handler that the component
calls takes that for a landing. -/
theorem double_jump_at_most_once (e : Engine) :
    (∀ s : AParkourSystemCharacter,
        (Jump (CharacterOwner e) e s).Launches = s.Launches
        ∨ (s.bCanDoubleJump = true ∧ IsFalling s = true
            ∧ (Jump (CharacterOwner e) e s).Launches = s.Launches ++ [DoubleJumpVelocity s]
            ∧ (Jump (CharacterOwner e) e s).bCanDoubleJump = false))
    ∧ (∀ (s : AParkourSystemCharacter) (op : Operation),
        op ≠ Operation.Jump → (step e s op).Launches = s.Launches)
    ∧ (∀ s : AParkourSystemCharacter,
        (step e s (Operation.MovementModeChanged EMovementMode.MOVE_Falling
          EMovementMode.MOVE_Walking)).bCanDoubleJump = true)
    ∧ (∀ s : AParkourSystemCharacter,
        s.CurrentParkourMode = EParkourMode.EPM_None →
        s.MovementMode = EMovementMode.MOVE_Falling → CanSlide s = false →
          (step e s Operation.CrouchSlideKeyPressed).bCanDoubleJump = true) := by
  refine ⟨Jump_Launches e, step_Launches e, ?_, ?_⟩
  · intro s
    have h : step e s (Operation.MovementModeChanged EMovementMode.MOVE_Falling
        EMovementMode.MOVE_Walking)
        = CheckQueues (CharacterOwner e) e
            { s with
              MovementMode := EMovementMode.MOVE_Walking
              PreviousMovementMode := EMovementMode.MOVE_Falling
              CurrentMovementMode := EMovementMode.MOVE_Walking
              bCanDoubleJump := true } := by
      simp [step, OnMovementModeChanged]
    rw [h, CheckQueues_bCanDoubleJump_walking _ e _ rfl]
  · intro s hm hf hc
    have hne : EParkourMode.EPM_Crouch ≠ s.CurrentParkourMode := by simp [hm]
    simp only [step]
    rw [CrouchSlideKeyPressed_of_None _ e s hm hc]
    simp only [CrouchStart, hm, if_true, SetParkourMode_of_ne _ s _ hne]
    exact ResetMovement_rearms e _ (Or.inr rfl) hf

/-- C6 at the failing input: the character that has used its double jump
presses the crouch key in the air and has the double jump again, and the run
`crouchedInTheAir`, which contains no falling-to-walking notification,
records two launches. -/
theorem double_jump_at_most_once_witness :
    doubleJumped.bCanDoubleJump = false
    ∧ (step openWorld doubleJumped Operation.CrouchSlideKeyPressed).bCanDoubleJump = true
    ∧ (∀ op ∈ crouchedInTheAir, op.isFallingToWalking = false)
    ∧ (run openWorld standing crouchedInTheAir).Launches
        = [DoubleJumpVelocity standing, DoubleJumpVelocity standing] := by
  refine ⟨by rw [doubleJumped_eq], ?_, ?_, by rw [crouchedInTheAir_eq]⟩
  · exact (double_jump_at_most_once openWorld).2.2.2 doubleJumped
      (by rw [doubleJumped_eq]; rfl) (by rw [doubleJumped_eq])
      (CanSlide_of_not_queued _ (by rw [doubleJumped_eq]; decide) (by rw [doubleJumped_eq]; rfl))
  · intro op hop
    simp only [crouchedInTheAir, List.mem_cons, List.mem_singleton, List.not_mem_nil,
      or_false] at hop
    rcases hop with h | h | h | h | h | h <;> rw [h] <;> rfl

/-! ## Scenarios of the sprint, the slide and the crouch -/

/-- `ResetMovement` keeps the values carried when the handler does. -/
theorem ResetMovement_Carried (Owner : FCharacterOwner)
    (hO : ∀ t m, Carried (Owner t m) = Carried t)
    (s : AParkourSystemCharacter) :
    Carried (ResetMovement Owner s) = Carried s := by
  unfold ResetMovement SetMovementMode
  simp only [bToWalking_eq_true, if_true]
  split_ifs
  · rfl
  · exact (hO _ _).trans rfl
  · rfl
  · exact (hO _ _).trans rfl
  · rfl

/-- `SetParkourMode` keeps the values carried when the handler does. -/
theorem SetParkourMode_Carried (Owner : FCharacterOwner)
    (hO : ∀ t m, Carried (Owner t m) = Carried t)
    (s : AParkourSystemCharacter) (M : EParkourMode) :
    Carried ((SetParkourMode Owner s M).2) = Carried s := by
  unfold SetParkourMode
  split_ifs
  · rfl
  · exact ResetMovement_Carried Owner hO _

/-- `SetTimer` keeps the values carried. -/
theorem SetTimer_Carried (s : AParkourSystemCharacter) (InRate : ℚ) :
    Carried (SetTimer s InRate) = Carried s := by
  unfold SetTimer
  simp only []
  split_ifs <;> rfl

/-- `SprintEnd` keeps the values carried when the handler does. -/
theorem SprintEnd_Carried (Owner : FCharacterOwner)
    (hO : ∀ t m, Carried (Owner t m) = Carried t)
    (s : AParkourSystemCharacter) :
    Carried (SprintEnd Owner s) = Carried s := by
  unfold SprintEnd
  simp only []
  split_ifs
  · rw [SetTimer_Carried]
    exact SetParkourMode_Carried Owner hO s _
  · exact SetParkourMode_Carried Owner hO s _
  · rfl

/-- `SlideEnd` keeps the values carried when the handler does. -/
theorem SlideEnd_Carried (Owner : FCharacterOwner)
    (hO : ∀ t m, Carried (Owner t m) = Carried t)
    (s : AParkourSystemCharacter) :
    Carried (SlideEnd Owner s) = Carried s := by
  unfold SlideEnd
  simp only []
  split_ifs
  · exact SetParkourMode_Carried Owner hO s _
  · exact SetParkourMode_Carried Owner hO s _
  · rfl

/-- `CrouchEnd` keeps the values carried when the handler does. -/
theorem CrouchEnd_Carried (Owner : FCharacterOwner)
    (hO : ∀ t m, Carried (Owner t m) = Carried t)
    (e : Engine) (s : AParkourSystemCharacter) :
    Carried (CrouchEnd Owner e s) = Carried s := by
  unfold CrouchEnd
  simp only []
  split_ifs
  · exact SetParkourMode_Carried Owner hO s _
  · rfl

/-- `SprintStart` keeps the values carried when the handler does. -/
theorem SprintStart_Carried (Owner : FCharacterOwner)
    (hO : ∀ t m, Carried (Owner t m) = Carried t)
    (e : Engine) (s : AParkourSystemCharacter) :
    Carried (SprintStart Owner e s) = Carried s := by
  have h : Carried (SlideEnd Owner (CrouchEnd Owner e s)) = Carried s := by
    rw [SlideEnd_Carried Owner hO, CrouchEnd_Carried Owner hO]
  unfold SprintStart
  simp only []
  split_ifs
  · exact (SetParkourMode_Carried Owner hO _ _).trans h
  · exact (SetParkourMode_Carried Owner hO _ _).trans h
  · exact h

/-- `SlideStart` keeps the values carried when the handler does. -/
theorem SlideStart_Carried (Owner : FCharacterOwner)
    (hO : ∀ t m, Carried (Owner t m) = Carried t)
    (e : Engine) (s : AParkourSystemCharacter) :
    Carried (SlideStart Owner e s) = Carried s := by
  have h : Carried (SlideStart Owner e s)
      = if CanSlide s = true ∧ IsWalking s = true then
          Carried ((SetParkourMode Owner (SprintEnd Owner s) EParkourMode.EPM_Slide).2)
        else Carried s := by
    unfold SlideStart
    split_ifs <;> rfl
  rw [h, SetParkourMode_Carried Owner hO, SprintEnd_Carried Owner hO, ite_self]

/-- `SprintJump` keeps the values carried when the handler does. -/
theorem SprintJump_Carried (Owner : FCharacterOwner)
    (hO : ∀ t m, Carried (Owner t m) = Carried t)
    (s : AParkourSystemCharacter) :
    Carried (SprintJump Owner s) = Carried s := by
  unfold SprintJump
  simp only []
  split_ifs
  · exact SprintEnd_Carried Owner hO s
  · rfl

/-- `CheckQueues` keeps the values carried when the handler does. -/
theorem CheckQueues_Carried (Owner : FCharacterOwner)
    (hO : ∀ t m, Carried (Owner t m) = Carried t)
    (e : Engine) (s : AParkourSystemCharacter) :
    Carried (CheckQueues Owner e s) = Carried s := by
  unfold CheckQueues
  split_ifs
  · exact SlideStart_Carried Owner hO e s
  · exact SprintStart_Carried Owner hO e s
  · rfl

/-- A movement-mode notification keeps the values carried when the handler does. -/
theorem OnMovementModeChanged_Carried (Owner : FCharacterOwner)
    (hO : ∀ t m, Carried (Owner t m) = Carried t)
    (e : Engine) (s : AParkourSystemCharacter)
    (InPrevMovementMode : EMovementMode) :
    Carried (OnMovementModeChanged Owner e s InPrevMovementMode) = Carried s := by
  unfold OnMovementModeChanged
  simp only []
  split_ifs
  · exact (SlideEnd_Carried Owner hO _).trans ((SprintEnd_Carried Owner hO _).trans
      ((SprintJump_Carried Owner hO _).trans rfl))
  · exact (CheckQueues_Carried Owner hO e _).trans rfl
  · rfl

/-- The handler of the character keeps the values carried. -/
theorem CharacterOwner_Carried (e : Engine) (t : AParkourSystemCharacter) (m : EMovementMode) :
    Carried (CharacterOwner e t m) = Carried t :=
  OnMovementModeChanged_Carried (Dispatch e 0) (fun _ _ => rfl) e t m

/-- C12: from mode Sprint with forward input on walking ground, the
crouch/slide key results in mode Slide with ground friction 0, walk-speed cap
0, braking deceleration 1000, the slide capability flag set, both queue flags
cleared, and exactly one impulse recorded: `SlideSpeed` times the normalised
cross product of the actor's right vector and the floor normal. -/
theorem slide_key_from_Sprint (e : Engine) (s : AParkourSystemCharacter)
    (hmode : s.CurrentParkourMode = EParkourMode.EPM_Sprint)
    (hforward : ForwardInput s = true) (hwalk : IsWalking s = true) :
    (CrouchSlideKeyPressed (CharacterOwner e) e s).CurrentParkourMode = EParkourMode.EPM_Slide
    ∧ (CrouchSlideKeyPressed (CharacterOwner e) e s).GroundFriction = 0
    ∧ (CrouchSlideKeyPressed (CharacterOwner e) e s).MaxWalkSpeed = 0
    ∧ (CrouchSlideKeyPressed (CharacterOwner e) e s).BrakingDecelerationWalking = 1000
    ∧ (CrouchSlideKeyPressed (CharacterOwner e) e s).bCanSlide = true
    ∧ (CrouchSlideKeyPressed (CharacterOwner e) e s).bIsSprintQueued = false
    ∧ (CrouchSlideKeyPressed (CharacterOwner e) e s).bIsSlideQueued = false
    ∧ (CrouchSlideKeyPressed (CharacterOwner e) e s).Impulses
        = s.Impulses
          ++ [FVector.scale s.SlideSpeed
                (e.GetSafeNormal
                  (FVector.CrossProduct s.ActorRightVector s.CurrentFloorNormal))] := by
  have hc : CanSlide s = true := by simp [CanSlide, hforward, hmode]
  have hkey : CrouchSlideKeyPressed (CharacterOwner e) e s = SlideStart (CharacterOwner e) e s := by
    simp only [CrouchSlideKeyPressed, hc, hwalk, if_true]
  have hend := SprintEnd_of_Sprint e s hmode (not_Flushes_of_IsWalking s hwalk)
  rw [SetTimer_of_pos _ _ (by norm_num)] at hend
  rw [hkey]
  simp only [SlideStart, hc, hwalk, and_self, if_true, hend]
  rw [SetParkourMode_of_ne _ _ _ (by simp), ResetMovement_of_not _ _ (Or.inr rfl)]
  simp [AddImpulse, EnableSlide]

/-- The concrete input `sprinting` faces along X on a flat floor with the
stick pushed forward and has recorded nothing yet. -/
theorem sprinting_vectors :
    ForwardInput sprinting = true
    ∧ IsWalking sprinting = true
    ∧ sprinting.Impulses = []
    ∧ sprinting.Forces = []
    ∧ sprinting.SlideSpeed = 1000
    ∧ sprinting.SlideForceMultiplier = 100
    ∧ sprinting.ActorRightVector = ⟨0, 1, 0⟩
    ∧ sprinting.CurrentFloorNormal = ⟨0, 0, 1⟩ := by
  have h : sprinting = _ := SprintStart_of_None_walking _ openWorld standing rfl rfl
  have hv : sprinting.ActorForwardVector = ⟨1, 0, 0⟩ ∧ sprinting.LastInputVector = ⟨1, 0, 0⟩ := by
    rw [h]
    exact ⟨rfl, rfl⟩
  refine ⟨by simp [ForwardInput, FVector.DotProduct, hv.1, hv.2], ?_, ?_, ?_, ?_, ?_, ?_, ?_⟩
    <;> rw [h] <;> rfl

/-- C12 at a concrete input: the sprinting character slides off along X with
an impulse of 1000. -/
theorem slide_key_from_Sprint_witness :
    sprinting.CurrentParkourMode = EParkourMode.EPM_Sprint
    ∧ (CrouchSlideKeyPressed (CharacterOwner openWorld) openWorld sprinting).CurrentParkourMode
        = EParkourMode.EPM_Slide
    ∧ (CrouchSlideKeyPressed (CharacterOwner openWorld) openWorld sprinting).Impulses
        = [⟨1000, 0, 0⟩] := by
  have h := slide_key_from_Sprint openWorld sprinting sprinting_fields.1 sprinting_vectors.1
    sprinting_vectors.2.1
  refine ⟨sprinting_fields.1, h.1, ?_⟩
  rw [h.2.2.2.2.2.2.2]
  obtain ⟨_, _, h1, _, h2, _, h3, h4⟩ := sprinting_vectors
  simp [h1, h2, h3, h4, openWorld, FVector.CrossProduct, FVector.scale]

/-- Outside the tolerance of the vertical axis `CalculateFloorInfluenceVector`
returns the double cross product unscaled: the strength is the constant 1. -/
theorem CalculateFloorInfluenceVector_of_slope (N : FVector)
    (h : FVector.Equals N FVector.ZAxisVector KINDA_SMALL_NUMBER = false) :
    CalculateFloorInfluenceVector N
      = FVector.CrossProduct N (FVector.CrossProduct N FVector.ZAxisVector) := by
  have hstrength : Clamp (1 - FVector.DotProduct N FVector.ZeroVector) 0 1 = 1 := by
    simp [Clamp, FVector.DotProduct, FVector.ZeroVector]
  simp only [CalculateFloorInfluenceVector, h, hstrength, FVector.scale, one_mul]
  simp

/-- C19: the slope-influence strength of `CalculateFloorInfluenceVector` is
the constant 1 for every floor normal, the dot product being taken against
the zero vector; for a normal that is not within tolerance of the vertical
axis the function returns `cross(N, cross(N, Z))` unscaled, and it returns
the zero vector for a normal within tolerance of the vertical axis, the
vertical axis itself included. -/
theorem CalculateFloorInfluenceVector_strength (N : FVector) :
    Clamp (1 - FVector.DotProduct N FVector.ZeroVector) 0 1 = 1
    ∧ (FVector.Equals N FVector.ZAxisVector KINDA_SMALL_NUMBER = false →
        CalculateFloorInfluenceVector N
          = FVector.CrossProduct N (FVector.CrossProduct N FVector.ZAxisVector))
    ∧ (FVector.Equals N FVector.ZAxisVector KINDA_SMALL_NUMBER = true →
        CalculateFloorInfluenceVector N = FVector.ZeroVector)
    ∧ CalculateFloorInfluenceVector FVector.ZAxisVector = FVector.ZeroVector := by
  have hstrength : Clamp (1 - FVector.DotProduct N FVector.ZeroVector) 0 1 = 1 := by
    simp [Clamp, FVector.DotProduct, FVector.ZeroVector]
  refine ⟨hstrength, ?_, ?_, ?_⟩
  · intro h
    simp only [CalculateFloorInfluenceVector, h, hstrength, FVector.scale, one_mul]
    simp
  · intro h
    simp [CalculateFloorInfluenceVector, h]
  · simp [CalculateFloorInfluenceVector, FVector.Equals, FVector.ZAxisVector,
      KINDA_SMALL_NUMBER]

/-- C19 at a concrete input: on the slope with normal (3/5, 0, 4/5) the
function returns the unscaled double cross product (12/25, 0, -9/25). -/
theorem CalculateFloorInfluenceVector_strength_witness :
    CalculateFloorInfluenceVector ⟨3 / 5, 0, 4 / 5⟩ = ⟨12 / 25, 0, -9 / 25⟩ := by
  have hne : FVector.Equals ⟨3 / 5, 0, 4 / 5⟩ FVector.ZAxisVector KINDA_SMALL_NUMBER = false := by
    simp [FVector.Equals, FVector.ZAxisVector, KINDA_SMALL_NUMBER]
    intro h
    norm_num [abs_le] at h
  rw [(CalculateFloorInfluenceVector_strength ⟨3 / 5, 0, 4 / 5⟩).2.1 hne]
  simp [FVector.CrossProduct, FVector.ZAxisVector]
  norm_num

/-- The concrete input `sliding` has recorded no force yet and carries the
constructor's slide speed and force multiplier. -/
theorem sliding_fields :
    sliding.Forces = [] ∧ sliding.SlideSpeed = 1000 ∧ sliding.SlideForceMultiplier = 100 := by
  have hk : sliding = SlideStart (CharacterOwner openWorld) openWorld sprinting := by
    simp only [sliding, CrouchSlideKeyPressed, CanSlide_sprinting, sprinting_vectors.2.1,
      if_true]
  have h : Carried sliding = Carried sprinting := by
    rw [hk]
    exact SlideStart_Carried _ (CharacterOwner_Carried openWorld) openWorld sprinting
  obtain ⟨_, _, _, h1, h2, h3, _, _⟩ := sprinting_vectors
  have hF : sliding.Forces = sprinting.Forces := congrArg (fun c => c.2.2.2.2) h
  have hS : sliding.SlideSpeed = sprinting.SlideSpeed := congrArg (fun c => c.2.1) h
  have hM : sliding.SlideForceMultiplier = sprinting.SlideForceMultiplier :=
    congrArg (fun c => c.2.2.1) h
  exact ⟨hF.trans h1, hS.trans h2, hM.trans h3⟩

/-- From mode Slide, `SlideUpdate` records the slope force whatever the speed
and whatever a notification has done meanwhile. -/
theorem SlideUpdate_slope_force (e : Engine) (s : AParkourSystemCharacter)
    (hmode : s.CurrentParkourMode = EParkourMode.EPM_Slide) :
    (SlideUpdate (CharacterOwner e) e s).Forces
        = s.Forces
          ++ [FVector.scale s.SlideForceMultiplier
                (FVector.scale s.SlideSpeed
                  (e.GetSafeNormal
                    (FVector.CrossProduct s.CurrentFloorNormal
                      (FVector.CrossProduct s.CurrentFloorNormal FVector.UpVector))))] := by
  have hforce : ∀ t : AParkourSystemCharacter, Carried t = Carried s →
      (AddForce t (FVector.scale t.SlideForceMultiplier (FVector.scale t.SlideSpeed
        (e.GetSafeNormal (FVector.CrossProduct t.CurrentFloorNormal
          (FVector.CrossProduct t.CurrentFloorNormal FVector.UpVector)))))).Forces
        = s.Forces
          ++ [FVector.scale s.SlideForceMultiplier
                (FVector.scale s.SlideSpeed
                  (e.GetSafeNormal
                    (FVector.CrossProduct s.CurrentFloorNormal
                      (FVector.CrossProduct s.CurrentFloorNormal FVector.UpVector))))] := by
    intro t ht
    have h1 : t.SlideSpeed = s.SlideSpeed := congrArg (fun c => c.2.1) ht
    have h2 : t.SlideForceMultiplier = s.SlideForceMultiplier := congrArg (fun c => c.2.2.1) ht
    have h3 : t.CurrentFloorNormal = s.CurrentFloorNormal := congrArg (fun c => c.2.2.2.1) ht
    have h4 : t.Forces = s.Forces := congrArg (fun c => c.2.2.2.2) ht
    simp only [AddForce, h1, h2, h3, h4]
  have hF : (SlideUpdate (CharacterOwner e) e s).Forces
      = (AddForce (if e.Length s.Velocity < 35 then SlideEnd (CharacterOwner e) s else s)
          (FVector.scale
            (if e.Length s.Velocity < 35 then SlideEnd (CharacterOwner e) s
              else s).SlideForceMultiplier
            (FVector.scale
              (if e.Length s.Velocity < 35 then SlideEnd (CharacterOwner e) s else s).SlideSpeed
              (e.GetSafeNormal (FVector.CrossProduct
                (if e.Length s.Velocity < 35 then SlideEnd (CharacterOwner e) s
                  else s).CurrentFloorNormal
                (FVector.CrossProduct
                  (if e.Length s.Velocity < 35 then SlideEnd (CharacterOwner e) s
                    else s).CurrentFloorNormal FVector.UpVector)))))).Forces := by
    simp only [SlideUpdate, hmode, if_true]
    split_ifs <;> rfl
  rw [hF]
  apply hforce
  split_ifs
  · exact SlideEnd_Carried _ (CharacterOwner_Carried e) s
  · rfl

/-- C13, what the code does: from mode Slide, `SlideUpdate` records the slope
force `normalize(cross(N, cross(N, up))) * SlideSpeed * SlideForceMultiplier`
whatever the speed; below speed 35 it has ended the slide first (mode Crouch
when no sprint is queued, as in every reachable state in mode Slide), and
from speed 35 on the mode stays Slide. -/
theorem SlideUpdate_force_in_both_cases (e : Engine) (s : AParkourSystemCharacter)
    (hmode : s.CurrentParkourMode = EParkourMode.EPM_Slide) :
    (SlideUpdate (CharacterOwner e) e s).Forces
        = s.Forces
          ++ [FVector.scale s.SlideForceMultiplier
                (FVector.scale s.SlideSpeed
                  (e.GetSafeNormal
                    (FVector.CrossProduct s.CurrentFloorNormal
                      (FVector.CrossProduct s.CurrentFloorNormal FVector.UpVector))))]
    ∧ (e.Length s.Velocity < 35 → s.bIsSprintQueued = false →
        (SlideUpdate (CharacterOwner e) e s).CurrentParkourMode = EParkourMode.EPM_Crouch)
    ∧ (¬ e.Length s.Velocity < 35 →
        (SlideUpdate (CharacterOwner e) e s).CurrentParkourMode = EParkourMode.EPM_Slide) := by
  have hM : (SlideUpdate (CharacterOwner e) e s).CurrentParkourMode
      = (if e.Length s.Velocity < 35 then SlideEnd (CharacterOwner e) s
          else s).CurrentParkourMode := by
    simp only [SlideUpdate, hmode, if_true, AddForce]
    split_ifs <;> rfl
  refine ⟨SlideUpdate_slope_force e s hmode, ?_, ?_⟩
  · intro hv hq
    rw [hM, if_pos hv]
    exact SlideEnd_mode_of_Slide e s hmode hq
  · intro hv
    rw [hM, if_neg hv]
    exact hmode

/-- C13 at the failing input: on the slope, at speed 10, `SlideUpdate` ends
the slide and still records the slope force (80000, 0, -60000). -/
theorem SlideUpdate_force_in_both_cases_witness :
    downhill.CurrentParkourMode = EParkourMode.EPM_Slide
    ∧ exactWorld.Length downhill.Velocity = 10
    ∧ (SlideUpdate (CharacterOwner exactWorld) exactWorld downhill).CurrentParkourMode
        = EParkourMode.EPM_Crouch
    ∧ (SlideUpdate (CharacterOwner exactWorld) exactWorld downhill).Forces
        = [⟨80000, 0, -60000⟩] := by
  have hm : downhill.CurrentParkourMode = EParkourMode.EPM_Slide := sliding_mode.1
  have hq : downhill.bIsSprintQueued = false := sliding_queue.1
  have hlen : exactWorld.Length downhill.Velocity = 10 := by
    have h : ((10 : ℚ) * 10 + 0 * 0 + 0 * 0) = 10 * 10 := by norm_num
    simp only [exactWorld, downhill, FVector.SizeSquared]
    rw [h, Rat.sqrt_eq]
    norm_num [abs_of_pos]
  have h := SlideUpdate_force_in_both_cases exactWorld downhill hm
  refine ⟨hm, hlen, h.2.1 (by rw [hlen]; norm_num) hq, ?_⟩
  rw [h.1]
  have hf : downhill.Forces = [] := sliding_fields.1
  have hs : downhill.SlideSpeed = 1000 := sliding_fields.2.1
  have hx : downhill.SlideForceMultiplier = 100 := sliding_fields.2.2
  have hn : downhill.CurrentFloorNormal = ⟨3 / 5, 0, 4 / 5⟩ := rfl
  have hcross : FVector.CrossProduct (⟨3 / 5, 0, 4 / 5⟩ : FVector)
      (FVector.CrossProduct ⟨3 / 5, 0, 4 / 5⟩ FVector.UpVector) = ⟨12 / 25, 0, -9 / 25⟩ := by
    simp [FVector.CrossProduct, FVector.UpVector]
    norm_num
  have hsize : (⟨12 / 25, 0, -9 / 25⟩ : FVector).SizeSquared = (3 / 5) * (3 / 5) := by
    simp [FVector.SizeSquared]
    norm_num
  have hnormal : exactWorld.GetSafeNormal ⟨12 / 25, 0, -9 / 25⟩ = ⟨4 / 5, 0, -3 / 5⟩ := by
    simp only [exactWorld, hsize, Rat.sqrt_eq]
    norm_num [SMALL_NUMBER, FVector.scale, abs_of_pos]
  rw [hf, hs, hx, hn, hcross, hnormal]
  simp [FVector.scale]
  norm_num

/-! ## The capsule profile -/

/-- `ResetMovement` keeps the capsule and camera profile when the handler does. -/
theorem ResetMovement_Profile (Owner : FCharacterOwner)
    (hO : ∀ t m, Profile (Owner t m) = Profile t)
    (s : AParkourSystemCharacter) :
    Profile (ResetMovement Owner s) = Profile s := by
  unfold ResetMovement SetMovementMode
  simp only [bToWalking_eq_true, if_true]
  split_ifs
  · rfl
  · exact (hO _ _).trans rfl
  · rfl
  · exact (hO _ _).trans rfl
  · rfl

/-- `SetParkourMode` keeps the capsule and camera profile when the handler does. -/
theorem SetParkourMode_Profile (Owner : FCharacterOwner)
    (hO : ∀ t m, Profile (Owner t m) = Profile t)
    (s : AParkourSystemCharacter) (M : EParkourMode) :
    Profile ((SetParkourMode Owner s M).2) = Profile s := by
  unfold SetParkourMode
  split_ifs
  · rfl
  · exact ResetMovement_Profile Owner hO _

/-- `SetTimer` keeps the capsule and camera profile. -/
theorem SetTimer_Profile (s : AParkourSystemCharacter) (InRate : ℚ) :
    Profile (SetTimer s InRate) = Profile s := by
  unfold SetTimer
  simp only []
  split_ifs <;> rfl

/-- `SprintEnd` keeps the capsule and camera profile when the handler does. -/
theorem SprintEnd_Profile (Owner : FCharacterOwner)
    (hO : ∀ t m, Profile (Owner t m) = Profile t)
    (s : AParkourSystemCharacter) :
    Profile (SprintEnd Owner s) = Profile s := by
  unfold SprintEnd
  simp only []
  split_ifs
  · rw [SetTimer_Profile]
    exact SetParkourMode_Profile Owner hO s _
  · exact SetParkourMode_Profile Owner hO s _
  · rfl

/-- `SlideEnd` keeps the capsule and camera profile when the handler does. -/
theorem SlideEnd_Profile (Owner : FCharacterOwner)
    (hO : ∀ t m, Profile (Owner t m) = Profile t)
    (s : AParkourSystemCharacter) :
    Profile (SlideEnd Owner s) = Profile s := by
  unfold SlideEnd
  simp only []
  split_ifs
  · exact SetParkourMode_Profile Owner hO s _
  · exact SetParkourMode_Profile Owner hO s _
  · rfl

/-- `CrouchEnd` keeps the capsule and camera profile when the handler does. -/
theorem CrouchEnd_Profile (Owner : FCharacterOwner)
    (hO : ∀ t m, Profile (Owner t m) = Profile t)
    (e : Engine) (s : AParkourSystemCharacter) :
    Profile (CrouchEnd Owner e s) = Profile s := by
  unfold CrouchEnd
  simp only []
  split_ifs
  · exact SetParkourMode_Profile Owner hO s _
  · rfl

/-- `CrouchStart` keeps the capsule and camera profile when the handler does. -/
theorem CrouchStart_Profile (Owner : FCharacterOwner)
    (hO : ∀ t m, Profile (Owner t m) = Profile t)
    (s : AParkourSystemCharacter) :
    Profile (CrouchStart Owner s) = Profile s := by
  unfold CrouchStart
  simp only []
  split_ifs
  · exact SetParkourMode_Profile Owner hO s _
  · rfl

/-- `SprintStart` keeps the capsule and camera profile when the handler does. -/
theorem SprintStart_Profile (Owner : FCharacterOwner)
    (hO : ∀ t m, Profile (Owner t m) = Profile t)
    (e : Engine) (s : AParkourSystemCharacter) :
    Profile (SprintStart Owner e s) = Profile s := by
  have h : Profile (SlideEnd Owner (CrouchEnd Owner e s)) = Profile s := by
    rw [SlideEnd_Profile Owner hO, CrouchEnd_Profile Owner hO]
  unfold SprintStart
  simp only []
  split_ifs
  · exact (SetParkourMode_Profile Owner hO _ _).trans h
  · exact (SetParkourMode_Profile Owner hO _ _).trans h
  · exact h

/-- `SlideStart` keeps the capsule and camera profile when the handler does. -/
theorem SlideStart_Profile (Owner : FCharacterOwner)
    (hO : ∀ t m, Profile (Owner t m) = Profile t)
    (e : Engine) (s : AParkourSystemCharacter) :
    Profile (SlideStart Owner e s) = Profile s := by
  have h : Profile (SlideStart Owner e s)
      = if CanSlide s = true ∧ IsWalking s = true then
          Profile ((SetParkourMode Owner (SprintEnd Owner s) EParkourMode.EPM_Slide).2)
        else Profile s := by
    unfold SlideStart
    split_ifs <;> rfl
  rw [h, SetParkourMode_Profile Owner hO, SprintEnd_Profile Owner hO, ite_self]

/-- `SprintJump` keeps the capsule and camera profile when the handler does. -/
theorem SprintJump_Profile (Owner : FCharacterOwner)
    (hO : ∀ t m, Profile (Owner t m) = Profile t)
    (s : AParkourSystemCharacter) :
    Profile (SprintJump Owner s) = Profile s := by
  unfold SprintJump
  simp only []
  split_ifs
  · exact SprintEnd_Profile Owner hO s
  · rfl

/-- `CrouchJump` keeps the capsule and camera profile when the handler does. -/
theorem CrouchJump_Profile (Owner : FCharacterOwner)
    (hO : ∀ t m, Profile (Owner t m) = Profile t)
    (e : Engine) (s : AParkourSystemCharacter) :
    Profile (CrouchJump Owner e s) = Profile s := by
  unfold CrouchJump
  split_ifs
  · exact CrouchEnd_Profile Owner hO e s
  · rfl

/-- The sprint key keeps the capsule and camera profile when the handler does. -/
theorem Sprint_Profile (Owner : FCharacterOwner)
    (hO : ∀ t m, Profile (Owner t m) = Profile t)
    (e : Engine) (s : AParkourSystemCharacter) :
    Profile (Sprint Owner e s) = Profile s := by
  unfold Sprint
  split_ifs
  · exact SprintEnd_Profile Owner hO s
  · exact SprintStart_Profile Owner hO e s
  · rfl

/-- The crouch/slide key keeps the capsule and camera profile when the handler does. -/
theorem CrouchSlideKeyPressed_Profile (Owner : FCharacterOwner)
    (hO : ∀ t m, Profile (Owner t m) = Profile t)
    (e : Engine) (s : AParkourSystemCharacter) :
    Profile (CrouchSlideKeyPressed Owner e s) = Profile s := by
  unfold CrouchSlideKeyPressed CrouchToggle
  split_ifs
  · exact SlideStart_Profile Owner hO e s
  · rfl
  · exact CrouchStart_Profile Owner hO s
  · exact CrouchEnd_Profile Owner hO e s
  · rfl

/-- `SprintUpdate` keeps the capsule and camera profile when the handler does. -/
theorem SprintUpdate_Profile (Owner : FCharacterOwner)
    (hO : ∀ t m, Profile (Owner t m) = Profile t)
    (s : AParkourSystemCharacter) :
    Profile (SprintUpdate Owner s) = Profile s := by
  unfold SprintUpdate
  split_ifs
  · exact SprintEnd_Profile Owner hO s
  · rfl

/-- `SlideUpdate` keeps the capsule and camera profile when the handler does. -/
theorem SlideUpdate_Profile (Owner : FCharacterOwner)
    (hO : ∀ t m, Profile (Owner t m) = Profile t)
    (e : Engine) (s : AParkourSystemCharacter) :
    Profile (SlideUpdate Owner e s) = Profile s := by
  unfold SlideUpdate
  simp only []
  split_ifs
  · exact SlideEnd_Profile Owner hO s
  · exact SlideEnd_Profile Owner hO s
  · rfl
  · rfl
  · rfl

/-- `CheckQueues` keeps the capsule and camera profile when the handler does. -/
theorem CheckQueues_Profile (Owner : FCharacterOwner)
    (hO : ∀ t m, Profile (Owner t m) = Profile t)
    (e : Engine) (s : AParkourSystemCharacter) :
    Profile (CheckQueues Owner e s) = Profile s := by
  unfold CheckQueues
  split_ifs
  · exact SlideStart_Profile Owner hO e s
  · exact SprintStart_Profile Owner hO e s
  · rfl

/-- The expiry of a timer keeps the capsule and camera profile. -/
theorem TimerExpired_Profile (s : AParkourSystemCharacter) (Handle : Nat) :
    Profile (TimerExpired s Handle) = Profile s := by
  unfold TimerExpired
  split_ifs <;> rfl

/-- A movement-mode notification keeps the capsule and camera profile when the handler does. -/
theorem OnMovementModeChanged_Profile (Owner : FCharacterOwner)
    (hO : ∀ t m, Profile (Owner t m) = Profile t)
    (e : Engine) (s : AParkourSystemCharacter)
    (InPrevMovementMode : EMovementMode) :
    Profile (OnMovementModeChanged Owner e s InPrevMovementMode) = Profile s := by
  unfold OnMovementModeChanged
  simp only []
  split_ifs
  · exact (SlideEnd_Profile Owner hO _).trans ((SprintEnd_Profile Owner hO _).trans
      ((SprintJump_Profile Owner hO _).trans rfl))
  · exact (CheckQueues_Profile Owner hO e _).trans rfl
  · rfl

/-- The handler of the character keeps the capsule and camera profile. -/
theorem CharacterOwner_Profile (e : Engine) (t : AParkourSystemCharacter) (m : EMovementMode) :
    Profile (CharacterOwner e t m) = Profile t :=
  OnMovementModeChanged_Profile (Dispatch e 0) (fun _ _ => rfl) e t m


/-- `Jump` keeps the capsule and camera profile. -/
theorem Jump_Profile (e : Engine) (s : AParkourSystemCharacter) :
    Profile (Jump (CharacterOwner e) e s) = Profile s := by
  have h : Profile (SprintJump (CharacterOwner e) (CrouchJump (CharacterOwner e) e s))
      = Profile s := by
    rw [SprintJump_Profile _ (CharacterOwner_Profile e),
      CrouchJump_Profile _ (CharacterOwner_Profile e)]
  have hj : Profile (Jump (CharacterOwner e) e s)
      = if CanStand e s = false then Profile s
        else Profile (SprintJump (CharacterOwner e) (CrouchJump (CharacterOwner e) e s)) := by
    unfold Jump
    simp only []
    split_ifs <;> rfl
  rw [hj, h, ite_self]

/-- The interpolation factor lies between 0 and 1. -/
theorem Clamp_unit (X : ℚ) : 0 ≤ Clamp X 0 1 ∧ Clamp X 0 1 ≤ 1 := by
  unfold Clamp
  split_ifs with h1 h2
  · exact ⟨le_refl _, zero_le_one⟩
  · exact ⟨not_lt.mp h1, le_of_lt h2⟩
  · exact ⟨zero_le_one, le_refl _⟩

/-- One interpolation step from a value in an interval towards a target in
the interval stays in the interval. -/
theorem FInterpTo_mem (Lo Hi Current Target DeltaTime InterpSpeed : ℚ)
    (hc : Lo ≤ Current ∧ Current ≤ Hi) (ht : Lo ≤ Target ∧ Target ≤ Hi) :
    Lo ≤ FInterpTo Current Target DeltaTime InterpSpeed
    ∧ FInterpTo Current Target DeltaTime InterpSpeed ≤ Hi := by
  obtain ⟨h0, h1⟩ := Clamp_unit (DeltaTime * InterpSpeed)
  unfold FInterpTo
  generalize Clamp (DeltaTime * InterpSpeed) 0 1 = a at h0 h1
  have e1 : Current + (Target - Current) * a = (1 - a) * Current + a * Target := by ring
  rw [e1]
  have h2 : 0 ≤ 1 - a := by linarith
  constructor
  · have := mul_le_mul_of_nonneg_left hc.1 h2
    have := mul_le_mul_of_nonneg_left ht.1 h0
    nlinarith
  · have := mul_le_mul_of_nonneg_left hc.2 h2
    have := mul_le_mul_of_nonneg_left ht.2 h0
    nlinarith

/-- `CrouchUpdate` keeps the crouched and the standing half-height, and keeps
the capsule half-height between them. -/
theorem CrouchUpdate_InRange (s : AParkourSystemCharacter)
    (hle : s.CrouchCapsuleHalfHeight ≤ s.StandingCapsuleHalfHeight)
    (h : (Profile s).InRange) :
    (CrouchUpdate s).CrouchCapsuleHalfHeight = s.CrouchCapsuleHalfHeight
    ∧ (CrouchUpdate s).StandingCapsuleHalfHeight = s.StandingCapsuleHalfHeight
    ∧ (Profile (CrouchUpdate s)).InRange := by
  have hc := FInterpTo_mem s.CrouchCapsuleHalfHeight s.StandingCapsuleHalfHeight
    s.CapsuleHalfHeight s.CrouchCapsuleHalfHeight s.DeltaSeconds 10 h ⟨le_refl _, hle⟩
  have hs := FInterpTo_mem s.CrouchCapsuleHalfHeight s.StandingCapsuleHalfHeight
    s.CapsuleHalfHeight s.StandingCapsuleHalfHeight s.DeltaSeconds 10 h ⟨hle, le_refl _⟩
  unfold CrouchUpdate
  simp only []
  split_ifs
  · exact ⟨rfl, rfl, hc⟩
  · exact ⟨rfl, rfl, hs⟩

/-- `Tick` is `CrouchUpdate` on a state with the profile of the state it
started from. -/
theorem Tick_eq_CrouchUpdate (e : Engine) (s : AParkourSystemCharacter) (DeltaTime : ℚ) :
    ∃ t : AParkourSystemCharacter,
      Profile t = Profile s ∧ Tick (CharacterOwner e) e s DeltaTime = CrouchUpdate t := by
  refine ⟨if (if s.bCanSprint = true then SprintUpdate (CharacterOwner e) s
        else s).bCanSlide = true then
      SlideUpdate (CharacterOwner e) e
        (if s.bCanSprint = true then SprintUpdate (CharacterOwner e) s else s)
    else (if s.bCanSprint = true then SprintUpdate (CharacterOwner e) s else s), ?_, rfl⟩
  have h1 : Profile (if s.bCanSprint = true then SprintUpdate (CharacterOwner e) s else s) = Profile s := by
    split_ifs
    · exact SprintUpdate_Profile _ (CharacterOwner_Profile e) s
    · rfl
  split_ifs
  · rw [SlideUpdate_Profile _ (CharacterOwner_Profile e), SprintUpdate_Profile _ (CharacterOwner_Profile e)]
  · rw [SprintUpdate_Profile _ (CharacterOwner_Profile e)]
  · rw [SlideUpdate_Profile _ (CharacterOwner_Profile e)]
  · rfl

/-- One operation keeps the crouched and the standing half-height, and keeps
the capsule half-height between them. -/
theorem step_InRange (e : Engine) (s : AParkourSystemCharacter) (op : Operation)
    (hle : s.CrouchCapsuleHalfHeight ≤ s.StandingCapsuleHalfHeight)
    (h : (Profile s).InRange) :
    (step e s op).CrouchCapsuleHalfHeight = s.CrouchCapsuleHalfHeight
    ∧ (step e s op).StandingCapsuleHalfHeight = s.StandingCapsuleHalfHeight
    ∧ (Profile (step e s op)).InRange := by
  have same : ∀ t : AParkourSystemCharacter, Profile t = Profile s →
      t.CrouchCapsuleHalfHeight = s.CrouchCapsuleHalfHeight
      ∧ t.StandingCapsuleHalfHeight = s.StandingCapsuleHalfHeight
      ∧ (Profile t).InRange := by
    intro t ht
    refine ⟨congrArg FProfile.CrouchCapsuleHalfHeight ht,
      congrArg FProfile.StandingCapsuleHalfHeight ht, ?_⟩
    rw [ht]
    exact h
  cases op with
  | Sprint => exact same _ (Sprint_Profile _ (CharacterOwner_Profile e) e s)
  | SprintStart => exact same _ (SprintStart_Profile _ (CharacterOwner_Profile e) e s)
  | CrouchSlideKeyPressed => exact same _ (CrouchSlideKeyPressed_Profile _ (CharacterOwner_Profile e) e s)
  | Jump => exact same _ (Jump_Profile e s)
  | Tick DeltaTime =>
      obtain ⟨t, ht, heq⟩ := Tick_eq_CrouchUpdate e s DeltaTime
      obtain ⟨h1, h2, h3⟩ := same t ht
      have hu := CrouchUpdate_InRange t (by rw [h1, h2]; exact hle) h3
      simp only [step, heq]
      exact ⟨hu.1.trans h1, hu.2.1.trans h2, hu.2.2⟩
  | MovementModeChanged InPrevMovementMode NewMovementMode =>
      exact same _ ((OnMovementModeChanged_Profile _ (CharacterOwner_Profile e) e _ InPrevMovementMode).trans rfl)
  | TimerExpired Handle => exact same _ (TimerExpired_Profile s Handle)
  | Simulate u => exact same _ rfl

/-- A sequence of operations keeps the crouched and the standing half-height,
and keeps the capsule half-height between them. -/
theorem run_InRange (e : Engine) (ops : List Operation) :
    ∀ s : AParkourSystemCharacter,
      s.CrouchCapsuleHalfHeight ≤ s.StandingCapsuleHalfHeight → (Profile s).InRange →
        (run e s ops).CrouchCapsuleHalfHeight = s.CrouchCapsuleHalfHeight
        ∧ (run e s ops).StandingCapsuleHalfHeight = s.StandingCapsuleHalfHeight
        ∧ (Profile (run e s ops)).InRange := by
  induction ops with
  | nil =>
      intro s _ h
      exact ⟨rfl, rfl, h⟩
  | cons op ops ih =>
      intro s hle h
      obtain ⟨h1, h2, h3⟩ := step_InRange e s op hle h
      obtain ⟨k1, k2, k3⟩ := ih (step e s op) (by rw [h1, h2]; exact hle) h3
      have hrun : run e s (op :: ops) = run e (step e s op) ops := rfl
      rw [hrun]
      exact ⟨k1.trans h1, k2.trans h2, k3⟩

/-- C16: when the crouched half-height is at most the standing one and the
capsule half-height starts at the standing one, then after every sequence of
operations (ticks, mode changes, physics updates with any frame time) the
capsule half-height lies between the crouched and the standing half-height,
and so it does after one more `CrouchUpdate`. -/
theorem capsule_half_height_in_range (e : Engine) (s : AParkourSystemCharacter)
    (ops : List Operation)
    (hle : s.CrouchCapsuleHalfHeight ≤ s.StandingCapsuleHalfHeight)
    (hstart : s.CapsuleHalfHeight = s.StandingCapsuleHalfHeight) :
    (s.CrouchCapsuleHalfHeight ≤ (run e s ops).CapsuleHalfHeight
      ∧ (run e s ops).CapsuleHalfHeight ≤ s.StandingCapsuleHalfHeight)
    ∧ (s.CrouchCapsuleHalfHeight ≤ (CrouchUpdate (run e s ops)).CapsuleHalfHeight
      ∧ (CrouchUpdate (run e s ops)).CapsuleHalfHeight ≤ s.StandingCapsuleHalfHeight) := by
  have h0 : (Profile s).InRange := ⟨by rw [show (Profile s).CapsuleHalfHeight
    = s.StandingCapsuleHalfHeight from hstart]; exact hle, le_of_eq hstart⟩
  obtain ⟨h1, h2, h3⟩ := run_InRange e ops s hle h0
  obtain ⟨k1, k2, k3⟩ := CrouchUpdate_InRange (run e s ops) (by rw [h1, h2]; exact hle) h3
  have a : s.CrouchCapsuleHalfHeight ≤ (run e s ops).CapsuleHalfHeight := by
    rw [← h1]
    exact h3.1
  have b : (run e s ops).CapsuleHalfHeight ≤ s.StandingCapsuleHalfHeight := by
    rw [← h2]
    exact h3.2
  have c : s.CrouchCapsuleHalfHeight ≤ (CrouchUpdate (run e s ops)).CapsuleHalfHeight := by
    rw [← h1, ← k1]
    exact k3.1
  have d : (CrouchUpdate (run e s ops)).CapsuleHalfHeight ≤ s.StandingCapsuleHalfHeight := by
    rw [← h2, ← k2]
    exact k3.2
  exact ⟨⟨a, b⟩, ⟨c, d⟩⟩

/-- C16 at a concrete input: the standing character (half-heights 35 and 96)
crouches and ticks twice; its capsule stays between 35 and 96. -/
theorem capsule_half_height_in_range_witness :
    standing.CrouchCapsuleHalfHeight = 35 ∧ standing.StandingCapsuleHalfHeight = 96
    ∧ 35 ≤ (run openWorld standing
        [Operation.CrouchSlideKeyPressed, Operation.Tick 0, Operation.Tick 0]).CapsuleHalfHeight
    ∧ (run openWorld standing
        [Operation.CrouchSlideKeyPressed, Operation.Tick 0, Operation.Tick 0]).CapsuleHalfHeight
        ≤ 96 := by
  have h35 : standing.CrouchCapsuleHalfHeight = 35 := rfl
  have h96 : standing.StandingCapsuleHalfHeight = 96 := rfl
  have h := (capsule_half_height_in_range openWorld standing
    [Operation.CrouchSlideKeyPressed, Operation.Tick 0, Operation.Tick 0]
    (by rw [h35, h96]; norm_num) rfl).1
  rw [h35, h96] at h
  exact ⟨h35, h96, h⟩

/-! ## The mode state stays consistent -/

/-- Consistency is a property of the mode state alone. -/
theorem ModeInv_of_ModeState_eq (s t : AParkourSystemCharacter)
    (h : ModeState t = ModeState s) (hs : ModeInv s) : ModeInv t := by
  unfold ModeInv
  rw [h]
  exact hs

/-- In a consistent state outside None the handler finds nothing to flush. -/
theorem not_Flushes_of_ModeInv (s : AParkourSystemCharacter) (h : ModeInv s)
    (hm : s.CurrentParkourMode ≠ EParkourMode.EPM_None) : ¬ Flushes s :=
  not_Flushes_of_mode s h.1 hm

/-- `SprintEnd` keeps the mode state consistent. -/
theorem SprintEnd_ModeInv (e : Engine) (s : AParkourSystemCharacter) (h : ModeInv s) :
    ModeInv (SprintEnd (CharacterOwner e) s) := by
  by_cases hm : s.CurrentParkourMode = EParkourMode.EPM_Sprint
  · rw [SprintEnd_of_Sprint e s hm (not_Flushes_of_ModeInv s h (by rw [hm]; decide)),
      SetTimer_of_pos _ _ (by norm_num)]
    simp [ModeInv, ModeState, FModeState.Consistent, allowedModePair, hm] at h ⊢
    exact h.2.2.1
  · rw [SprintEnd_of_ne _ s hm]
    exact h

/-- `SlideEnd` keeps the mode state consistent. -/
theorem SlideEnd_ModeInv (e : Engine) (s : AParkourSystemCharacter) (h : ModeInv s) :
    ModeInv (SlideEnd (CharacterOwner e) s) := by
  by_cases hm : s.CurrentParkourMode = EParkourMode.EPM_Slide
  · rw [SlideEnd_of_Slide e s hm (not_Flushes_of_ModeInv s h (by rw [hm]; decide))]
    simp [ModeInv, ModeState, FModeState.Consistent, allowedModePair, hm] at h ⊢
    exact ⟨h.1, h.2.1⟩
  · rw [SlideEnd_of_ne _ s hm]
    exact h

/-- `CrouchEnd` keeps the mode state consistent. -/
theorem CrouchEnd_ModeInv (e : Engine) (s : AParkourSystemCharacter) (h : ModeInv s) :
    ModeInv (CrouchEnd (CharacterOwner e) e s) := by
  by_cases hm : s.CurrentParkourMode = EParkourMode.EPM_Crouch
  · cases hs : CanStand e s
    · rw [CrouchEnd_of_blocked _ e s hs]
      exact h
    · rw [CrouchEnd_of_Crouch e s hm hs (not_Flushes_of_ModeInv s h (by rw [hm]; decide))]
      simp [ModeInv, ModeState, FModeState.Consistent, allowedModePair, hm] at h ⊢
      exact h.2.2.1
  · rw [CrouchEnd_of_ne _ e s hm]
    exact h

/-- `CrouchStart`, reached when the conditions of a slide fail, keeps the mode
state consistent: with a sprint queued in the air the handler starts the
sprint from inside `CrouchStart`, and the character ends up sprinting. -/
theorem CrouchStart_ModeInv (e : Engine) (s : AParkourSystemCharacter) (h : ModeInv s)
    (hc : CanSlide s = false) : ModeInv (CrouchStart (CharacterOwner e) s) := by
  by_cases hm : s.CurrentParkourMode = EParkourMode.EPM_None
  · by_cases hcalm : Flushes s
    · obtain ⟨hf, hq, hfw⟩ := hcalm
      have hsl : s.bIsSlideQueued = false := by
        cases hb : s.bIsSlideQueued
        · rfl
        · have hfi := hfw hb
          simp [CanSlide, hfi, hq] at hc
      cases hs : CanStand e s
      · rw [CrouchStart_of_blocked e s hm hsl hs]
        simp [ModeInv, ModeState, FModeState.Consistent, allowedModePair, hm] at h ⊢
        exact h.1
      · rw [(CrouchStart_of_flush e s hm hf hq hsl hs).2]
        simp [ModeInv, ModeState, FModeState.Consistent, allowedModePair, hm] at h ⊢
        exact h.1
    · rw [CrouchStart_of_None e s hm hcalm]
      simp [ModeInv, ModeState, FModeState.Consistent, allowedModePair, hm] at h ⊢
      exact h.1
  · rw [CrouchStart_of_ne _ s hm]
    exact h

/-- `SprintStart` keeps the mode state consistent. -/
theorem SprintStart_ModeInv (e : Engine) (s : AParkourSystemCharacter) (h : ModeInv s) :
    ModeInv (SprintStart (CharacterOwner e) e s) := by
  cases hm : s.CurrentParkourMode
  · cases hw : IsWalking s
    · rw [SprintStart_of_None_not_walking _ e s hm hw]
      exact h
    · rw [SprintStart_of_None_walking _ e s hm hw]
      simp [ModeInv, ModeState, FModeState.Consistent, allowedModePair, hm] at h ⊢
      exact h.1
  · rw [SprintStart_of_Sprint _ e s hm]
    exact h
  · cases hs : CanStand e s
    · rw [SprintStart_of_Crouch_blocked _ e s hm hs]
      exact h
    · rw [SprintStart_of_Crouch e s hm hs (not_Flushes_of_ModeInv s h (by rw [hm]; decide))]
      simp [ModeInv, ModeState, FModeState.Consistent, allowedModePair, hm] at h ⊢
      exact h.2.2.1
  · rw [SprintStart_eq_SlideEnd e s hm]
    exact SlideEnd_ModeInv e s h

/-- `SprintJump` keeps the mode state consistent. -/
theorem SprintJump_ModeInv (e : Engine) (s : AParkourSystemCharacter) (h : ModeInv s) :
    ModeInv (SprintJump (CharacterOwner e) s) := by
  by_cases hm : s.CurrentParkourMode = EParkourMode.EPM_Sprint
  · have hj : SprintJump (CharacterOwner e) s
        = { SprintEnd (CharacterOwner e) s with bIsSprintQueued := true } := by
      simp only [SprintJump, hm, if_true]
    rw [hj, SprintEnd_of_Sprint e s hm (not_Flushes_of_ModeInv s h (by rw [hm]; decide)),
      SetTimer_of_pos _ _ (by norm_num)]
    simp [ModeInv, ModeState, FModeState.Consistent, allowedModePair, hm] at h ⊢
    exact h.2.2.1
  · have hj : SprintJump (CharacterOwner e) s = s := by simp [SprintJump, hm]
    rw [hj]
    exact h

/-- `SlideStart` keeps the mode state consistent. -/
theorem SlideStart_ModeInv (e : Engine) (s : AParkourSystemCharacter) (h : ModeInv s) :
    ModeInv (SlideStart (CharacterOwner e) e s) := by
  by_cases hp : CanSlide s = true ∧ IsWalking s = true
  · obtain ⟨hc, hw⟩ := hp
    by_cases hm : s.CurrentParkourMode = EParkourMode.EPM_Sprint
    · have hend := SprintEnd_of_Sprint e s hm (not_Flushes_of_IsWalking s hw)
      rw [SetTimer_of_pos _ _ (by norm_num)] at hend
      simp only [SlideStart, hc, hw, and_self, if_true, hend]
      rw [SetParkourMode_of_ne _ _ _ (by simp), ResetMovement_of_not _ _ (Or.inr rfl)]
      simp [AddImpulse, EnableSlide, ModeInv, ModeState, FModeState.Consistent,
        allowedModePair]
    · have hq : s.bIsSprintQueued = true := by
        simp [CanSlide, hm] at hc
        exact hc.2
      have hn : s.CurrentParkourMode = EParkourMode.EPM_None := h.1 hq
      simp only [SlideStart, hc, hw, and_self, if_true, SprintEnd_of_ne _ s hm]
      rw [SetParkourMode_of_ne _ _ _ (by rw [hn]; decide), ResetMovement_of_not _ _ (Or.inr rfl)]
      simp [AddImpulse, EnableSlide, ModeInv, ModeState, FModeState.Consistent,
        allowedModePair, hn]
  · rw [SlideStart_of_not _ e s hp]
    exact h

/-- `CrouchJump` keeps the mode state consistent. -/
theorem CrouchJump_ModeInv (e : Engine) (s : AParkourSystemCharacter) (h : ModeInv s) :
    ModeInv (CrouchJump (CharacterOwner e) e s) := by
  unfold CrouchJump
  split_ifs
  · exact CrouchEnd_ModeInv e s h
  · exact h

/-- `CrouchToggle`, reached when the conditions of a slide fail, keeps the
mode state consistent. -/
theorem CrouchToggle_ModeInv (e : Engine) (s : AParkourSystemCharacter) (h : ModeInv s)
    (hc : CanSlide s = false) : ModeInv (CrouchToggle (CharacterOwner e) e s) := by
  unfold CrouchToggle
  split_ifs
  · exact CrouchStart_ModeInv e s h hc
  · exact CrouchEnd_ModeInv e s h
  · exact h

/-- The sprint key keeps the mode state consistent. -/
theorem Sprint_ModeInv (e : Engine) (s : AParkourSystemCharacter) (h : ModeInv s) :
    ModeInv (Sprint (CharacterOwner e) e s) := by
  unfold Sprint
  split_ifs
  · exact SprintEnd_ModeInv e s h
  · exact SprintStart_ModeInv e s h
  · exact h

/-- The crouch/slide key keeps the mode state consistent. -/
theorem CrouchSlideKeyPressed_ModeInv (e : Engine) (s : AParkourSystemCharacter)
    (h : ModeInv s) : ModeInv (CrouchSlideKeyPressed (CharacterOwner e) e s) := by
  unfold CrouchSlideKeyPressed
  split_ifs with hc hw
  · exact SlideStart_ModeInv e s h
  · have hmode : s.CurrentParkourMode = EParkourMode.EPM_None
        ∨ s.CurrentParkourMode = EParkourMode.EPM_Sprint := by
      by_cases hm : s.CurrentParkourMode = EParkourMode.EPM_Sprint
      · exact Or.inr hm
      · simp [CanSlide, hm] at hc
        exact Or.inl (h.1 hc.2)
    obtain ⟨h1, _, h3, h4, h5⟩ := h
    exact ⟨h1, fun _ => hmode, h3, h4, h5⟩
  · exact CrouchToggle_ModeInv e s h (by simpa using hc)

/-- `SprintUpdate` keeps the mode state consistent. -/
theorem SprintUpdate_ModeInv (e : Engine) (s : AParkourSystemCharacter) (h : ModeInv s) :
    ModeInv (SprintUpdate (CharacterOwner e) s) := by
  unfold SprintUpdate
  split_ifs
  · exact SprintEnd_ModeInv e s h
  · exact h

/-- `SlideUpdate` keeps the mode state consistent. -/
theorem SlideUpdate_ModeInv (e : Engine) (s : AParkourSystemCharacter) (h : ModeInv s) :
    ModeInv (SlideUpdate (CharacterOwner e) e s) := by
  have hv : ModeState (SlideUpdate (CharacterOwner e) e s)
      = if s.CurrentParkourMode = EParkourMode.EPM_Slide then
          ModeState (if e.Length s.Velocity < 35 then SlideEnd (CharacterOwner e) s else s)
        else ModeState s := by
    unfold SlideUpdate
    simp only []
    split_ifs <;> rfl
  unfold ModeInv
  rw [hv]
  split_ifs
  · exact SlideEnd_ModeInv e s h
  · exact h
  · exact h

/-- `CheckQueues` keeps the mode state consistent. -/
theorem CheckQueues_ModeInv (e : Engine) (s : AParkourSystemCharacter) (h : ModeInv s) :
    ModeInv (CheckQueues (CharacterOwner e) e s) := by
  unfold CheckQueues
  split_ifs
  · exact SlideStart_ModeInv e s h
  · exact SprintStart_ModeInv e s h
  · exact h

/-- `Jump` keeps the mode state consistent. -/
theorem Jump_ModeInv (e : Engine) (s : AParkourSystemCharacter) (h : ModeInv s) :
    ModeInv (Jump (CharacterOwner e) e s) := by
  have hv : ModeState (Jump (CharacterOwner e) e s)
      = if CanStand e s = false then ModeState s
        else ModeState (SprintJump (CharacterOwner e) (CrouchJump (CharacterOwner e) e s)) := by
    unfold Jump
    simp only []
    split_ifs <;> rfl
  unfold ModeInv
  rw [hv]
  split_ifs
  · exact h
  · exact SprintJump_ModeInv e _ (CrouchJump_ModeInv e s h)

/-- `Tick` keeps the mode state consistent. -/
theorem Tick_ModeInv (e : Engine) (s : AParkourSystemCharacter) (DeltaTime : ℚ)
    (h : ModeInv s) : ModeInv (Tick (CharacterOwner e) e s DeltaTime) := by
  have hc : ∀ t : AParkourSystemCharacter, ModeInv t → ModeInv (CrouchUpdate t) := by
    intro t ht
    refine ModeInv_of_ModeState_eq t _ ?_ ht
    unfold CrouchUpdate
    simp only []
    split_ifs <;> rfl
  have h1 : ModeInv (if s.bCanSprint = true then SprintUpdate (CharacterOwner e) s else s) := by
    split_ifs
    · exact SprintUpdate_ModeInv e s h
    · exact h
  have h2 : ∀ t : AParkourSystemCharacter, ModeInv t →
      ModeInv (if t.bCanSlide = true then SlideUpdate (CharacterOwner e) e t else t) := by
    intro t ht
    split_ifs
    · exact SlideUpdate_ModeInv e t ht
    · exact ht
  exact hc _ (h2 _ h1)

/-- A movement-mode notification keeps the mode state consistent. -/
theorem OnMovementModeChanged_ModeInv (e : Engine) (s : AParkourSystemCharacter)
    (InPrevMovementMode : EMovementMode) (h : ModeInv s) :
    ModeInv (OnMovementModeChanged (CharacterOwner e) e s InPrevMovementMode) := by
  unfold OnMovementModeChanged
  simp only []
  split_ifs
  · exact SlideEnd_ModeInv e _ (SprintEnd_ModeInv e _ (SprintJump_ModeInv e _ h))
  · exact CheckQueues_ModeInv e _ h
  · exact h

/-- The expiry of a timer keeps the mode state consistent. -/
theorem TimerExpired_ModeInv (s : AParkourSystemCharacter) (Handle : Nat) (h : ModeInv s) :
    ModeInv (TimerExpired s Handle) := by
  unfold TimerExpired
  split_ifs
  · obtain ⟨h1, h2, _, h4, h5⟩ := h
    exact ⟨h1, h2, fun _ => rfl, h4, h5⟩
  · exact h

/-- One operation keeps the mode state consistent. -/
theorem step_ModeInv (e : Engine) (s : AParkourSystemCharacter) (op : Operation)
    (h : ModeInv s) : ModeInv (step e s op) := by
  cases op with
  | Sprint => exact Sprint_ModeInv e s h
  | SprintStart => exact SprintStart_ModeInv e s h
  | CrouchSlideKeyPressed => exact CrouchSlideKeyPressed_ModeInv e s h
  | Jump => exact Jump_ModeInv e s h
  | Tick DeltaTime => exact Tick_ModeInv e s DeltaTime h
  | MovementModeChanged InPrevMovementMode NewMovementMode =>
      exact OnMovementModeChanged_ModeInv e _ InPrevMovementMode h
  | TimerExpired Handle => exact TimerExpired_ModeInv s Handle h
  | Simulate u => exact h

/-- An initial state has a consistent mode state. -/
theorem IsInitial_ModeInv (s : AParkourSystemCharacter) (h : IsInitial s) : ModeInv s := by
  obtain ⟨u, _, rfl⟩ := h
  simp [ModeInv, ModeState, FModeState.Consistent, allowedModePair, BeginPlay, Constructor]

/-- Every reachable state has a consistent mode state. -/
theorem Reachable_ModeInv (e : Engine) (s : AParkourSystemCharacter) (h : Reachable e s) :
    ModeInv s := by
  induction h with
  | start s hs => exact IsInitial_ModeInv s hs
  | next s op _ ih => exact step_ModeInv e s op ih

/-! ## The timer state stays consistent -/

/-- Consistency of the timers is a property of the timer state alone. -/
theorem TimerInv_of_TimerState_eq (s t : AParkourSystemCharacter)
    (h : TimerState t = TimerState s) (hs : TimerInv s) : TimerInv t := by
  have h1 : t.Timers = s.Timers := congrArg Prod.fst h
  have h2 : t.SprintTimerHandle = s.SprintTimerHandle := congrArg (fun p => p.2.1) h
  have h3 : t.LastAssignedHandle = s.LastAssignedHandle := congrArg (fun p => p.2.2) h
  unfold TimerInv
  rw [h1, h2, h3]
  exact hs

/-- In a consistent timer state no pending timer survives the clearing of
the timer under `SprintTimerHandle`. -/
theorem cleared_eq_nil (s : AParkourSystemCharacter) (h : TimerInv s) :
    s.Timers.filter (fun t => decide (t.Handle ≠ s.SprintTimerHandle)) = [] := by
  rw [List.filter_eq_nil_iff]
  intro t ht
  simp [(h.2 t ht).1]

/-- `SetTimer` with a positive rate leaves exactly its own timer pending. -/
theorem SetTimer_Timers (s : AParkourSystemCharacter) (InRate : ℚ) (hr : 0 < InRate)
    (h : TimerInv s) :
    (SetTimer s InRate).Timers = [{ Handle := s.LastAssignedHandle + 1, Remaining := InRate }]
    ∧ (SetTimer s InRate).SprintTimerHandle = s.LastAssignedHandle + 1
    ∧ (SetTimer s InRate).LastAssignedHandle = s.LastAssignedHandle + 1 := by
  rw [SetTimer_of_pos s InRate hr]
  refine ⟨?_, rfl, rfl⟩
  show s.Timers.filter (fun t => decide (t.Handle ≠ s.SprintTimerHandle))
      ++ [{ Handle := s.LastAssignedHandle + 1, Remaining := InRate }] = _
  rw [cleared_eq_nil s h]
  rfl

/-- `SetTimer` with a positive rate keeps the timer state consistent. -/
theorem SetTimer_TimerInv (s : AParkourSystemCharacter) (InRate : ℚ) (hr : 0 < InRate)
    (h : TimerInv s) : TimerInv (SetTimer s InRate) := by
  obtain ⟨h1, h2, h3⟩ := SetTimer_Timers s InRate hr h
  unfold TimerInv
  rw [h1, h2, h3]
  simp

/-- `ResetMovement` keeps the timer state consistent when the handler does. -/
theorem ResetMovement_TimerInv (Owner : FCharacterOwner)
    (hO : ∀ t m, TimerInv t → TimerInv (Owner t m))
    (s : AParkourSystemCharacter) (h : TimerInv s) : TimerInv (ResetMovement Owner s) := by
  unfold ResetMovement SetMovementMode
  simp only [bToWalking_eq_true, if_true]
  split_ifs
  · exact h
  · exact hO _ _ h
  · exact h
  · exact hO _ _ h
  · exact h

/-- `SetParkourMode` keeps the timer state consistent when the handler
does. -/
theorem SetParkourMode_TimerInv (Owner : FCharacterOwner)
    (hO : ∀ t m, TimerInv t → TimerInv (Owner t m))
    (s : AParkourSystemCharacter) (M : EParkourMode) (h : TimerInv s) :
    TimerInv (SetParkourMode Owner s M).2 := by
  unfold SetParkourMode
  split_ifs
  · exact h
  · exact ResetMovement_TimerInv Owner hO _ h

/-- `SprintEnd` keeps the timer state consistent when the handler does. -/
theorem SprintEnd_TimerInv (Owner : FCharacterOwner)
    (hO : ∀ t m, TimerInv t → TimerInv (Owner t m))
    (s : AParkourSystemCharacter) (h : TimerInv s) : TimerInv (SprintEnd Owner s) := by
  unfold SprintEnd
  simp only []
  split_ifs
  · exact SetTimer_TimerInv _ _ (by norm_num) (SetParkourMode_TimerInv Owner hO s _ h)
  · exact SetParkourMode_TimerInv Owner hO s _ h
  · exact h

/-- `SlideEnd` keeps the timer state consistent when the handler does. -/
theorem SlideEnd_TimerInv (Owner : FCharacterOwner)
    (hO : ∀ t m, TimerInv t → TimerInv (Owner t m))
    (s : AParkourSystemCharacter) (h : TimerInv s) : TimerInv (SlideEnd Owner s) := by
  unfold SlideEnd
  simp only []
  split_ifs
  · exact SetParkourMode_TimerInv Owner hO s _ h
  · exact SetParkourMode_TimerInv Owner hO s _ h
  · exact h

/-- `CrouchEnd` keeps the timer state consistent when the handler does. -/
theorem CrouchEnd_TimerInv (Owner : FCharacterOwner)
    (hO : ∀ t m, TimerInv t → TimerInv (Owner t m))
    (e : Engine) (s : AParkourSystemCharacter) (h : TimerInv s) :
    TimerInv (CrouchEnd Owner e s) := by
  unfold CrouchEnd
  simp only []
  split_ifs
  · exact SetParkourMode_TimerInv Owner hO s _ h
  · exact h

/-- `CrouchStart` keeps the timer state consistent when the handler does. -/
theorem CrouchStart_TimerInv (Owner : FCharacterOwner)
    (hO : ∀ t m, TimerInv t → TimerInv (Owner t m))
    (s : AParkourSystemCharacter) (h : TimerInv s) : TimerInv (CrouchStart Owner s) := by
  unfold CrouchStart
  simp only []
  split_ifs
  · exact SetParkourMode_TimerInv Owner hO s _ h
  · exact h

/-- `SprintStart` keeps the timer state consistent when the handler does. -/
theorem SprintStart_TimerInv (Owner : FCharacterOwner)
    (hO : ∀ t m, TimerInv t → TimerInv (Owner t m))
    (e : Engine) (s : AParkourSystemCharacter) (h : TimerInv s) :
    TimerInv (SprintStart Owner e s) := by
  have h2 : TimerInv (SlideEnd Owner (CrouchEnd Owner e s)) :=
    SlideEnd_TimerInv Owner hO _ (CrouchEnd_TimerInv Owner hO e s h)
  unfold SprintStart
  simp only []
  split_ifs
  · exact SetParkourMode_TimerInv Owner hO _ _ h2
  · exact SetParkourMode_TimerInv Owner hO _ _ h2
  · exact h2

/-- `SlideStart` keeps the timer state consistent when the handler does. -/
theorem SlideStart_TimerInv (Owner : FCharacterOwner)
    (hO : ∀ t m, TimerInv t → TimerInv (Owner t m))
    (e : Engine) (s : AParkourSystemCharacter) (h : TimerInv s) :
    TimerInv (SlideStart Owner e s) := by
  have hv : TimerState (SlideStart Owner e s)
      = if CanSlide s = true ∧ IsWalking s = true then
          TimerState (SetParkourMode Owner (SprintEnd Owner s) EParkourMode.EPM_Slide).2
        else TimerState s := by
    unfold SlideStart
    split_ifs <;> rfl
  by_cases hp : CanSlide s = true ∧ IsWalking s = true
  · rw [if_pos hp] at hv
    exact TimerInv_of_TimerState_eq _ _ hv
      (SetParkourMode_TimerInv Owner hO _ _ (SprintEnd_TimerInv Owner hO s h))
  · rw [if_neg hp] at hv
    exact TimerInv_of_TimerState_eq s _ hv h

/-- `SprintJump` keeps the timer state consistent when the handler does. -/
theorem SprintJump_TimerInv (Owner : FCharacterOwner)
    (hO : ∀ t m, TimerInv t → TimerInv (Owner t m))
    (s : AParkourSystemCharacter) (h : TimerInv s) : TimerInv (SprintJump Owner s) := by
  unfold SprintJump
  simp only []
  split_ifs
  · exact SprintEnd_TimerInv Owner hO s h
  · exact h

/-- `CheckQueues` keeps the timer state consistent when the handler does. -/
theorem CheckQueues_TimerInv (Owner : FCharacterOwner)
    (hO : ∀ t m, TimerInv t → TimerInv (Owner t m))
    (e : Engine) (s : AParkourSystemCharacter) (h : TimerInv s) :
    TimerInv (CheckQueues Owner e s) := by
  unfold CheckQueues
  split_ifs
  · exact SlideStart_TimerInv Owner hO e s h
  · exact SprintStart_TimerInv Owner hO e s h
  · exact h

/-- A movement-mode notification keeps the timer state consistent when the
handler called from inside it does. -/
theorem OnMovementModeChanged_TimerInv (Owner : FCharacterOwner)
    (hO : ∀ t m, TimerInv t → TimerInv (Owner t m))
    (e : Engine) (s : AParkourSystemCharacter)
    (InPrevMovementMode : EMovementMode) (h : TimerInv s) :
    TimerInv (OnMovementModeChanged Owner e s InPrevMovementMode) := by
  unfold OnMovementModeChanged
  simp only []
  split_ifs
  · exact SlideEnd_TimerInv Owner hO _
      (SprintEnd_TimerInv Owner hO _ (SprintJump_TimerInv Owner hO _ h))
  · exact CheckQueues_TimerInv Owner hO e _ h
  · exact h

/-- The handler of the character keeps the timer state consistent. -/
theorem CharacterOwner_TimerInv (e : Engine) (t : AParkourSystemCharacter) (m : EMovementMode)
    (h : TimerInv t) : TimerInv (CharacterOwner e t m) :=
  OnMovementModeChanged_TimerInv (Dispatch e 0) (fun _ _ ht => ht) e t m h

/-- The sprint key keeps the timer state consistent. -/
theorem Sprint_TimerInv (e : Engine) (s : AParkourSystemCharacter) (h : TimerInv s) :
    TimerInv (Sprint (CharacterOwner e) e s) := by
  unfold Sprint
  split_ifs
  · exact SprintEnd_TimerInv _ (CharacterOwner_TimerInv e) s h
  · exact SprintStart_TimerInv _ (CharacterOwner_TimerInv e) e s h
  · exact h

/-- The crouch/slide key keeps the timer state consistent. -/
theorem CrouchSlideKeyPressed_TimerInv (e : Engine) (s : AParkourSystemCharacter)
    (h : TimerInv s) : TimerInv (CrouchSlideKeyPressed (CharacterOwner e) e s) := by
  unfold CrouchSlideKeyPressed CrouchToggle
  split_ifs
  · exact SlideStart_TimerInv _ (CharacterOwner_TimerInv e) e s h
  · exact h
  · exact CrouchStart_TimerInv _ (CharacterOwner_TimerInv e) s h
  · exact CrouchEnd_TimerInv _ (CharacterOwner_TimerInv e) e s h
  · exact h

/-- `Jump` keeps the timer state consistent. -/
theorem Jump_TimerInv (e : Engine) (s : AParkourSystemCharacter) (h : TimerInv s) :
    TimerInv (Jump (CharacterOwner e) e s) := by
  have hv : TimerState (Jump (CharacterOwner e) e s)
      = if CanStand e s = false then TimerState s
        else TimerState (SprintJump (CharacterOwner e) (CrouchJump (CharacterOwner e) e s)) := by
    unfold Jump
    simp only []
    split_ifs <;> rfl
  have hc : TimerInv (CrouchJump (CharacterOwner e) e s) := by
    unfold CrouchJump
    split_ifs
    · exact CrouchEnd_TimerInv _ (CharacterOwner_TimerInv e) e s h
    · exact h
  by_cases hs : CanStand e s = false
  · rw [if_pos hs] at hv
    exact TimerInv_of_TimerState_eq s _ hv h
  · rw [if_neg hs] at hv
    exact TimerInv_of_TimerState_eq _ _ hv
      (SprintJump_TimerInv _ (CharacterOwner_TimerInv e) _ hc)

/-- `Tick` keeps the timer state consistent. -/
theorem Tick_TimerInv (e : Engine) (s : AParkourSystemCharacter) (DeltaTime : ℚ)
    (h : TimerInv s) : TimerInv (Tick (CharacterOwner e) e s DeltaTime) := by
  have hc : ∀ t : AParkourSystemCharacter, TimerState (CrouchUpdate t) = TimerState t := by
    intro t
    unfold CrouchUpdate
    simp only []
    split_ifs <;> rfl
  have hu : ∀ t : AParkourSystemCharacter, TimerInv t →
      TimerInv (SlideUpdate (CharacterOwner e) e t) := by
    intro t ht
    have hv : TimerState (SlideUpdate (CharacterOwner e) e t)
        = if t.CurrentParkourMode = EParkourMode.EPM_Slide then
            TimerState (if e.Length t.Velocity < 35 then SlideEnd (CharacterOwner e) t else t)
          else TimerState t := by
      unfold SlideUpdate
      simp only []
      split_ifs <;> rfl
    refine TimerInv_of_TimerState_eq
      (if t.CurrentParkourMode = EParkourMode.EPM_Slide then
        (if e.Length t.Velocity < 35 then SlideEnd (CharacterOwner e) t else t) else t) _ ?_ ?_
    · rw [hv]
      split_ifs <;> rfl
    · split_ifs
      · exact SlideEnd_TimerInv _ (CharacterOwner_TimerInv e) t ht
      · exact ht
      · exact ht
  have h1 : TimerInv (if s.bCanSprint = true then SprintUpdate (CharacterOwner e) s else s) := by
    unfold SprintUpdate
    split_ifs
    · exact SprintEnd_TimerInv _ (CharacterOwner_TimerInv e) s h
    · exact h
    · exact h
  have h2 : ∀ t : AParkourSystemCharacter, TimerInv t →
      TimerInv (if t.bCanSlide = true then SlideUpdate (CharacterOwner e) e t else t) := by
    intro t ht
    split_ifs
    · exact hu t ht
    · exact ht
  exact TimerInv_of_TimerState_eq _ _ (hc _) (h2 _ h1)

/-- The expiry of a timer keeps the timer state consistent. -/
theorem TimerExpired_TimerInv (s : AParkourSystemCharacter) (Handle : Nat) (h : TimerInv s) :
    TimerInv (TimerExpired s Handle) := by
  unfold TimerExpired
  split_ifs
  · refine ⟨le_trans (List.length_filter_le _ _) h.1, ?_⟩
    intro t ht
    exact h.2 t (List.mem_of_mem_filter ht)
  · exact h

/-- One operation keeps the timer state consistent. -/
theorem step_TimerInv (e : Engine) (s : AParkourSystemCharacter) (op : Operation)
    (h : TimerInv s) : TimerInv (step e s op) := by
  cases op with
  | Sprint => exact Sprint_TimerInv e s h
  | SprintStart => exact SprintStart_TimerInv _ (CharacterOwner_TimerInv e) e s h
  | CrouchSlideKeyPressed => exact CrouchSlideKeyPressed_TimerInv e s h
  | Jump => exact Jump_TimerInv e s h
  | Tick DeltaTime => exact Tick_TimerInv e s DeltaTime h
  | MovementModeChanged InPrevMovementMode NewMovementMode =>
      exact OnMovementModeChanged_TimerInv _ (CharacterOwner_TimerInv e) e _
        InPrevMovementMode h
  | TimerExpired Handle => exact TimerExpired_TimerInv s Handle h
  | Simulate u => exact h

/-- Every reachable state has a consistent timer state. -/
theorem Reachable_TimerInv (e : Engine) (s : AParkourSystemCharacter) (h : Reachable e s) :
    TimerInv s := by
  induction h with
  | start s hs =>
      obtain ⟨u, hu, rfl⟩ := hs
      have ht : (BeginPlay (Constructor u)).Timers = [] := hu
      unfold TimerInv
      rw [ht]
      simp
  | next s op _ ih => exact step_TimerInv e s op ih

/-- The states a sequence of operations passes from a reachable state are
reachable. -/
theorem Reachable_run (e : Engine) (ops : List Operation) :
    ∀ s : AParkourSystemCharacter, Reachable e s → Reachable e (run e s ops) := by
  induction ops with
  | nil =>
      intro s h
      exact h
  | cons op ops ih =>
      intro s h
      exact ih (step e s op) (Reachable.next s op h)

/-- The concrete input `standing` is an initial state. -/
theorem IsInitial_standing : IsInitial standing := ⟨baseObject, rfl, rfl⟩

/-! ## Claims about the reachable states -/

/-- In a consistent state outside None no sprint is queued. -/
theorem ModeInv_queue_off (s : AParkourSystemCharacter) (h : ModeInv s)
    (hm : s.CurrentParkourMode ≠ EParkourMode.EPM_None) : s.bIsSprintQueued = false := by
  cases hb : s.bIsSprintQueued
  · rfl
  · exact absurd (h.1 hb) hm

/-- The concrete input `leaping` is in mode None with the sprint queued. -/
theorem leaping_fields :
    leaping.CurrentParkourMode = EParkourMode.EPM_None ∧ leaping.bIsSprintQueued = true := by
  rw [leaping_eq]
  exact ⟨rfl, rfl⟩

/-- The concrete input `resprinting` is in mode Sprint with the timer of its
first `SprintEnd` still pending. -/
theorem resprinting_fields :
    resprinting.CurrentParkourMode = EParkourMode.EPM_Sprint
    ∧ resprinting.PrevParkourMode = EParkourMode.EPM_None
    ∧ resprinting.Timers = [{ Handle := 1, Remaining := 1 / 10 }]
    ∧ resprinting.LastAssignedHandle = 1 := by
  obtain ⟨hm, hwk, hq, _⟩ := sprinting_fields
  have hend : SprintEnd (CharacterOwner openWorld) sprinting
      = { sprinting with
          PrevParkourMode := EParkourMode.EPM_Sprint
          CurrentParkourMode := EParkourMode.EPM_None
          MaxWalkSpeed := sprinting.DefaultWalkSpeed
          GroundFriction := sprinting.DefaultGroundFriction
          BrakingDecelerationWalking := sprinting.DefaultBrakingDeceleration
          bConstrainToPlane := false
          bCanSprint := false
          Timers := [{ Handle := 1, Remaining := 1 / 10 }]
          LastAssignedHandle := 1
          SprintTimerHandle := 1 } := by
    rw [SprintEnd_of_Sprint openWorld sprinting hm (not_Flushes_of_not_queued _ hq),
      SetTimer_of_pos _ _ (by norm_num), ToWalking_of_walking _ (by exact hwk)]
    rfl
  have h2 : (SprintEnd (CharacterOwner openWorld) sprinting).CurrentParkourMode
      = EParkourMode.EPM_None := by rw [hend]
  have hw : IsWalking (SprintEnd (CharacterOwner openWorld) sprinting) = true := by
    rw [hend]
    rfl
  have h : resprinting
      = SprintStart (CharacterOwner openWorld) openWorld
          (SprintEnd (CharacterOwner openWorld) sprinting) := by
    have h0 : resprinting
        = Sprint (CharacterOwner openWorld) openWorld
            (Sprint (CharacterOwner openWorld) openWorld
              (Sprint (CharacterOwner openWorld) openWorld standing)) := rfl
    have h1 : Sprint (CharacterOwner openWorld) openWorld standing = sprinting := rfl
    have h3 : Sprint (CharacterOwner openWorld) openWorld sprinting
        = SprintEnd (CharacterOwner openWorld) sprinting := by simp [Sprint, hm]
    rw [h0, h1, h3]
    simp [Sprint, h2]
  have hS := SprintStart_of_None_walking (CharacterOwner openWorld) openWorld
    (SprintEnd (CharacterOwner openWorld) sprinting) h2 hw
  rw [h, hS, hend]
  exact ⟨rfl, rfl, rfl, rfl⟩

/-- C15: with the scheduler as explicit state, at most one sprint re-enable
timer is pending in every reachable state; a `SprintEnd` that takes effect
disables the sprint capability flag and leaves exactly its own 0.1 s timer
pending, so a timer still pending from an earlier `SprintEnd` has been
cancelled; and the expiry of any handle handed out before it does nothing
afterwards. -/
theorem sprint_timer_single (e : Engine) (s : AParkourSystemCharacter)
    (hreach : Reachable e s) :
    s.Timers.length ≤ 1
    ∧ (s.CurrentParkourMode = EParkourMode.EPM_Sprint →
        (SprintEnd (CharacterOwner e) s).bCanSprint = false
        ∧ (SprintEnd (CharacterOwner e) s).Timers
            = [{ Handle := s.LastAssignedHandle + 1, Remaining := 1 / 10 }]
        ∧ ∀ Handle : Nat, Handle ≤ s.LastAssignedHandle →
            TimerExpired (SprintEnd (CharacterOwner e) s) Handle
              = SprintEnd (CharacterOwner e) s) := by
  have hinv := Reachable_TimerInv e s hreach
  have hmodes := Reachable_ModeInv e s hreach
  refine ⟨hinv.1, ?_⟩
  intro hm
  have hform := SprintEnd_of_Sprint e s hm (not_Flushes_of_ModeInv s hmodes (by rw [hm]; decide))
  have ht := SetTimer_Timers
    { ToWalking
        { s with
          PrevParkourMode := EParkourMode.EPM_Sprint
          CurrentParkourMode := EParkourMode.EPM_None
          MaxWalkSpeed := s.DefaultWalkSpeed
          GroundFriction := s.DefaultGroundFriction
          BrakingDecelerationWalking := s.DefaultBrakingDeceleration
          bConstrainToPlane := false } with
      bCanSprint := false } (1 / 10) (by norm_num) hinv
  rw [← hform] at ht
  have htimers : (SprintEnd (CharacterOwner e) s).Timers
      = [{ Handle := s.LastAssignedHandle + 1, Remaining := 1 / 10 }] := ht.1
  refine ⟨?_, htimers, ?_⟩
  · rw [hform, SetTimer_of_pos _ _ (by norm_num)]
  · intro Handle hle
    have hne : ¬ s.LastAssignedHandle + 1 = Handle := by omega
    simp [TimerExpired, htimers, hne]

/-- C15 at a concrete input: the character that sprints again while the timer
of its first `SprintEnd` (handle 1) is pending ends the sprint; only the new
timer (handle 2) is pending afterwards and the expiry of handle 1 does
nothing. -/
theorem sprint_timer_single_witness :
    Reachable openWorld resprinting
    ∧ resprinting.Timers = [{ Handle := 1, Remaining := 1 / 10 }]
    ∧ (SprintEnd (CharacterOwner openWorld) resprinting).Timers
        = [{ Handle := 2, Remaining := 1 / 10 }]
    ∧ TimerExpired (SprintEnd (CharacterOwner openWorld) resprinting) 1
        = SprintEnd (CharacterOwner openWorld) resprinting := by
  have hr : Reachable openWorld resprinting :=
    Reachable_run openWorld _ standing (Reachable.start standing IsInitial_standing)
  have h := (sprint_timer_single openWorld resprinting hr).2 resprinting_fields.1
  refine ⟨hr, resprinting_fields.2.2.1, ?_, ?_⟩
  · rw [h.2.1, resprinting_fields.2.2.2]
  · exact h.2.2 1 (by rw [resprinting_fields.2.2.2])

/-- `SlideUpdate` in a consistent state does not start a sprint. -/
theorem SlideUpdate_mode_ne_Sprint (e : Engine) (s : AParkourSystemCharacter)
    (hinv : ModeInv s) (h : s.CurrentParkourMode ≠ EParkourMode.EPM_Sprint) :
    (SlideUpdate (CharacterOwner e) e s).CurrentParkourMode ≠ EParkourMode.EPM_Sprint := by
  by_cases hm : s.CurrentParkourMode = EParkourMode.EPM_Slide
  · have hq : s.bIsSprintQueued = false :=
   ModeInv_queue_off s hinv (by rw [hm]; decide)
    rcases SlideUpdate_mode_of_Slide e s hm hq with h1 | h1 <;> rw [h1] <;> decide
  · have hs : SlideUpdate (CharacterOwner e) e s = s := by simp [SlideUpdate, hm]
    rw [hs]
    exact h

/-- C17: in every reachable state the sprint capability flag is set while the
mode is Sprint, so `Tick` does not skip `SprintUpdate` while sprinting; and
after a `Tick` that finds no forward input the mode is not Sprint. -/
theorem no_sprint_without_forward_input (e : Engine) (s : AParkourSystemCharacter)
    (DeltaTime : ℚ) (hreach : Reachable e s) (hforward : ForwardInput s = false) :
    (s.CurrentParkourMode = EParkourMode.EPM_Sprint → s.bCanSprint = true)
    ∧ (Tick (CharacterOwner e) e s DeltaTime).CurrentParkourMode ≠ EParkourMode.EPM_Sprint := by
  have hinv := Reachable_ModeInv e s hreach
  have hgate : s.CurrentParkourMode = EParkourMode.EPM_Sprint → s.bCanSprint = true :=
    hinv.2.2.1
  refine ⟨hgate, ?_⟩
  have hoff : s.CurrentParkourMode = EParkourMode.EPM_Sprint → s.bIsSprintQueued = false :=
    fun hm => ModeInv_queue_off s hinv (by rw [hm]; decide)
  have hu1 : ModeInv (if s.bCanSprint = true then SprintUpdate (CharacterOwner e) s else s) := by
    split_ifs
    · exact SprintUpdate_ModeInv e s hinv
    · exact hinv
  have h1 : (if s.bCanSprint = true then SprintUpdate (CharacterOwner e) s
      else s).CurrentParkourMode ≠ EParkourMode.EPM_Sprint := by
    by_cases hm : s.CurrentParkourMode = EParkourMode.EPM_Sprint
    · have hu : SprintUpdate (CharacterOwner e) s = SprintEnd (CharacterOwner e) s := by
        simp [SprintUpdate, hm, hforward]
      rw [if_pos (hgate hm), hu, (SprintEnd_fields e s hm (hoff hm)).1]
      decide
    · have hu : SprintUpdate (CharacterOwner e) s = s := by simp [SprintUpdate, hm]
      rw [hu, ite_self]
      exact hm
  have h2 : ∀ t : AParkourSystemCharacter, ModeInv t →
      t.CurrentParkourMode ≠ EParkourMode.EPM_Sprint →
      (if t.bCanSlide = true then SlideUpdate (CharacterOwner e) e t
        else t).CurrentParkourMode ≠ EParkourMode.EPM_Sprint := by
    intro t hti ht
    split_ifs
    · exact SlideUpdate_mode_ne_Sprint e t hti ht
    · exact ht
  have h3 : (Tick (CharacterOwner e) e s DeltaTime).CurrentParkourMode
      = (if (if s.bCanSprint = true then SprintUpdate (CharacterOwner e) s
            else s).bCanSlide = true then
          SlideUpdate (CharacterOwner e) e
            (if s.bCanSprint = true then SprintUpdate (CharacterOwner e) s else s)
        else (if s.bCanSprint = true then SprintUpdate (CharacterOwner e) s
          else s)).CurrentParkourMode :=
    CrouchUpdate_mode _
  rw [h3]
  exact h2 _ hu1 h1

/-- The concrete input `coasting` is sprinting with the stick let go. -/
theorem coasting_fields :
    coasting.CurrentParkourMode = EParkourMode.EPM_Sprint ∧ ForwardInput coasting = false := by
  have h : coasting = Simulate sprinting released := rfl
  have hv : coasting.ActorForwardVector = ⟨1, 0, 0⟩ ∧ coasting.LastInputVector = ⟨0, 0, 0⟩ := by
    rw [h]
    exact ⟨rfl, rfl⟩
  refine ⟨?_, by simp [ForwardInput, FVector.DotProduct, hv.1, hv.2]⟩
  rw [h]
  exact sprinting_fields.1

/-- C17 at a concrete input: the sprinting character whose player has let go
of the stick is no longer sprinting after the tick. -/
theorem no_sprint_without_forward_input_witness :
    Reachable openWorld coasting
    ∧ coasting.CurrentParkourMode = EParkourMode.EPM_Sprint
    ∧ ForwardInput coasting = false
    ∧ (Tick (CharacterOwner openWorld) openWorld coasting 0).CurrentParkourMode
        ≠ EParkourMode.EPM_Sprint := by
  have hr : Reachable openWorld coasting :=
    Reachable_run openWorld _ standing (Reachable.start standing IsInitial_standing)
  exact ⟨hr, coasting_fields.1, coasting_fields.2,
    (no_sprint_without_forward_input openWorld coasting 0 hr coasting_fields.2).2⟩

/-- C18: in every reachable state the pair (current mode, previous mode) is
one of (None, None), (None, Sprint), (None, Crouch), (Sprint, None),
(Crouch, None), (Crouch, Slide), (Slide, None). -/
theorem reachable_mode_pairs (e : Engine) (s : AParkourSystemCharacter)
    (hreach : Reachable e s) :
    (s.CurrentParkourMode = EParkourMode.EPM_None ∧ s.PrevParkourMode = EParkourMode.EPM_None)
    ∨ (s.CurrentParkourMode = EParkourMode.EPM_None
        ∧ s.PrevParkourMode = EParkourMode.EPM_Sprint)
    ∨ (s.CurrentParkourMode = EParkourMode.EPM_None
        ∧ s.PrevParkourMode = EParkourMode.EPM_Crouch)
    ∨ (s.CurrentParkourMode = EParkourMode.EPM_Sprint
        ∧ s.PrevParkourMode = EParkourMode.EPM_None)
    ∨ (s.CurrentParkourMode = EParkourMode.EPM_Crouch
        ∧ s.PrevParkourMode = EParkourMode.EPM_None)
    ∨ (s.CurrentParkourMode = EParkourMode.EPM_Crouch
        ∧ s.PrevParkourMode = EParkourMode.EPM_Slide)
    ∨ (s.CurrentParkourMode = EParkourMode.EPM_Slide
        ∧ s.PrevParkourMode = EParkourMode.EPM_None) := by
  have h : allowedModePair s.CurrentParkourMode s.PrevParkourMode = true :=
    (Reachable_ModeInv e s hreach).2.2.2.2
  revert h
  cases s.CurrentParkourMode <;> cases s.PrevParkourMode <;> simp [allowedModePair]

/-- C18 at a concrete input: the character that sprints again has the pair
(Sprint, None). -/
theorem reachable_mode_pairs_witness :
    Reachable openWorld resprinting
    ∧ resprinting.CurrentParkourMode = EParkourMode.EPM_Sprint
    ∧ resprinting.PrevParkourMode = EParkourMode.EPM_None := by
  have hr : Reachable openWorld resprinting :=
    Reachable_run openWorld _ standing (Reachable.start standing IsInitial_standing)
  have hm := resprinting_fields.1
  refine ⟨hr, hm, ?_⟩
  rcases reachable_mode_pairs openWorld resprinting hr with h | h | h | h | h | h | h
  all_goals first
    | exact h.2
    | (rw [hm] at h; exact absurd h.1 (by decide))

/-- C20: in every reachable state a queued sprint implies mode None, a queued
slide implies mode None or Sprint, and in mode Crouch or Slide both queue
flags are false. -/
theorem queue_flags_imply_standing (e : Engine) (s : AParkourSystemCharacter)
    (hreach : Reachable e s) :
    (s.bIsSprintQueued = true → s.CurrentParkourMode = EParkourMode.EPM_None)
    ∧ (s.bIsSlideQueued = true →
        s.CurrentParkourMode = EParkourMode.EPM_None
        ∨ s.CurrentParkourMode = EParkourMode.EPM_Sprint)
    ∧ (s.CurrentParkourMode = EParkourMode.EPM_Crouch
        ∨ s.CurrentParkourMode = EParkourMode.EPM_Slide →
        s.bIsSprintQueued = false ∧ s.bIsSlideQueued = false) := by
  obtain ⟨h1, h2, _⟩ := Reachable_ModeInv e s hreach
  refine ⟨h1, h2, ?_⟩
  intro hm
  constructor
  · cases hq : s.bIsSprintQueued
    · rfl
    · have hn : s.CurrentParkourMode = EParkourMode.EPM_None := h1 hq
      rcases hm with hm | hm <;> rw [hn] at hm <;> exact absurd hm (by decide)
  · cases hq : s.bIsSlideQueued
    · rfl
    · have hn : s.CurrentParkourMode = EParkourMode.EPM_None
          ∨ s.CurrentParkourMode = EParkourMode.EPM_Sprint := h2 hq
      rcases hn with h | h <;> rcases hm with hm | hm <;> rw [h] at hm <;>
        exact absurd hm (by decide)

/-- C20 at a concrete input: the character that jumped out of a sprint has
the sprint queued and is in mode None. -/
theorem queue_flags_imply_standing_witness :
    Reachable openWorld leaping
    ∧ leaping.bIsSprintQueued = true
    ∧ leaping.CurrentParkourMode = EParkourMode.EPM_None := by
  have hr : Reachable openWorld leaping :=
    Reachable_run openWorld _ standing (Reachable.start standing IsInitial_standing)
  exact ⟨hr, leaping_fields.2,
    (queue_flags_imply_standing openWorld leaping hr).1 leaping_fields.2⟩

/-! ## The capability flags -/

/-- C22: in every reachable state the slide capability flag is set exactly
when the mode is Slide and the sprint capability flag is set whenever the
mode is Sprint; so `Tick` runs `SlideUpdate` while sliding and
`SprintUpdate` while sprinting. -/
theorem capability_flags_track_mode (e : Engine) (s : AParkourSystemCharacter)
    (DeltaTime : ℚ) (hreach : Reachable e s) :
    (s.bCanSlide = true ↔ s.CurrentParkourMode = EParkourMode.EPM_Slide)
    ∧ (s.CurrentParkourMode = EParkourMode.EPM_Sprint → s.bCanSprint = true)
    ∧ (s.CurrentParkourMode = EParkourMode.EPM_Slide →
        Tick (CharacterOwner e) e s DeltaTime
          = CrouchUpdate (SlideUpdate (CharacterOwner e) e s))
    ∧ (s.CurrentParkourMode = EParkourMode.EPM_Sprint →
        Tick (CharacterOwner e) e s DeltaTime
          = CrouchUpdate (SprintUpdate (CharacterOwner e) s)) := by
  have hinv := Reachable_ModeInv e s hreach
  have hslide : s.bCanSlide = true ↔ s.CurrentParkourMode = EParkourMode.EPM_Slide :=
    hinv.2.2.2.1
  have hsprint : s.CurrentParkourMode = EParkourMode.EPM_Sprint → s.bCanSprint = true :=
    hinv.2.2.1
  refine ⟨hslide, hsprint, ?_, ?_⟩
  · intro hm
    have h1 : (if s.bCanSprint = true then SprintUpdate (CharacterOwner e) s else s) = s := by
      simp [SprintUpdate, hm]
    simp only [Tick, h1, hslide.mpr hm, if_true]
  · intro hm
    have hq : s.bIsSprintQueued = false :=
      ModeInv_queue_off s hinv (by rw [hm]; decide)
    have hu : ModeInv (SprintUpdate (CharacterOwner e) s) := SprintUpdate_ModeInv e s hinv
    have hmode : (SprintUpdate (CharacterOwner e) s).CurrentParkourMode
        ≠ EParkourMode.EPM_Slide := by
      unfold SprintUpdate
      split_ifs
      · rw [(SprintEnd_fields e s hm hq).1]
        decide
      · rw [hm]
        decide
    have hflag : ¬ (SprintUpdate (CharacterOwner e) s).bCanSlide = true :=
      fun hf => hmode (hu.2.2.2.1.mp hf)
    simp only [Tick, hsprint hm, if_true, hflag, if_false, Bool.false_eq_true]

/-- C22 at a concrete input: the sliding character has the slide capability
flag set, and its tick runs `SlideUpdate`. -/
theorem capability_flags_track_mode_witness :
    Reachable openWorld sliding
    ∧ sliding.bCanSlide = true
    ∧ Tick (CharacterOwner openWorld) openWorld sliding 0
        = CrouchUpdate (SlideUpdate (CharacterOwner openWorld) openWorld sliding) := by
  have hr : Reachable openWorld sliding :=
    Reachable.next sprinting Operation.CrouchSlideKeyPressed
      (Reachable.next standing Operation.SprintStart
        (Reachable.start standing IsInitial_standing))
  have h := capability_flags_track_mode openWorld sliding 0 hr
  exact ⟨hr, h.1.mpr sliding_mode.1, h.2.2.1 sliding_mode.1⟩

/-! ## The slope direction -/

/-- C23: for every floor normal N = (x, y, z) the slope direction
`cross(N, cross(N, Up))` of `SlideUpdate`, which is also the one of
`CalculateFloorInfluenceVector`, equals (x z, y z, -(x x + y y)); it is
orthogonal to N, its vertical component is never positive, and it is the
zero vector exactly when x = y = 0. It is what `CalculateFloorInfluenceVector`
returns for a normal outside the tolerance of the vertical axis, and what
`SlideUpdate` normalises for the force it adds on a floor of normal N. -/
theorem slope_direction (N : FVector) :
    FVector.CrossProduct N (FVector.CrossProduct N FVector.UpVector)
        = ⟨N.X * N.Z, N.Y * N.Z, -(N.X * N.X + N.Y * N.Y)⟩
    ∧ FVector.CrossProduct N (FVector.CrossProduct N FVector.ZAxisVector)
        = FVector.CrossProduct N (FVector.CrossProduct N FVector.UpVector)
    ∧ FVector.DotProduct N
        (FVector.CrossProduct N (FVector.CrossProduct N FVector.UpVector)) = 0
    ∧ (FVector.CrossProduct N (FVector.CrossProduct N FVector.UpVector)).Z ≤ 0
    ∧ (FVector.CrossProduct N (FVector.CrossProduct N FVector.UpVector) = FVector.ZeroVector
        ↔ (N.X = 0 ∧ N.Y = 0))
    ∧ (FVector.Equals N FVector.ZAxisVector KINDA_SMALL_NUMBER = false →
        CalculateFloorInfluenceVector N
          = ⟨N.X * N.Z, N.Y * N.Z, -(N.X * N.X + N.Y * N.Y)⟩)
    ∧ (∀ (e : Engine) (s : AParkourSystemCharacter),
        s.CurrentParkourMode = EParkourMode.EPM_Slide → s.CurrentFloorNormal = N →
          (SlideUpdate (CharacterOwner e) e s).Forces
            = s.Forces
              ++ [FVector.scale s.SlideForceMultiplier
                    (FVector.scale s.SlideSpeed
                      (e.GetSafeNormal
                        ⟨N.X * N.Z, N.Y * N.Z, -(N.X * N.X + N.Y * N.Y)⟩))]) := by
  have hform : FVector.CrossProduct N (FVector.CrossProduct N FVector.UpVector)
      = ⟨N.X * N.Z, N.Y * N.Z, -(N.X * N.X + N.Y * N.Y)⟩ := by
    simp only [FVector.CrossProduct, FVector.UpVector, FVector.mk.injEq]
    refine ⟨by ring, by ring, by ring⟩
  refine ⟨hform, rfl, ?_, ?_, ?_, ?_, ?_⟩
  · rw [hform]
    simp only [FVector.DotProduct]
    ring
  · rw [hform]
    show -(N.X * N.X + N.Y * N.Y) ≤ 0
    nlinarith [mul_self_nonneg N.X, mul_self_nonneg N.Y]
  · rw [hform]
    simp only [FVector.ZeroVector, FVector.mk.injEq]
    constructor
    · rintro ⟨_, _, h3⟩
      have hx := mul_self_nonneg N.X
      have hy := mul_self_nonneg N.Y
      have hx0 : N.X * N.X = 0 := by linarith
      have hy0 : N.Y * N.Y = 0 := by linarith
      exact ⟨mul_self_eq_zero.mp hx0, mul_self_eq_zero.mp hy0⟩
    · rintro ⟨hx, hy⟩
      rw [hx, hy]
      refine ⟨by ring, by ring, by ring⟩
  · intro h
    rw [CalculateFloorInfluenceVector_of_slope N h]
    exact hform
  · intro e s hm hn
    rw [SlideUpdate_slope_force e s hm, hn, hform]

/-- C23 at a concrete input: on the slope of normal (3/5, 0, 4/5) the slope
direction is (12/25, 0, -9/25), pointing downhill. -/
theorem slope_direction_witness :
    FVector.CrossProduct ⟨3 / 5, 0, 4 / 5⟩
        (FVector.CrossProduct ⟨3 / 5, 0, 4 / 5⟩ FVector.UpVector)
      = ⟨12 / 25, 0, -9 / 25⟩ := by
  rw [(slope_direction ⟨3 / 5, 0, 4 / 5⟩).1]
  simp only [FVector.mk.injEq]
  refine ⟨by norm_num, by norm_num, by norm_num⟩

/-! ## The locomotion parameters -/

/-- The parameters being among those of the mode is a property of the mode
state alone. -/
theorem ParamInv_of_ModeState_eq (s t : AParkourSystemCharacter)
    (h : ModeState t = ModeState s) (hs : ParamInv s) : ParamInv t := by
  unfold ParamInv
  rw [h]
  exact hs

/-- `SprintEnd` keeps the parameters among those of the mode. -/
theorem SprintEnd_ParamInv (e : Engine) (s : AParkourSystemCharacter) (hi : ModeInv s)
    (hp : ParamInv s) : ParamInv (SprintEnd (CharacterOwner e) s) := by
  by_cases hm : s.CurrentParkourMode = EParkourMode.EPM_Sprint
  · rw [SprintEnd_of_Sprint e s hm (not_Flushes_of_ModeInv s hi (by rw [hm]; decide)),
      SetTimer_of_pos _ _ (by norm_num)]
    simp [ParamInv, ModeState, FModeState.Tuned]
  · rw [SprintEnd_of_ne _ s hm]
    exact hp

/-- `SlideEnd` keeps the parameters among those of the mode. -/
theorem SlideEnd_ParamInv (e : Engine) (s : AParkourSystemCharacter) (hi : ModeInv s)
    (hp : ParamInv s) : ParamInv (SlideEnd (CharacterOwner e) s) := by
  by_cases hm : s.CurrentParkourMode = EParkourMode.EPM_Slide
  · rw [SlideEnd_of_Slide e s hm (not_Flushes_of_ModeInv s hi (by rw [hm]; decide))]
    simp [ParamInv, ModeState, FModeState.Tuned]
  · rw [SlideEnd_of_ne _ s hm]
    exact hp

/-- `CrouchEnd` keeps the parameters among those of the mode. -/
theorem CrouchEnd_ParamInv (e : Engine) (s : AParkourSystemCharacter) (hi : ModeInv s)
    (hp : ParamInv s) : ParamInv (CrouchEnd (CharacterOwner e) e s) := by
  by_cases hm : s.CurrentParkourMode = EParkourMode.EPM_Crouch
  · cases hs : CanStand e s
    · rw [CrouchEnd_of_blocked _ e s hs]
      exact hp
    · rw [CrouchEnd_of_Crouch e s hm hs (not_Flushes_of_ModeInv s hi (by rw [hm]; decide))]
      simp [ParamInv, ModeState, FModeState.Tuned]
  · rw [CrouchEnd_of_ne _ e s hm]
    exact hp

/-- `CrouchStart`, reached when the conditions of a slide fail, keeps the
parameters among those of the mode: the sprint that the handler starts from
inside it is left at the crouched walk speed. -/
theorem CrouchStart_ParamInv (e : Engine) (s : AParkourSystemCharacter)
    (hp : ParamInv s) (hc : CanSlide s = false) :
    ParamInv (CrouchStart (CharacterOwner e) s) := by
  by_cases hm : s.CurrentParkourMode = EParkourMode.EPM_None
  · by_cases hcalm : Flushes s
    · obtain ⟨hf, hq, hfw⟩ := hcalm
      have hsl : s.bIsSlideQueued = false := by
        cases hb : s.bIsSlideQueued
        · rfl
        · have hfi := hfw hb
          simp [CanSlide, hfi, hq] at hc
      cases hs : CanStand e s
      · rw [CrouchStart_of_blocked e s hm hsl hs]
        simp [ParamInv, ModeState, FModeState.Tuned]
      · rw [(CrouchStart_of_flush e s hm hf hq hsl hs).2]
        simp [ParamInv, ModeState, FModeState.Tuned]
    · rw [CrouchStart_of_None e s hm hcalm]
      simp [ParamInv, ModeState, FModeState.Tuned]
  · rw [CrouchStart_of_ne _ s hm]
    exact hp

/-- `SprintStart` keeps the parameters among those of the mode. -/
theorem SprintStart_ParamInv (e : Engine) (s : AParkourSystemCharacter) (hi : ModeInv s)
    (hp : ParamInv s) : ParamInv (SprintStart (CharacterOwner e) e s) := by
  cases hm : s.CurrentParkourMode
  · cases hw : IsWalking s
    · rw [SprintStart_of_None_not_walking _ e s hm hw]
      exact hp
    · rw [SprintStart_of_None_walking _ e s hm hw]
      have h0 := hp.1 hm
      simp [ParamInv, ModeState, FModeState.Tuned] at h0 ⊢
      exact ⟨h0.2.1, h0.2.2⟩
  · rw [SprintStart_of_Sprint _ e s hm]
    exact hp
  · cases hs : CanStand e s
    · rw [SprintStart_of_Crouch_blocked _ e s hm hs]
      exact hp
    · rw [SprintStart_of_Crouch e s hm hs (not_Flushes_of_ModeInv s hi (by rw [hm]; decide))]
      simp [ParamInv, ModeState, FModeState.Tuned]
  · rw [SprintStart_eq_SlideEnd e s hm]
    exact SlideEnd_ParamInv e s hi hp

/-- `SprintJump` keeps the parameters among those of the mode. -/
theorem SprintJump_ParamInv (e : Engine) (s : AParkourSystemCharacter) (hi : ModeInv s)
    (hp : ParamInv s) : ParamInv (SprintJump (CharacterOwner e) s) := by
  by_cases hm : s.CurrentParkourMode = EParkourMode.EPM_Sprint
  · have hj : SprintJump (CharacterOwner e) s
        = { SprintEnd (CharacterOwner e) s with bIsSprintQueued := true } := by
      simp only [SprintJump, hm, if_true]
    rw [hj, SprintEnd_of_Sprint e s hm (not_Flushes_of_ModeInv s hi (by rw [hm]; decide)),
      SetTimer_of_pos _ _ (by norm_num)]
    simp [ParamInv, ModeState, FModeState.Tuned]
  · have hj : SprintJump (CharacterOwner e) s = s := by simp [SprintJump, hm]
    rw [hj]
    exact hp

/-- `SlideStart` keeps the parameters among those of the mode. -/
theorem SlideStart_ParamInv (e : Engine) (s : AParkourSystemCharacter)
    (hp : ParamInv s) : ParamInv (SlideStart (CharacterOwner e) e s) := by
  by_cases hc : CanSlide s = true ∧ IsWalking s = true
  · have hmode := (SlideStart_of_ok (CharacterOwner e) e s hc.1 hc.2).1
    have hw : (SlideStart (CharacterOwner e) e s).MaxWalkSpeed = 0 := by
      simp [SlideStart, hc.1, hc.2, AddImpulse, EnableSlide]
    have hf : (SlideStart (CharacterOwner e) e s).GroundFriction = 0 := by
      simp [SlideStart, hc.1, hc.2, AddImpulse, EnableSlide]
    have hb : (SlideStart (CharacterOwner e) e s).BrakingDecelerationWalking = 1000 := by
      simp [SlideStart, hc.1, hc.2, AddImpulse, EnableSlide]
    have hmode2 : (ModeState (SlideStart (CharacterOwner e) e s)).CurrentParkourMode
        = EParkourMode.EPM_Slide := hmode
    refine ⟨?_, ?_, ?_, fun _ => ⟨hw, hf, hb⟩⟩
    · intro h
      rw [hmode2] at h
      exact absurd h (by decide)
    · intro h
      rw [hmode2] at h
      exact absurd h (by decide)
    · intro h
      rw [hmode2] at h
      exact absurd h (by decide)
  · rw [SlideStart_of_not _ e s hc]
    exact hp

/-- The crouch/slide key keeps the parameters among those of the mode. -/
theorem CrouchSlideKeyPressed_ParamInv (e : Engine) (s : AParkourSystemCharacter)
    (hi : ModeInv s) (hp : ParamInv s) :
    ParamInv (CrouchSlideKeyPressed (CharacterOwner e) e s) := by
  unfold CrouchSlideKeyPressed CrouchToggle
  split_ifs with hc
  · exact SlideStart_ParamInv e s hp
  · exact hp
  · exact CrouchStart_ParamInv e s hp (by simpa using hc)
  · exact CrouchEnd_ParamInv e s hi hp
  · exact hp

/-- `SlideUpdate` keeps the parameters among those of the mode. -/
theorem SlideUpdate_ParamInv (e : Engine) (s : AParkourSystemCharacter) (hi : ModeInv s)
    (hp : ParamInv s) : ParamInv (SlideUpdate (CharacterOwner e) e s) := by
  have hv : ModeState (SlideUpdate (CharacterOwner e) e s)
      = if s.CurrentParkourMode = EParkourMode.EPM_Slide then
          ModeState (if e.Length s.Velocity < 35 then SlideEnd (CharacterOwner e) s else s)
        else ModeState s := by
    unfold SlideUpdate
    simp only []
    split_ifs <;> rfl
  unfold ParamInv
  rw [hv]
  split_ifs
  · exact SlideEnd_ParamInv e s hi hp
  · exact hp
  · exact hp

/-- `CheckQueues` keeps the parameters among those of the mode. -/
theorem CheckQueues_ParamInv (e : Engine) (s : AParkourSystemCharacter) (hi : ModeInv s)
    (hp : ParamInv s) : ParamInv (CheckQueues (CharacterOwner e) e s) := by
  unfold CheckQueues
  split_ifs
  · exact SlideStart_ParamInv e s hp
  · exact SprintStart_ParamInv e s hi hp
  · exact hp

/-- `Jump` keeps the parameters among those of the mode. -/
theorem Jump_ParamInv (e : Engine) (s : AParkourSystemCharacter) (hi : ModeInv s)
    (hp : ParamInv s) : ParamInv (Jump (CharacterOwner e) e s) := by
  have hv : ModeState (Jump (CharacterOwner e) e s)
      = if CanStand e s = false then ModeState s
        else ModeState (SprintJump (CharacterOwner e) (CrouchJump (CharacterOwner e) e s)) := by
    unfold Jump
    simp only []
    split_ifs <;> rfl
  have hc : ModeInv (CrouchJump (CharacterOwner e) e s)
      ∧ ParamInv (CrouchJump (CharacterOwner e) e s) := by
    unfold CrouchJump
    split_ifs
    · exact ⟨CrouchEnd_ModeInv e s hi, CrouchEnd_ParamInv e s hi hp⟩
    · exact ⟨hi, hp⟩
  unfold ParamInv
  rw [hv]
  split_ifs
  · exact hp
  · exact SprintJump_ParamInv e _ hc.1 hc.2

/-- `Tick` keeps the parameters among those of the mode. -/
theorem Tick_ParamInv (e : Engine) (s : AParkourSystemCharacter) (DeltaTime : ℚ)
    (hi : ModeInv s) (hp : ParamInv s) : ParamInv (Tick (CharacterOwner e) e s DeltaTime) := by
  have hc : ∀ t : AParkourSystemCharacter, ParamInv t → ParamInv (CrouchUpdate t) := by
    intro t ht
    refine ParamInv_of_ModeState_eq t _ ?_ ht
    unfold CrouchUpdate
    simp only []
    split_ifs <;> rfl
  have h1 : ModeInv (if s.bCanSprint = true then SprintUpdate (CharacterOwner e) s else s)
      ∧ ParamInv (if s.bCanSprint = true then SprintUpdate (CharacterOwner e) s else s) := by
    unfold SprintUpdate
    split_ifs
    · exact ⟨SprintEnd_ModeInv e s hi, SprintEnd_ParamInv e s hi hp⟩
    · exact ⟨hi, hp⟩
    · exact ⟨hi, hp⟩
  have h2 : ∀ t : AParkourSystemCharacter, ModeInv t → ParamInv t →
      ParamInv (if t.bCanSlide = true then SlideUpdate (CharacterOwner e) e t else t) := by
    intro t hti ht
    split_ifs
    · exact SlideUpdate_ParamInv e t hti ht
    · exact ht
  exact hc _ (h2 _ h1.1 h1.2)

/-- A movement-mode notification keeps the parameters among those of the
mode. -/
theorem OnMovementModeChanged_ParamInv (e : Engine) (s : AParkourSystemCharacter)
    (InPrevMovementMode : EMovementMode) (hi : ModeInv s) (hp : ParamInv s) :
    ParamInv (OnMovementModeChanged (CharacterOwner e) e s InPrevMovementMode) := by
  unfold OnMovementModeChanged
  simp only []
  split_ifs
  · exact SlideEnd_ParamInv e _ (SprintEnd_ModeInv e _ (SprintJump_ModeInv e _ hi))
      (SprintEnd_ParamInv e _ (SprintJump_ModeInv e _ hi) (SprintJump_ParamInv e _ hi hp))
  · exact CheckQueues_ParamInv e _ hi hp
  · exact hp

/-- One operation keeps the parameters among those of the mode. -/
theorem step_ParamInv (e : Engine) (s : AParkourSystemCharacter) (op : Operation)
    (hi : ModeInv s) (hp : ParamInv s) : ParamInv (step e s op) := by
  cases op with
  | Sprint =>
      simp only [step, Sprint]
      split_ifs
      · exact SprintEnd_ParamInv e s hi hp
      · exact SprintStart_ParamInv e s hi hp
      · exact hp
  | SprintStart => exact SprintStart_ParamInv e s hi hp
  | CrouchSlideKeyPressed => exact CrouchSlideKeyPressed_ParamInv e s hi hp
  | Jump => exact Jump_ParamInv e s hi hp
  | Tick DeltaTime => exact Tick_ParamInv e s DeltaTime hi hp
  | MovementModeChanged InPrevMovementMode NewMovementMode =>
      exact OnMovementModeChanged_ParamInv e _ InPrevMovementMode hi hp
  | TimerExpired Handle =>
      simp only [step, TimerExpired]
      split_ifs
      · exact hp
      · exact hp
  | Simulate u => exact hp

/-- In every reachable state the parameters are among those of the mode. -/
theorem Reachable_ParamInv (e : Engine) (s : AParkourSystemCharacter) (h : Reachable e s) :
    ParamInv s := by
  induction h with
  | start s hs =>
      obtain ⟨u, _, rfl⟩ := hs
      simp [ParamInv, ModeState, FModeState.Tuned, BeginPlay, Constructor]
  | next s op hr ih => exact step_ParamInv e s op (Reachable_ModeInv e s hr) ih

/-- The concrete input `flushed`, as a record over `midair`: mode Sprint at
the crouched walk speed. -/
theorem flushed_eq :
    flushed =
      { midair with
        MovementMode := EMovementMode.MOVE_Walking
        PreviousMovementMode := EMovementMode.MOVE_Falling
        CurrentMovementMode := EMovementMode.MOVE_Walking
        bCanDoubleJump := true
        PrevParkourMode := EParkourMode.EPM_None
        CurrentParkourMode := EParkourMode.EPM_Sprint
        MaxWalkSpeed := midair.MaxWalkSpeedCrouched
        GroundFriction := midair.DefaultGroundFriction
        BrakingDecelerationWalking := midair.DefaultBrakingDeceleration
        bConstrainToPlane := false
        bCanSprint := true
        bIsSprintQueued := false
        bIsSlideQueued := false } := by
  obtain ⟨hm, hq, hs, hf, hfw, hstand, _, _, _⟩ := midair_fields
  have h : flushed = CrouchSlideKeyPressed (CharacterOwner openWorld) openWorld midair := rfl
  have hc : CanSlide midair = false := by simp [CanSlide, hfw]
  rw [h, CrouchSlideKeyPressed_of_None _ openWorld midair hm hc]
  exact (CrouchStart_of_flush openWorld midair hm hf hq hs hstand).2

/-- C21, what the code does: in every reachable state the locomotion
parameters are those of the current mode (None: default walk speed, Crouch:
the crouched cap, each with the default ground friction and braking
deceleration; Slide: walk speed 0, friction 0, braking 1000), except that in
Sprint, with the default friction and braking, the walk speed is
`SprintSpeed` or the crouched cap: the sprint that the handler starts from
inside `CrouchStart` is left at the crouched walk speed. Outside a slide the
ground friction is always the default one. -/
theorem locomotion_parameters_by_mode (e : Engine) (s : AParkourSystemCharacter)
    (hreach : Reachable e s) :
    (s.CurrentParkourMode = EParkourMode.EPM_None →
        s.MaxWalkSpeed = s.DefaultWalkSpeed
        ∧ s.GroundFriction = s.DefaultGroundFriction
        ∧ s.BrakingDecelerationWalking = s.DefaultBrakingDeceleration)
    ∧ (s.CurrentParkourMode = EParkourMode.EPM_Sprint →
        (s.MaxWalkSpeed = s.SprintSpeed ∨ s.MaxWalkSpeed = s.MaxWalkSpeedCrouched)
        ∧ s.GroundFriction = s.DefaultGroundFriction
        ∧ s.BrakingDecelerationWalking = s.DefaultBrakingDeceleration)
    ∧ (s.CurrentParkourMode = EParkourMode.EPM_Crouch →
        s.MaxWalkSpeed = s.MaxWalkSpeedCrouched
        ∧ s.GroundFriction = s.DefaultGroundFriction
        ∧ s.BrakingDecelerationWalking = s.DefaultBrakingDeceleration)
    ∧ (s.CurrentParkourMode = EParkourMode.EPM_Slide →
        s.MaxWalkSpeed = 0 ∧ s.GroundFriction = 0 ∧ s.BrakingDecelerationWalking = 1000)
    ∧ (s.CurrentParkourMode ≠ EParkourMode.EPM_Slide →
        s.GroundFriction = s.DefaultGroundFriction) := by
  obtain ⟨h1, h2, h3, h4⟩ := Reachable_ParamInv e s hreach
  refine ⟨h1, h2, h3, h4, ?_⟩
  intro hne
  cases hm : s.CurrentParkourMode
  · exact (h1 hm).2.1
  · exact (h2 hm).2.1
  · exact (h3 hm).2.1
  · exact absurd hm hne

/-- C21 at the failing input: the character that sprinted, jumped, let go of
the stick and pressed the crouch key in the air is reachable and in mode
Sprint with walk speed 300, the crouched cap, while `SprintSpeed` is 1000. -/
theorem locomotion_parameters_by_mode_witness :
    Reachable openWorld flushed
    ∧ flushed.CurrentParkourMode = EParkourMode.EPM_Sprint
    ∧ flushed.MaxWalkSpeed = 300
    ∧ flushed.SprintSpeed = 1000
    ∧ flushed.MaxWalkSpeed ≠ flushed.SprintSpeed
    ∧ flushed.GroundFriction = flushed.DefaultGroundFriction := by
  have hr : Reachable openWorld flushed :=
    Reachable_run openWorld _ standing (Reachable.start standing IsInitial_standing)
  have hm : flushed.CurrentParkourMode = EParkourMode.EPM_Sprint := by rw [flushed_eq]
  have hw : flushed.MaxWalkSpeed = 300 := by
    rw [flushed_eq]
    exact midair_fields.2.2.2.2.2.2.2.1
  have hs : flushed.SprintSpeed = 1000 := by
    rw [flushed_eq]
    exact midair_fields.2.2.2.2.2.2.1
  refine ⟨hr, hm, hw, hs, ?_, ((locomotion_parameters_by_mode openWorld flushed hr).2.1 hm).2.1⟩
  rw [hw, hs]
  norm_num

end ParkourSystem
